import Mathlib

/-!
Verification of the handlers and the router of go-neon-api.

A shallow embedding of the package `internal/http/handlers` (`onsite.go`,
`cases.go`, `products.go`, `files.go`) and of `internal/http/router.go`: the
three patch handlers (`UpdateRoom`, `UpdateExistingProduct`,
`UpdateSuggestedProduct`), the cascading `DeleteRoom` transaction,
`EnsureOnSiteVisit`, the read handlers (`ListCases`, `GetCase`,
`GetOnSiteVisit`, the two catalog lists), the create and delete handlers, and
the route table of `NewRouter`.

The relational store, gorm, gin, the JSON binder and the Go standard library
are outside the repository.  They appear here as an explicit environment:

* the result of `c.ShouldBindJSON(&patch)` is an input of type
  `Except String Patch`;
* every call a request makes on the store handle has an index (0, 1, 2, ...
  in program order) and `faults i` is the error the environment injects into
  call `i` (`none`: the engine runs it); in `DeleteRoom` call 0 is `Begin`;
* a store state maps a table name to its columns, its unique columns and its
  rows; a statement over a missing relation or column is an error, and an
  insert that breaks a unique constraint is an error;
* `cuid.New()`, the engine's `now()` and `gen_random_uuid()` are inputs of
  the handler that uses them;
* `strconv.Atoi` follows the source of package `strconv` (its fast path, and
  `ParseInt` over `ParseUint`); `strings.TrimSpace` and `strings.ToUpper` are
  modelled after their documentation; Go `int` is 64 bits wide and wraps
  around;
* gorm scans SQL NULL into the zero value of a field of a non-pointer type and
  into nil for a pointer field;
* the catalog lists, whose `ILIKE` filter is not modelled, take the rows the
  engine returns as an input.

Each handler returns its HTTP response together with the list of the calls it
made on the store handle, each with the error it returned.  Panics, and with them the
deferred `recover` of `DeleteRoom`, are outside the model.
-/

namespace NeonApi

/-! ## Values, responses, store calls -/

/-- Go `any` as it reaches the store: a JSON scalar, a timestamp, or the raw
text of a composite JSON value.  Handlers never inspect these values. -/
inductive Any where
  | null
  | bool (b : Bool)
  | num (n : Int)
  | str (s : String)
  | time (t : Int)
  | raw (json : String)
  deriving DecidableEq, Repr

/-- Body of a gin response: none (`c.Status`), `gin.H{"error": msg}`, or a
JSON payload. -/
inductive Body (α : Type) where
  | none
  | error (msg : String)
  | json (v : α)
  deriving DecidableEq, Repr

/-- Status code and body written to the gin context. -/
structure Response (α : Type) where
  status : Nat
  body : Body α
  deriving DecidableEq, Repr

def StatusOK : Nat := 200
def StatusCreated : Nat := 201
def StatusNoContent : Nat := 204
def StatusBadRequest : Nat := 400
def StatusNotFound : Nat := 404
def StatusInternalServerError : Nat := 500

/-- One round trip to the store. -/
inductive Call where
  | begin
  | exec (sql : String) (args : List Any)
  | rollback
  | commit
  | create (table : String) (row : List (String × Any))
  deriving DecidableEq, Repr

/-- A call on the store handle together with the error it returned to the
handler (`none`: success). -/
structure Event where
  call : Call
  err : Option String
  deriving DecidableEq, Repr

/-- Number of `?` placeholders of a statement: gorm binds one argument to
every `?` of the text. -/
def placeholders (sql : String) : Nat := sql.data.count '?'

/-! ## Patch handlers -/

/-- A decoded `map[string]any`, listed in the order the `range` loop visits
its entries. -/
abbrev Patch := List (String × Any)

/-- Go lookup `allowed[k]` in a `map[string]bool`: the zero value `false` for
a missing key. -/
def mapLookup (allowed : List (String × Bool)) (k : String) : Bool :=
  (List.lookup k allowed).getD false

/-- The text of fmt.Sprintf applied to the format `"%s" = ?` and `k`. -/
def sprintfSet (k : String) : String := "\"" ++ k ++ "\" = ?"

/-- Go `strings.Join(elems, sep)`. -/
def stringsJoin (elems : List String) (sep : String) : String :=
  sep.intercalate elems

/-- The loop `for k, v := range patch { if allowed[k] { set = append(..); args = append(..) } }`
started from two empty slices. -/
def patchLoop (allowed : List (String × Bool)) (patch : Patch) :
    List String × List Any :=
  patch.foldl
    (fun (acc : List String × List Any) (kv : String × Any) =>
      if mapLookup allowed kv.1 then
        (acc.1 ++ [sprintfSet kv.1], acc.2 ++ [kv.2])
      else acc)
    ([], [])

/-- Result of a patch handler: the response and the store round trips. -/
structure PatchResult where
  resp : Response Unit
  calls : List Event
  deriving DecidableEq, Repr

/-- The `allowed` map literal of `UpdateRoom`. -/
def UpdateRoom.allowed : List (String × Bool) :=
  [("location", true), ("locationTagId", true), ("lightingIssue", true),
   ("customerRequest", true), ("mountingKitQty", true),
   ("motionSensorQty", true), ("ceilingHeight", true)]

/-- Handler `UpdateRoom` (PUT /api/rooms/:roomId). -/
def UpdateRoom (faults : Nat → Option String) (roomID : String)
    (bind : Except String Patch) : PatchResult :=
  match bind with
  | .error e => ⟨⟨StatusBadRequest, .error e⟩, []⟩
  | .ok patch =>
    let sa := patchLoop UpdateRoom.allowed patch
    if sa.1.length = 0 then
      ⟨⟨StatusBadRequest, .error "no valid fields"⟩, []⟩
    else
      let args := sa.2 ++ [Any.str roomID]
      let sql := "UPDATE \"OnSiteVisitRoom\" SET " ++ stringsJoin sa.1 ", " ++ " WHERE \"id\" = ?"
      match faults 0 with
      | some e => ⟨⟨StatusInternalServerError, .error "update failed"⟩, [⟨.exec sql args, some e⟩]⟩
      | none => ⟨⟨StatusOK, .none⟩, [⟨.exec sql args, none⟩]⟩

/-- The `allowed` map literal of `UpdateExistingProduct`. -/
def UpdateExistingProduct.allowed : List (String × Bool) :=
  [("productId", true), ("quantity", true), ("bypassBallast", true)]

/-- Handler `UpdateExistingProduct` (PUT /api/existing/:id). -/
def UpdateExistingProduct (faults : Nat → Option String) (id : String)
    (bind : Except String Patch) : PatchResult :=
  match bind with
  | .error e => ⟨⟨StatusBadRequest, .error e⟩, []⟩
  | .ok patch =>
    let sa := patchLoop UpdateExistingProduct.allowed patch
    if sa.1.length = 0 then
      ⟨⟨StatusBadRequest, .error "no valid fields"⟩, []⟩
    else
      let args := sa.2 ++ [Any.str id]
      let sql := "UPDATE \"OnSiteExistingProduct\" SET " ++ stringsJoin sa.1 ", " ++ " WHERE \"id\" = ?"
      match faults 0 with
      | some e => ⟨⟨StatusInternalServerError, .error "update failed"⟩, [⟨.exec sql args, some e⟩]⟩
      | none => ⟨⟨StatusOK, .none⟩, [⟨.exec sql args, none⟩]⟩

/-- The `allowed` map literal of `UpdateSuggestedProduct`. -/
def UpdateSuggestedProduct.allowed : List (String × Bool) :=
  [("productId", true), ("quantity", true)]

/-- Handler `UpdateSuggestedProduct` (PUT /api/suggested/:id). -/
def UpdateSuggestedProduct (faults : Nat → Option String) (id : String)
    (bind : Except String Patch) : PatchResult :=
  match bind with
  | .error e => ⟨⟨StatusBadRequest, .error e⟩, []⟩
  | .ok patch =>
    let sa := patchLoop UpdateSuggestedProduct.allowed patch
    if sa.1.length = 0 then
      ⟨⟨StatusBadRequest, .error "no valid fields"⟩, []⟩
    else
      let args := sa.2 ++ [Any.str id]
      let sql := "UPDATE \"OnSiteSuggestedProduct\" SET " ++ stringsJoin sa.1 ", " ++ " WHERE \"id\" = ?"
      match faults 0 with
      | some e => ⟨⟨StatusInternalServerError, .error "update failed"⟩, [⟨.exec sql args, some e⟩]⟩
      | none => ⟨⟨StatusOK, .none⟩, [⟨.exec sql args, none⟩]⟩

/-- The shape shared by the three patch handlers: `UpdateRoom`,
`UpdateExistingProduct` and `UpdateSuggestedProduct` are this function at
their own statement head and `allowed` map. -/
def patchCore (stmtHead : String) (allowed : List (String × Bool))
    (faults : Nat → Option String) (id : String) (bind : Except String Patch) : PatchResult :=
  match bind with
  | .error e => ⟨⟨StatusBadRequest, .error e⟩, []⟩
  | .ok patch =>
    let sa := patchLoop allowed patch
    if sa.1.length = 0 then
      ⟨⟨StatusBadRequest, .error "no valid fields"⟩, []⟩
    else
      let args := sa.2 ++ [Any.str id]
      let sql := stmtHead ++ stringsJoin sa.1 ", " ++ " WHERE \"id\" = ?"
      match faults 0 with
      | some e => ⟨⟨StatusInternalServerError, .error "update failed"⟩, [⟨.exec sql args, some e⟩]⟩
      | none => ⟨⟨StatusOK, .none⟩, [⟨.exec sql args, none⟩]⟩

/-- Type of a patch handler. -/
abbrev PatchHandler := (Nat → Option String) → String → Except String Patch → PatchResult

/-- The entries of a patch whose key the `allowed` map accepts, in iteration
order. -/
def recognized (allowed : List (String × Bool)) (p : Patch) : Patch :=
  p.filter (fun kv => mapLookup allowed kv.1)

/-- Text of an UPDATE by id of `table` whose SET clause assigns the columns
`cols`, in that order, each to one placeholder. -/
def updateStatement (table : String) (cols : List String) : String :=
  "UPDATE \"" ++ table ++ "\" SET "
    ++ ", ".intercalate (cols.map (fun k => "\"" ++ k ++ "\" = ?"))
    ++ " WHERE \"id\" = ?"

/-- The SQL texts of the statements among a list of round trips. -/
def sqlTexts (calls : List Event) : List String :=
  calls.filterMap (fun ev => match ev.call with | .exec sql _ => some sql | _ => none)

/-- Room allow-list of the specification. -/
def roomFields : List String :=
  ["location", "locationTagId", "lightingIssue", "customerRequest", "mountingKitQty",
   "motionSensorQty", "ceilingHeight"]

/-- Existing-product allow-list of the specification. -/
def existingFields : List String := ["productId", "quantity", "bypassBallast"]

/-- Suggested-product allow-list of the specification. -/
def suggestedFields : List String := ["productId", "quantity"]

/-- The statement a patch handler for `table` with allow-list `allowed` sends
for patch `p` and target `id`: nothing when no key of `p` is accepted, else one
UPDATE whose SET columns are the accepted keys in iteration order and whose
arguments are their values followed by the id. -/
def expectedCalls (table : String) (allowed : List (String × Bool)) (id : String) (p : Patch) :
    List Call :=
  if recognized allowed p = [] then []
  else [Call.exec (updateStatement table ((recognized allowed p).map Prod.fst))
          ((recognized allowed p).map Prod.snd ++ [Any.str id])]

/-! ## The relational store -/

/-- A stored row: column name and value. -/
abbrev Row := List (String × Any)

/-- Value of a column in a row; SQL NULL when the row carries no value. -/
def colValue (r : Row) (col : String) : Any := (List.lookup col r).getD Any.null

/-- SQL equality `a = b` as a WHERE clause or a unique index sees it: NULL
equals nothing. -/
def sqlEq (a b : Any) : Bool := a != Any.null && a == b

/-- A relation: its columns, the columns under a unique constraint (primary
key and unique indexes), and its rows. -/
structure Table where
  cols : List String
  unique : List String
  rows : List Row
  deriving DecidableEq, Repr

/-- A store state: the relation of each table name, `none` when the store has
no such relation. -/
abbrev Store := String → Option Table

/-- The store with the rows of relation `name` replaced. -/
def setRows (s : Store) (name : String) (rows : List Row) : Store :=
  fun n => if n = name then (s n).map (fun t => { t with rows := rows }) else s n

/-- Engine semantics of `DELETE FROM "table" WHERE "col" = ?` bound to `v`. -/
def deleteWhere (s : Store) (table col : String) (v : Any) : Except String Store :=
  match s table with
  | none => .error ("relation \"" ++ table ++ "\" does not exist")
  | some t =>
    if col ∈ t.cols then
      .ok (setRows s table (t.rows.filter (fun r => !sqlEq (colValue r col) v)))
    else .error ("column \"" ++ col ++ "\" does not exist")

/-- Engine semantics of `SELECT sel FROM "table" WHERE "col" = ?` bound to `v`. -/
def selectWhere (s : Store) (table : String) (sel : List String) (col : String) (v : Any) :
    Except String (List Row) :=
  match s table with
  | none => .error ("relation \"" ++ table ++ "\" does not exist")
  | some t =>
    if col ∈ t.cols ∧ ∀ c ∈ sel, c ∈ t.cols then
      .ok (t.rows.filter (fun r => sqlEq (colValue r col) v))
    else .error "column does not exist"

/-- Engine semantics of `INSERT INTO "table" ... RETURNING ...` of one row:
rejected when a column is unknown or a unique constraint would be violated. -/
def insertRow (s : Store) (table : String) (row : Row) : Except String Store :=
  match s table with
  | none => .error ("relation \"" ++ table ++ "\" does not exist")
  | some t =>
    if ∀ kv ∈ row, kv.1 ∈ t.cols then
      if ∃ u ∈ t.unique, ∃ r ∈ t.rows, sqlEq (colValue r u) (colValue row u) = true then
        .error "duplicate key value violates unique constraint"
      else .ok (setRows s table (t.rows ++ [row]))
    else .error "column does not exist"

/-- A gorm handle: the committed state every request sees, the working copy
of the transaction this handle has open, if any, and the error a failed
`Begin` left on the handle (its field `Error`). -/
structure Conn where
  store : Store
  tx : Option Store
  err : Option String

/-- The gorm call `db.DB.Begin()`: open a transaction on a copy of the
committed state; when the engine refuses, no transaction is open and the
handle returned carries the error. -/
def Conn.Begin (fault : Option String) (c : Conn) : Conn :=
  match fault with
  | some e => { c with err := some e }
  | none => { c with tx := some c.store }

/-- The gorm call `tx.Rollback()`: drop the working copy. -/
def Conn.Rollback (c : Conn) : Conn := { c with tx := none }

/-- The gorm call `tx.Commit()`: publish the working copy; on failure nothing
is published and the transaction is over. On a handle whose `Begin` failed
there is no transaction to commit. -/
def Conn.Commit (fault : Option String) (c : Conn) : Option String × Conn :=
  match c.err with
  | some e => (some (e ++ "; invalid transaction"), c)
  | none =>
    match fault with
    | some e => (some e, { c with tx := none })
    | none =>
      match c.tx with
      | some w => (none, ⟨w, none, none⟩)
      | none => (some "sql: transaction has already been committed or rolled back", c)

/-- A call `tx.Exec` of a DELETE statement on this handle: it runs on the
working copy of the open transaction (on the committed state when none is
open); a failed statement changes nothing. On a handle that carries the error
of a failed `Begin`, gorm runs no statement and the call returns that error. -/
def Conn.ExecDelete (fault : Option String) (c : Conn) (table col : String) (v : Any) :
    Option String × Conn :=
  match c.err with
  | some e => (some e, c)
  | none =>
    match fault with
    | some e => (some e, c)
    | none =>
      match c.tx with
      | some w =>
        match deleteWhere w table col v with
        | .ok w2 => (none, { c with tx := some w2 })
        | .error e => (some e, c)
      | none =>
        match deleteWhere c.store table col v with
        | .ok s2 => (none, { c with store := s2 })
        | .error e => (some e, c)

/-- SQL text of the four DELETE statements of `DeleteRoom`. -/
def deleteSQL (table col : String) : String :=
  "DELETE FROM \"" ++ table ++ "\" WHERE \"" ++ col ++ "\" = ?"

/-! ## DeleteRoom -/

/-- Result of `DeleteRoom`: the response, the handle after the request and the
store round trips. -/
structure DeleteResult where
  resp : Response Unit
  conn : Conn
  calls : List Event

/-- Handler `DeleteRoom` (DELETE /api/rooms/:roomId) run on committed state
`db`. Call 0 of the request is `Begin`, calls 1 to 4 are the four DELETE
statements and call 5 is `Commit`; the handler does not read what `Rollback`
returns, so its event carries no error. -/
def DeleteRoom (db : Store) (faults : Nat → Option String) (roomID : String) : DeleteResult :=
  let tx := Conn.Begin (faults 0) ⟨db, none, none⟩
  let ev0 : Event := ⟨.begin, tx.err⟩
  -- 1. photos
  let s1 := Conn.ExecDelete (faults 1) tx "Photo" "roomId" (.str roomID)
  let ev1 : Event := ⟨.exec (deleteSQL "Photo" "roomId") [.str roomID], s1.1⟩
  match s1.1 with
  | some err =>
    ⟨⟨StatusInternalServerError, .error ("failed to delete photos: " ++ err)⟩,
      Conn.Rollback s1.2, [ev0, ev1, ⟨.rollback, none⟩]⟩
  | none =>
  -- 2. suggested lights
  let s2 := Conn.ExecDelete (faults 2) s1.2 "SuggestedLight" "roomId" (.str roomID)
  let ev2 : Event := ⟨.exec (deleteSQL "SuggestedLight" "roomId") [.str roomID], s2.1⟩
  match s2.1 with
  | some err =>
    ⟨⟨StatusInternalServerError, .error ("failed to delete suggested lights: " ++ err)⟩,
      Conn.Rollback s2.2, [ev0, ev1, ev2, ⟨.rollback, none⟩]⟩
  | none =>
  -- 3. existing lights
  let s3 := Conn.ExecDelete (faults 3) s2.2 "ExistingLight" "roomId" (.str roomID)
  let ev3 : Event := ⟨.exec (deleteSQL "ExistingLight" "roomId") [.str roomID], s3.1⟩
  match s3.1 with
  | some err =>
    ⟨⟨StatusInternalServerError, .error ("failed to delete existing lights: " ++ err)⟩,
      Conn.Rollback s3.2, [ev0, ev1, ev2, ev3, ⟨.rollback, none⟩]⟩
  | none =>
  -- 4. the room itself
  let s4 := Conn.ExecDelete (faults 4) s3.2 "OnSiteVisitRoom" "id" (.str roomID)
  let ev4 : Event := ⟨.exec (deleteSQL "OnSiteVisitRoom" "id") [.str roomID], s4.1⟩
  match s4.1 with
  | some err =>
    ⟨⟨StatusInternalServerError, .error ("failed to delete room: " ++ err)⟩,
      Conn.Rollback s4.2, [ev0, ev1, ev2, ev3, ev4, ⟨.rollback, none⟩]⟩
  | none =>
  -- commit
  let s5 := Conn.Commit (faults 5) s4.2
  match s5.1 with
  | some err =>
    ⟨⟨StatusInternalServerError, .error ("failed to commit transaction: " ++ err)⟩,
      s5.2, [ev0, ev1, ev2, ev3, ev4, ⟨.commit, some err⟩]⟩
  | none =>
    ⟨⟨StatusNoContent, .none⟩, s5.2, [ev0, ev1, ev2, ev3, ev4, ⟨.commit, none⟩]⟩

/-! ## EnsureOnSiteVisit -/

/-- The `head` struct of `EnsureOnSiteVisit`. -/
structure VisitHead where
  ID : String
  CaseID : String
  CreatedAt : Int
  deriving DecidableEq, Repr

/-- Scan of a text column into a Go `string` (zero value otherwise). -/
def asString : Any → String
  | .str s => s
  | _ => ""

/-- Scan of a timestamp column into a Go `time.Time` (zero value otherwise). -/
def asTime : Any → Int
  | .time t => t
  | _ => 0

/-- The header stored in a row of `OnSiteVisit`: its columns `id`, `caseId`
and `createdAt`. -/
def rowHead (r : Row) : VisitHead :=
  ⟨asString (colValue r "id"), asString (colValue r "caseId"), asTime (colValue r "createdAt")⟩

/-- The call `Scan(&head)` over the rows a query returned: the first row fills
the struct, and with no row the struct is left as it was. -/
def scanHead (rows : List Row) (head : VisitHead) : VisitHead :=
  match rows with
  | [] => head
  | r :: _ => rowHead r

/-- SQL text of the lookup of `EnsureOnSiteVisit`. -/
def ensureSelectSQL : String :=
  "SELECT \"id\",\"caseId\",\"createdAt\" FROM \"OnSiteVisit\" WHERE \"caseId\" = ? LIMIT 1"

/-- SQL text of the insert of `EnsureOnSiteVisit`. -/
def ensureInsertSQL : String :=
  "INSERT INTO \"OnSiteVisit\" (\"id\",\"caseId\",\"createdAt\")\n\t\t VALUES (?, ?, now())\n\t\t RETURNING \"id\",\"caseId\",\"createdAt\""

/-- Result of `EnsureOnSiteVisit`: the response, the store after the request
and the store round trips. -/
structure EnsureResult where
  resp : Response VisitHead
  db : Store
  calls : List Event

/-- Handler `EnsureOnSiteVisit` (POST /api/cases/:id/onsite) run on store
`db`; `newID` is the value `cuid.New()` returns and `now` the value of the
engine's `now()`. -/
def EnsureOnSiteVisit (db : Store) (faults : Nat → Option String) (newID : String) (now : Int)
    (caseID : String) : EnsureResult :=
  let head0 : VisitHead := ⟨"", "", 0⟩
  -- Try find
  let q1 : Except String (List Row) :=
    match faults 0 with
    | some e => .error e
    | none => selectWhere db "OnSiteVisit" ["id", "caseId", "createdAt"] "caseId" (.str caseID)
  let err1 : Option String := match q1 with | .error e => some e | .ok _ => none
  let head1 : VisitHead := match q1 with | .error _ => head0 | .ok rows => scanHead (rows.take 1) head0
  let ev1 : Event := ⟨.exec ensureSelectSQL [.str caseID], err1⟩
  if err1 = none ∧ head1.ID ≠ "" then
    ⟨⟨StatusOK, .json head1⟩, db, [ev1]⟩
  else
    -- Create new with CUID
    let row : Row := [("id", .str newID), ("caseId", .str caseID), ("createdAt", .time now)]
    let q2 : Except String Store :=
      match faults 1 with
      | some e => .error e
      | none => insertRow db "OnSiteVisit" row
    match q2 with
    | .error e =>
      ⟨⟨StatusInternalServerError, .error "create visit failed"⟩, db,
        [ev1, ⟨.exec ensureInsertSQL [.str newID, .str caseID], some e⟩]⟩
    | .ok db2 =>
      ⟨⟨StatusOK, .json (scanHead [row] head1)⟩, db2,
        [ev1, ⟨.exec ensureInsertSQL [.str newID, .str caseID], none⟩]⟩

/-- Number of `OnSiteVisit` rows of a case in a store. -/
def visitCount (db : Store) (caseID : String) : Nat :=
  match db "OnSiteVisit" with
  | none => 0
  | some t => (t.rows.filter (fun r => sqlEq (colValue r "caseId") (Any.str caseID))).length

/-- Rows of relation `table` whose column `col` holds the text `v`. -/
def rowsWhere (db : Store) (table col v : String) : List Row :=
  match db table with
  | none => []
  | some t => t.rows.filter (fun r => sqlEq (colValue r col) (Any.str v))

/-! ## Vocabulary for the DeleteRoom transaction -/

/-- The round trips of a `DeleteRoom` that runs to the end, in program order. -/
def deleteRoomScript (roomID : String) : List Call :=
  [Call.begin,
   Call.exec "DELETE FROM \"Photo\" WHERE \"roomId\" = ?" [Any.str roomID],
   Call.exec "DELETE FROM \"SuggestedLight\" WHERE \"roomId\" = ?" [Any.str roomID],
   Call.exec "DELETE FROM \"ExistingLight\" WHERE \"roomId\" = ?" [Any.str roomID],
   Call.exec "DELETE FROM \"OnSiteVisitRoom\" WHERE \"id\" = ?" [Any.str roomID],
   Call.commit]

/-- Outcome of one DELETE inside the transaction whose working copy is `w`:
the injected error if any, else what the engine does. -/
def txDelete (fault : Option String) (w : Store) (table col : String) (v : Any) :
    Except String Store :=
  match fault with
  | some e => .error e
  | none => deleteWhere w table col v

/-- The round trips of a `DeleteRoom` whose statement number `n` (1 to 4) fails
with `e`: the statements up to that one, then the rollback. -/
def failedRun (roomID : String) (n : Nat) (e : String) : List Event :=
  ((deleteRoomScript roomID).take n).map (fun c => ⟨c, none⟩)
    ++ [⟨(deleteRoomScript roomID).getD n Call.begin, some e⟩, ⟨Call.rollback, none⟩]

/-- A round trip is one of the DELETE statements. -/
def Event.isStatement (ev : Event) : Bool :=
  match ev.call with
  | .exec _ _ => true
  | _ => false

/-- No row of relation `table` holds `v` in column `col` (and the relation and
the column exist): the DELETE by that column has nothing left to remove. -/
def Stable (s : Store) (table col : String) (v : Any) : Prop :=
  ∃ t, s table = some t ∧ col ∈ t.cols ∧ ∀ r ∈ t.rows, sqlEq (colValue r col) v = false

/-- The unique index that `models.go` declares on `OnSiteVisit.caseId` is in
force for case `caseID`: the relation, when present, lists `caseId` among its
unique columns and holds at most one row of that case. -/
def uniqueVisitPerCase (db : Store) (caseID : String) : Bool :=
  match db "OnSiteVisit" with
  | none => true
  | some t =>
    decide ("caseId" ∈ t.unique)
      && decide
        ((t.rows.filter (fun r => sqlEq (colValue r "caseId") (Any.str caseID))).length ≤ 1)

/-! ## Sample stores -/

/-- A store laid out as `models.go` declares the relations, with one visit of
case `case1`, one room `room1`, two existing products, one suggested product
and one room photo. -/
def declaredStore : Store := fun n =>
  if n = "OnSiteVisit" then
    some ⟨["id", "caseId", "createdAt"], ["id", "caseId"],
      [[("id", .str "visit1"), ("caseId", .str "case1"), ("createdAt", .time 100)]]⟩
  else if n = "OnSiteVisitRoom" then
    some ⟨["id", "onSiteVisitId", "location", "locationTagId", "lightingIssue",
        "customerRequest", "mountingKitQty", "motionSensorQty", "createdAt", "ceilingHeight"],
      ["id"],
      [[("id", .str "room1"), ("onSiteVisitId", .str "visit1"),
        ("location", .str "Warehouse A"), ("createdAt", .time 101)]]⟩
  else if n = "OnSiteExistingProduct" then
    some ⟨["id", "roomId", "productId", "quantity", "bypassBallast"], ["id"],
      [[("id", .str "e1"), ("roomId", .str "room1"), ("productId", .str "p1"),
        ("quantity", .num 4), ("bypassBallast", .bool false)],
       [("id", .str "e2"), ("roomId", .str "room1"), ("productId", .str "p2"),
        ("quantity", .num 1), ("bypassBallast", .bool true)]]⟩
  else if n = "OnSiteSuggestedProduct" then
    some ⟨["id", "roomId", "productId", "quantity"], ["id"],
      [[("id", .str "s1"), ("roomId", .str "room1"), ("productId", .str "t1"),
        ("quantity", .num 4)]]⟩
  else if n = "OnSiteVisitPhoto" then
    some ⟨["id", "roomId", "url", "comment", "createdAt"], ["id"],
      [[("id", .str "ph1"), ("roomId", .str "room1"), ("url", .str "https://x/1.jpg"),
        ("comment", .str ""), ("createdAt", .time 102)]]⟩
  else if n = "Photo" then
    some ⟨["id", "url", "caseId", "uploadedViaLink", "comment", "customName", "createdAt"],
      ["id"], []⟩
  else none

/-- The store `declaredStore` with, in addition, the relations and the column
that the statements of `DeleteRoom` name: `SuggestedLight`, `ExistingLight`
and a `roomId` column on `Photo` (one photo of `room1`). -/
def legacyStore : Store := fun n =>
  if n = "Photo" then
    some ⟨["id", "url", "caseId", "roomId", "createdAt"], ["id"],
      [[("id", .str "f1"), ("url", .str "https://x/2.jpg"), ("caseId", .str "case1"),
        ("roomId", .str "room1"), ("createdAt", .time 103)]]⟩
  else if n = "SuggestedLight" then some ⟨["id", "roomId"], ["id"], []⟩
  else if n = "ExistingLight" then some ⟨["id", "roomId"], ["id"], []⟩
  else declaredStore n

/-! ## Properties stated per patch handler -/

/-- The statement built for patch `p` has a SET clause made of exactly the
accepted keys of `p`, each once, and the entries of `p` outside the allow-list
change nothing in what the handler does. -/
def SetClauseExact (handler : PatchHandler) (table : String) (allowed : List (String × Bool))
    (faults : Nat → Option String) (id : String) (p : Patch) : Prop :=
  (handler faults id (.ok p)).calls.map Event.call
      = [Call.exec (updateStatement table ((recognized allowed p).map Prod.fst))
          ((recognized allowed p).map Prod.snd ++ [Any.str id])]
    ∧ ((recognized allowed p).map Prod.fst).Nodup
    ∧ (∀ k, k ∈ (recognized allowed p).map Prod.fst
          ↔ k ∈ p.map Prod.fst ∧ mapLookup allowed k = true)
    ∧ handler faults id (.ok p) = handler faults id (.ok (recognized allowed p))

/-- Values travel only as bound arguments: two requests send the same SQL
texts, the round trips of the first are the expected UPDATE (arguments: the
values of the SET columns in order, then the id), and every statement has as
many placeholders as arguments. -/
def BoundOnly (handler : PatchHandler) (table : String) (allowed : List (String × Bool))
    (f1 f2 : Nat → Option String) (id1 id2 : String) (p1 p2 : Patch) : Prop :=
  sqlTexts (handler f1 id1 (.ok p1)).calls = sqlTexts (handler f2 id2 (.ok p2)).calls
    ∧ (handler f1 id1 (.ok p1)).calls.map Event.call = expectedCalls table allowed id1 p1
    ∧ (∀ ev ∈ (handler f1 id1 (.ok p1)).calls, ∀ sql args,
          ev.call = Call.exec sql args → placeholders sql = args.length)

/-- The round trips the specification prescribes for a patch of a resource
with allow-list `fields`: keep the entries whose key is listed; none left, no
statement; else one UPDATE over exactly those keys. -/
def specCalls (table : String) (fields : List String) (id : String) (p : Patch) : List Call :=
  let kept := p.filter (fun kv => kv.1 ∈ fields)
  if kept = [] then []
  else [Call.exec (updateStatement table (kept.map Prod.fst)) (kept.map Prod.snd ++ [Any.str id])]

/-- A handler follows the allow-list `fields` of the specification: it sends
the prescribed round trips, and answers 400 "no valid fields" exactly when no
key of the patch is listed. -/
def FollowsAllowList (handler : PatchHandler) (table : String) (fields : List String)
    (faults : Nat → Option String) (id : String) (p : Patch) : Prop :=
  (handler faults id (.ok p)).calls.map Event.call = specCalls table fields id p
    ∧ ((handler faults id (.ok p)).resp = ⟨400, .error "no valid fields"⟩
          ↔ ∀ kv ∈ p, kv.1 ∉ fields)

/-! ## Go library functions used by the list handlers -/

def StatusUnauthorized : Nat := 401

/-- Go `unicode.IsSpace`: the white space that `strings.TrimSpace` removes. -/
def isSpace (c : Char) : Bool :=
  (9 ≤ c.toNat && c.toNat ≤ 13) || c.toNat = 32 || c.toNat = 0x85 || c.toNat = 0xA0
    || c.toNat = 0x1680 || (0x2000 ≤ c.toNat && c.toNat ≤ 0x200A) || c.toNat = 0x2028
    || c.toNat = 0x2029 || c.toNat = 0x202F || c.toNat = 0x205F || c.toNat = 0x3000

/-- Go `strings.TrimSpace`. -/
def TrimSpace (s : String) : String :=
  String.mk ((s.data.dropWhile isSpace).reverse.dropWhile isSpace).reverse

/-- Upper case of one rune, exact on every rune whose upper case is an ASCII
letter (a to z, dotless i and long s); every other rune, whose upper case is
never an ASCII letter, stays in place. -/
def toUpperRune (c : Char) : Char :=
  if 97 ≤ c.toNat ∧ c.toNat ≤ 122 then Char.ofNat (c.toNat - 32)
  else if c.toNat = 0x131 then 'I'
  else if c.toNat = 0x17F then 'S'
  else c

/-- Go `strings.ToUpper`, as far as a comparison with an ASCII word can tell
(see `toUpperRune`). -/
def ToUpper (s : String) : String := String.mk (s.data.map toUpperRune)

/-- Largest Go `int` on the 64-bit targets the service builds for. -/
def maxInt : Int := 9223372036854775807

/-- Smallest Go `int`. -/
def minInt : Int := -9223372036854775808

/-- Go `int` arithmetic: the result of an operation, reduced to 64 bits two's
complement. -/
def wrapInt (x : Int) : Int :=
  (x + 9223372036854775808) % 18446744073709551616 - 9223372036854775808

/-- The errors of Go package `strconv`. -/
inductive NumError where
  | ErrSyntax
  | ErrRange
  deriving DecidableEq, Repr

/-- Largest Go `uint64`. -/
def maxUint64 : Nat := 18446744073709551615

/-- The loop of Go `strconv.ParseUint(s, 10, 64)` over the bytes still to
read, `n` being the value read so far. A byte that is no decimal digit ends it
with a syntax error and 0; a digit that takes the value above the largest
`uint64` (the test `n >= cutoff` before the multiplication, cutoff being
`maxUint64/10 + 1`, or the test on `n1` after the addition) ends it at once
with a range error and the largest `uint64`, the bytes after it unread. A
character outside ASCII is bytes that are no digits. -/
def ParseUint.loop : List Char → Nat → Nat × Option NumError
  | [], n => (n, none)
  | c :: cs, n =>
    if 48 ≤ c.toNat ∧ c.toNat ≤ 57 then
      if n ≥ maxUint64 / 10 + 1 then (maxUint64, some .ErrRange)
      else
        let n1 := n * 10 + (c.toNat - 48)
        if n1 > maxUint64 then (maxUint64, some .ErrRange)
        else ParseUint.loop cs n1
    else (0, some .ErrSyntax)

/-- Go `strconv.ParseUint(s, 10, 64)`, `s` given by its characters: the empty
text is a syntax error. -/
def ParseUint (s : List Char) : Nat × Option NumError :=
  if s = [] then (0, some .ErrSyntax) else ParseUint.loop s 0

/-- Go `strconv.ParseInt(s, 10, 0)` on a 64-bit target: the sign is picked
off, the rest read by `ParseUint`; a syntax error gives 0, and a magnitude an
`int64` cannot hold (the range error of `ParseUint` included) gives the
largest or the smallest `int64` with a range error. -/
def ParseInt (s : String) : Int × Option NumError :=
  match s.data with
  | [] => (0, some .ErrSyntax)
  | c :: cs =>
    let neg : Bool := decide (c = '-')
    let rest : List Char := if c = '+' ∨ c = '-' then cs else c :: cs
    match ParseUint rest with
    | (_, some .ErrSyntax) => (0, some .ErrSyntax)
    | (un, _) =>
      if neg = false ∧ un ≥ 9223372036854775808 then (9223372036854775807, some .ErrRange)
      else if neg = true ∧ un > 9223372036854775808 then (-9223372036854775808, some .ErrRange)
      else (if neg then -(un : Int) else (un : Int), none)

/-- The loop of the fast path of Go `strconv.Atoi`: `none` at a byte that is
no decimal digit. -/
def Atoi.loop : List Char → Int → Option Int
  | [], n => some n
  | c :: cs, n =>
    if 48 ≤ c.toNat ∧ c.toNat ≤ 57 then Atoi.loop cs (n * 10 + ((c.toNat - 48 : Nat) : Int))
    else none

/-- Go `strconv.Atoi` on a 64-bit target (value, and whether `err == nil`): a
text of 1 to 18 bytes takes the fast path, which reads an optional sign and
decimal digits and cannot overflow; every other text goes through
`ParseInt(s, 10, 0)`. -/
def Atoi (s : String) : Int × Bool :=
  if 0 < s.utf8ByteSize ∧ s.utf8ByteSize < 19 then
    match s.data with
    | [] => (0, false)
    | c :: cs =>
      if (c = '-' ∨ c = '+') ∧ cs = [] then (0, false)
      else
        match Atoi.loop (if c = '-' ∨ c = '+' then cs else c :: cs) 0 with
        | none => (0, false)
        | some n => (if c = '-' then -n else n, true)
  else
    ((ParseInt s).1, decide ((ParseInt s).2 = none))

/-- One step of reading a decimal numeral: the value so far taken one digit
further; `none` once a character is no decimal digit. -/
def digitStep (acc : Option Nat) (c : Char) : Option Nat :=
  match acc with
  | none => none
  | some n => if 48 ≤ c.toNat ∧ c.toNat ≤ 57 then some (n * 10 + (c.toNat - 48)) else none

/-- Value of a non-empty run of decimal digits; `none` for any other text. -/
def digitsValue (ds : List Char) : Option Nat :=
  if ds = [] then none else ds.foldl digitStep (some 0)

/-- The integer a text denotes in base 10: an optional sign and decimal
digits; `none` for any other text. -/
def parseDecimal (s : String) : Option Int :=
  match s.data with
  | '+' :: ds => (digitsValue ds).map (fun n => (n : Int))
  | '-' :: ds => (digitsValue ds).map (fun n => -(n : Int))
  | ds => (digitsValue ds).map (fun n => (n : Int))

/-- Some initial run of decimal digits of the text has a value above 2^64-1,
the largest `uint64`. -/
def overflowsUint64 (ds : List Char) : Bool :=
  (List.range (ds.length + 1)).any (fun k =>
    match digitsValue (ds.take k) with
    | some v => decide (18446744073709551615 < v)
    | none => false)

/-- The text, after an optional `+`, starts with decimal digits whose value is
above 2^64-1. -/
def overflowsUp (s : String) : Bool :=
  match s.data with
  | '-' :: _ => false
  | '+' :: ds => overflowsUint64 ds
  | ds => overflowsUint64 ds

/-- The digits read from value `n` on take the value above 2^64-1 before any
character that is no digit. -/
def overflowsFrom : Nat → List Char → Bool
  | _, [] => false
  | n, c :: cs =>
    if 48 ≤ c.toNat ∧ c.toNat ≤ 57 then
      if 18446744073709551615 < n * 10 + (c.toNat - 48) then true
      else overflowsFrom (n * 10 + (c.toNat - 48)) cs
    else false

/-- Reading of a text without its sign as an `int`, `neg` telling whether the
sign was a minus: the value of the digits, held to the `int` range; for a text
that is no run of digits, the end of the range when its leading digits
overflow a `uint64`, and 0 otherwise. -/
def readInt (neg : Bool) (ds : List Char) : Int :=
  match digitsValue ds with
  | some v =>
    if neg then (if (v : Int) > 9223372036854775808 then minInt else -(v : Int))
    else (if (v : Int) > maxInt then maxInt else (v : Int))
  | none => if overflowsUint64 ds then (if neg then minInt else maxInt) else 0

/-- Reading of a text as an `int`: `readInt` of the text without its sign. -/
def readText (s : String) : Int :=
  match s.data with
  | '+' :: ds => readInt false ds
  | '-' :: ds => readInt true ds
  | ds => readInt false ds

/-- The gin call `c.DefaultQuery(key, dflt)`: the query value when the key is
present, else the default. -/
def DefaultQuery (q : Option String) (dflt : String) : String := q.getD dflt

/-! ## ListCases -/

/-- The Go type of a struct field, as far as the scan of a column into it
goes: the non-pointer types, and any pointer type. -/
inductive GoType where
  | string
  | int
  | float64
  | bool
  | time
  | pointer
  deriving DecidableEq, Repr

/-- The zero value of a Go type (`Any.time 0` stands for the zero
`time.Time`, `Any.null` for a nil pointer). -/
def GoType.zero : GoType → Any
  | .string => Any.str ""
  | .int => Any.num 0
  | .float64 => Any.num 0
  | .bool => Any.bool false
  | .time => Any.time 0
  | .pointer => Any.null

/-- A field of a struct that gorm scans rows into: its JSON key, the column it
is filled from (its `gorm:"column:..."` tag) and its Go type. -/
structure Field where
  key : String
  column : String
  goType : GoType
  deriving DecidableEq, Repr

/-- The gorm scan of a column value into a field: SQL NULL leaves a field of a
non-pointer type at its zero value and a pointer field nil. -/
def scanField (t : GoType) (v : Any) : Any :=
  match v with
  | .null => t.zero
  | w => w

/-- The gorm scan of a row into a struct with the listed fields, as the JSON
object the struct is rendered to. -/
def scanCols (fields : List Field) (r : Row) : Row :=
  fields.map (fun f => (f.key, scanField f.goType (colValue r f.column)))

/-- Rows ordered by a timestamp column, latest first (`ORDER BY col DESC`). -/
def orderByTimeDesc (col : String) (rows : List Row) : List Row :=
  rows.insertionSort (fun a b => asTime (colValue b col) ≤ asTime (colValue a col))

/-- Engine semantics of `"Case" c JOIN "User" u ON u."id" = c."userId"`: each
case row paired with its owner, the owner's name and email carried as
`user_name` and `user_email`. -/
def joinCaseUser (db : Store) : Except String (List Row) :=
  match db "Case", db "User" with
  | some c, some u =>
    if "id" ∈ c.cols ∧ "userId" ∈ c.cols ∧ "createdAt" ∈ c.cols ∧ "id" ∈ u.cols then
      .ok (c.rows.flatMap (fun cr =>
        (u.rows.filter (fun ur => sqlEq (colValue ur "id") (colValue cr "userId"))).map
          (fun ur => cr ++ [("user_name", colValue ur "name"), ("user_email", colValue ur "email")])))
    else .error "column does not exist"
  | _, _ => .error "relation does not exist"

/-- Engine semantics of the case list query: the joined rows, those of
`owner` only when an owner filter is given, latest first, `limit` rows from
`offset` on. -/
def selectCases (db : Store) (owner : Option Any) (limit offset : Int) :
    Except String (List Row) :=
  match joinCaseUser db with
  | .error e => .error e
  | .ok rows =>
    if limit < 0 then .error "LIMIT must not be negative"
    else if offset < 0 then .error "OFFSET must not be negative"
    else
      .ok (((orderByTimeDesc "createdAt"
          (match owner with
           | none => rows
           | some v => rows.filter (fun r => sqlEq (colValue r "userId") v))).drop
            offset.toNat).take limit.toNat)

/-- One element of the array `ListCases` answers with: the case columns and
the nested `user` object. -/
structure CaseItem where
  fields : Row
  user : Row
  deriving DecidableEq, Repr

/-- The scan of a row into the struct `Row` of `ListCases`, and the loop that
shapes it into an `Item`: the case fields, and the nested user with its name
(a `*string`) and email. -/
def caseItem (r : Row) : CaseItem :=
  ⟨scanCols
      [⟨"id", "id", .string⟩, ⟨"customerName", "customerName", .string⟩,
       ⟨"projectDetails", "projectDetails", .string⟩,
       ⟨"contactPerson", "contactPerson", .string⟩, ⟨"schoolName", "schoolName", .string⟩,
       ⟨"emailAddress", "emailAddress", .string⟩, ⟨"status", "status", .string⟩,
       ⟨"createdAt", "createdAt", .time⟩, ⟨"updatedAt", "updatedAt", .time⟩] r,
   scanCols [⟨"name", "user_name", .pointer⟩, ⟨"email", "user_email", .string⟩] r⟩

/-- The string `baseSQL` of `ListCases`. -/
def ListCases.baseSQL : String :=
  "\n\t\tSELECT\n\t\t\tc.\"id\", c.\"customerName\", c.\"projectDetails\", c.\"contactPerson\", c.\"schoolName\",\n\t\t\tc.\"emailAddress\", c.\"status\", c.\"createdAt\", c.\"updatedAt\",\n\t\t\tu.\"name\" AS user_name, u.\"email\" AS user_email\n\t\tFROM \"Case\" c\n\t\tJOIN \"User\" u ON u.\"id\" = c.\"userId\"\n\t"

/-- The string `orderLimit` of `ListCases`. -/
def ListCases.orderLimit : String := " ORDER BY c.\"createdAt\" DESC LIMIT ? OFFSET ?"

/-- The variable `page` of `ListCases` after its clamp. -/
def ListCases.page (qPage : Option String) : Int :=
  let page := (Atoi (DefaultQuery qPage "1")).1
  if page < 1 then 1 else page

/-- The variable `limit` of `ListCases` after its clamp. -/
def ListCases.limit (qLimit : Option String) : Int :=
  let limit := (Atoi (DefaultQuery qLimit "100")).1
  if limit < 1 ∨ limit > 500 then 100 else limit

/-- The variable `offset` of `ListCases`. -/
def ListCases.offset (qPage qLimit : Option String) : Int :=
  wrapInt ((ListCases.page qPage - 1) * ListCases.limit qLimit)

/-- Result of `ListCases`. -/
structure ListCasesResult where
  resp : Response (List CaseItem)
  calls : List Event

/-- Handler `ListCases` (GET /api/cases): `hdrUserId` and `hdrRole` are the
values of the headers `X-User-Id` and `X-User-Role` (empty when absent),
`qPage` and `qLimit` the query values of `page` and `limit`. -/
def ListCases (db : Store) (faults : Nat → Option String) (hdrUserId hdrRole : String)
    (qPage qLimit : Option String) : ListCasesResult :=
  let userID := TrimSpace hdrUserId
  let userRole := ToUpper (TrimSpace hdrRole)
  if userID = "" ∨ (userRole ≠ "ADMIN" ∧ userRole ≠ "USER") then
    ⟨⟨StatusUnauthorized, .error "Unauthorized"⟩, []⟩
  else
    let isAdmin : Bool := decide (userRole = "ADMIN")
    let limit := ListCases.limit qLimit
    let offset := ListCases.offset qPage qLimit
    let whereSQL : String := if !isAdmin then "WHERE c.\"userId\" = ?" else ""
    let args : List Any := if !isAdmin then [Any.str userID] else []
    let args := args ++ [Any.num limit, Any.num offset]
    let sql := ListCases.baseSQL ++ whereSQL ++ ListCases.orderLimit
    let q : Except String (List Row) :=
      match faults 0 with
      | some e => .error e
      | none => selectCases db (if !isAdmin then some (Any.str userID) else none) limit offset
    match q with
    | .error e =>
      ⟨⟨StatusInternalServerError, .error "Error fetching cases"⟩, [⟨.exec sql args, some e⟩]⟩
    | .ok rows => ⟨⟨StatusOK, .json (rows.map caseItem)⟩, [⟨.exec sql args, none⟩]⟩

/-! ## GetCase -/

/-- Engine semantics of the case header query of `GetCase`: the joined row of
the case with the given id, at most one. -/
def selectCaseHead (db : Store) (id : Any) : Except String (List Row) :=
  match joinCaseUser db with
  | .error e => .error e
  | .ok rows => .ok ((rows.filter (fun r => sqlEq (colValue r "id") id)).take 1)

/-- Engine semantics of a query for the rows of `table` with a given `caseId`,
latest first. -/
def selectByCase (db : Store) (table : String) (sel : List String) (id : Any) :
    Except String (List Row) :=
  match selectWhere db table ("createdAt" :: sel) "caseId" id with
  | .error e => .error e
  | .ok rows => .ok (orderByTimeDesc "createdAt" rows)

/-- The string `sqlCase` of `GetCase`. -/
def GetCase.sqlCase : String :=
  "\n\t\tSELECT\n\t\t\tc.\"id\", c.\"customerName\", c.\"projectDetails\", c.\"contactPerson\",\n\t\t\tc.\"schoolName\", c.\"emailAddress\", c.\"phoneNumber\", c.\"schoolAddress\",\n\t\t\tc.\"status\", c.\"createdAt\", c.\"updatedAt\",\n\t\t\tu.\"name\" AS user_name, u.\"email\" AS user_email\n\t\tFROM \"Case\" c\n\t\tJOIN \"User\" u ON u.\"id\" = c.\"userId\"\n\t\tWHERE c.\"id\" = ?\n\t\tLIMIT 1\n\t"

/-- The string `sqlDocs` of `GetCase`. -/
def GetCase.sqlDocs : String :=
  "\n\t\tSELECT \"id\",\"url\",\"fileName\",\"customName\",\"uploadedViaLink\",\"createdAt\"\n\t\tFROM \"Document\"\n\t\tWHERE \"caseId\" = ?\n\t\tORDER BY \"createdAt\" DESC\n\t"

/-- The string `sqlPhotos` of `GetCase`. -/
def GetCase.sqlPhotos : String :=
  "\n\t\tSELECT \"id\",\"url\",\"comment\",\"customName\",\"uploadedViaLink\",\"createdAt\"\n\t\tFROM \"Photo\"\n\t\tWHERE \"caseId\" = ?\n\t\tORDER BY \"createdAt\" DESC\n\t"

/-- The object `GetCase` answers with: the case columns, the nested `user`
object, the documents and the photos. -/
structure CaseDetail where
  fields : Row
  user : Row
  documents : List Row
  photos : List Row
  deriving DecidableEq, Repr

/-- Result of `GetCase`. -/
structure GetCaseResult where
  resp : Response CaseDetail
  calls : List Event

/-- Handler `GetCase` (GET /api/cases/:id). -/
def GetCase (db : Store) (faults : Nat → Option String) (id : String) : GetCaseResult :=
  -- 1) the case and its owner
  let q1 : Except String (List Row) :=
    match faults 0 with
    | some e => .error e
    | none => selectCaseHead db (.str id)
  let err1 : Option String := match q1 with | .error e => some e | .ok _ => none
  let head : Row := match q1 with | .ok (r :: _) => r | _ => []
  let ev1 : Event := ⟨.exec GetCase.sqlCase [.str id], err1⟩
  if err1 ≠ none ∨ asString (colValue head "id") = "" then
    ⟨⟨StatusNotFound, .error "not found"⟩, [ev1]⟩
  else
    -- 2) documents
    let q2 : Except String (List Row) :=
      match faults 1 with
      | some e => .error e
      | none =>
        selectByCase db "Document" ["id", "url", "fileName", "customName", "uploadedViaLink"]
          (.str id)
    match q2 with
    | .error e =>
      ⟨⟨StatusInternalServerError, .error "failed to load documents"⟩,
        [ev1, ⟨.exec GetCase.sqlDocs [.str id], some e⟩]⟩
    | .ok docs =>
      -- 3) photos
      let q3 : Except String (List Row) :=
        match faults 2 with
        | some e => .error e
        | none =>
          selectByCase db "Photo" ["id", "url", "comment", "customName", "uploadedViaLink"]
            (.str id)
      match q3 with
      | .error e =>
        ⟨⟨StatusInternalServerError, .error "failed to load photos"⟩,
          [ev1, ⟨.exec GetCase.sqlDocs [.str id], none⟩,
            ⟨.exec GetCase.sqlPhotos [.str id], some e⟩]⟩
      | .ok photos =>
        -- 4) the response
        ⟨⟨StatusOK, .json
            ⟨scanCols
                [⟨"id", "id", .string⟩, ⟨"customerName", "customerName", .string⟩,
                 ⟨"projectDetails", "projectDetails", .string⟩,
                 ⟨"contactPerson", "contactPerson", .string⟩,
                 ⟨"schoolName", "schoolName", .string⟩,
                 ⟨"emailAddress", "emailAddress", .string⟩,
                 ⟨"phoneNumber", "phoneNumber", .string⟩,
                 ⟨"schoolAddress", "schoolAddress", .string⟩, ⟨"status", "status", .string⟩,
                 ⟨"createdAt", "createdAt", .time⟩, ⟨"updatedAt", "updatedAt", .time⟩] head,
              scanCols [⟨"name", "user_name", .pointer⟩, ⟨"email", "user_email", .string⟩] head,
              docs.map (scanCols
                [⟨"id", "id", .string⟩, ⟨"url", "url", .string⟩,
                 ⟨"fileName", "fileName", .string⟩, ⟨"customName", "customName", .pointer⟩,
                 ⟨"uploadedViaLink", "uploadedViaLink", .bool⟩,
                 ⟨"createdAt", "createdAt", .time⟩]),
              photos.map (scanCols
                [⟨"id", "id", .string⟩, ⟨"url", "url", .string⟩,
                 ⟨"comment", "comment", .pointer⟩, ⟨"customName", "customName", .pointer⟩,
                 ⟨"uploadedViaLink", "uploadedViaLink", .bool⟩,
                 ⟨"createdAt", "createdAt", .time⟩])⟩⟩,
          [ev1, ⟨.exec GetCase.sqlDocs [.str id], none⟩,
            ⟨.exec GetCase.sqlPhotos [.str id], none⟩]⟩

/-! ## GetOnSiteVisit -/

/-- Rows ordered by a text column, ascending (`ORDER BY col`). -/
def orderByText (col : String) (rows : List Row) : List Row :=
  rows.insertionSort (fun a b => asString (colValue a col) ≤ asString (colValue b col))

/-- Engine semantics of the two per-room queries of `GetOnSiteVisit`: the rows
of `left` of the given room, each joined with the row of `right` whose `id` is
its `productId`, shaped by `shape`, ordered by id. -/
def selectRoomProducts (db : Store) (left right : String) (shape : Row → Row → Row)
    (roomID : Any) : Except String (List Row) :=
  match db left, db right with
  | some l, some r =>
    if "id" ∈ l.cols ∧ "roomId" ∈ l.cols ∧ "productId" ∈ l.cols ∧ "id" ∈ r.cols then
      .ok (orderByText "id"
        ((l.rows.filter (fun e => sqlEq (colValue e "roomId") roomID)).flatMap (fun e =>
          (r.rows.filter (fun p => sqlEq (colValue p "id") (colValue e "productId"))).map
            (shape e))))
    else .error "column does not exist"
  | _, _ => .error "relation does not exist"

/-- The columns the existing-products query selects from a row of
`OnSiteExistingProduct` joined with its row of `Product`. -/
def existingShape (e p : Row) : Row :=
  [("id", colValue e "id"), ("productId", colValue e "productId"),
   ("productName", colValue p "name"), ("wattage", colValue p "wattage"),
   ("quantity", colValue e "quantity"), ("bypassBallast", colValue e "bypassBallast")]

/-- The columns the suggested-products query selects from a row of
`OnSiteSuggestedProduct` joined with its row of `LightFixtureType`. -/
def suggestedShape (s l : Row) : Row :=
  [("id", colValue s "id"), ("productId", colValue s "productId"),
   ("typeName", colValue l "name"), ("SKU", colValue l "SKU"),
   ("imageUrl", colValue l "imageUrl"), ("wattage", colValue l "wattage"),
   ("quantity", colValue s "quantity")]

/-- The fields of the struct `ExistingRow`. -/
def ExistingRow : List Field :=
  [⟨"id", "id", .string⟩, ⟨"productId", "productId", .string⟩,
   ⟨"productName", "productName", .string⟩, ⟨"wattage", "wattage", .float64⟩,
   ⟨"quantity", "quantity", .int⟩, ⟨"bypassBallast", "bypassBallast", .bool⟩]

/-- The fields of the struct `SuggestedRow`. -/
def SuggestedRow : List Field :=
  [⟨"id", "id", .string⟩, ⟨"productId", "productId", .string⟩,
   ⟨"typeName", "typeName", .string⟩, ⟨"sku", "SKU", .pointer⟩,
   ⟨"imageUrl", "imageUrl", .pointer⟩, ⟨"wattage", "wattage", .pointer⟩,
   ⟨"quantity", "quantity", .int⟩]

/-- The columns of a room as the handlers select them. -/
def roomCols : List String :=
  ["id", "onSiteVisitId", "location", "locationTagId", "lightingIssue", "customerRequest",
   "mountingKitQty", "motionSensorQty", "createdAt", "ceilingHeight"]

/-- The scanned fields of the struct `Room` of `GetOnSiteVisit`, which are
those of the struct `row` of `CreateRoom`. -/
def Room : List Field :=
  [⟨"id", "id", .string⟩, ⟨"onSiteVisitId", "onSiteVisitId", .string⟩,
   ⟨"location", "location", .string⟩, ⟨"locationTagId", "locationTagId", .pointer⟩,
   ⟨"lightingIssue", "lightingIssue", .string⟩,
   ⟨"customerRequest", "customerRequest", .string⟩,
   ⟨"mountingKitQty", "mountingKitQty", .string⟩,
   ⟨"motionSensorQty", "motionSensorQty", .int⟩, ⟨"createdAt", "createdAt", .time⟩,
   ⟨"ceilingHeight", "ceilingHeight", .pointer⟩]

/-- The visit lookup of `GetOnSiteVisit` (the same text as in
`EnsureOnSiteVisit`). -/
def GetOnSiteVisit.sqlVisit : String :=
  "SELECT \"id\",\"caseId\",\"createdAt\" FROM \"OnSiteVisit\" WHERE \"caseId\" = ? LIMIT 1"

/-- The rooms query of `GetOnSiteVisit`. -/
def GetOnSiteVisit.sqlRooms : String :=
  "SELECT \"id\",\"onSiteVisitId\",\"location\",\"locationTagId\",\"lightingIssue\",\"customerRequest\",\n\t\t        \"mountingKitQty\",\"motionSensorQty\",\"createdAt\",\"ceilingHeight\"\n\t\t   FROM \"OnSiteVisitRoom\"\n\t\t  WHERE \"onSiteVisitId\" = ?\n\t\t  ORDER BY \"createdAt\" DESC"

/-- The existing-products query of `GetOnSiteVisit`. -/
def GetOnSiteVisit.sqlExisting : String :=
  "SELECT e.\"id\", e.\"productId\", p.\"name\" AS \"productName\", p.\"wattage\",\n\t\t\t        e.\"quantity\", e.\"bypassBallast\"\n\t\t\t   FROM \"OnSiteExistingProduct\" e\n\t\t\t   JOIN \"Product\" p ON p.\"id\" = e.\"productId\"\n\t\t\t  WHERE e.\"roomId\" = ?\n\t\t\t  ORDER BY e.\"id\""

/-- The suggested-products query of `GetOnSiteVisit`. -/
def GetOnSiteVisit.sqlSuggested : String :=
  "SELECT s.\"id\",\n\t\t\t\t\ts.\"productId\",                         -- this is LightFixtureType.id in your DB\n\t\t\t\t\tl.\"name\"        AS \"typeName\",\n\t\t\t\t\tl.\"SKU\",\n\t\t\t\t\tl.\"imageUrl\",\n\t\t\t\t\tl.\"wattage\",\n\t\t\t\t\ts.\"quantity\"\n\t\t\tFROM \"OnSiteSuggestedProduct\" s\n\t\t\tJOIN \"LightFixtureType\" l ON l.\"id\" = s.\"productId\"\n\t\t\tWHERE s.\"roomId\" = ?\n\t\t\tORDER BY s.\"id\""

/-- A room with its product lists, as `GetOnSiteVisit` and `CreateRoom` return
it. -/
structure RoomView where
  room : Row
  existing : List Row
  suggested : List Row
  deriving DecidableEq, Repr

/-- The object `GetOnSiteVisit` answers with. -/
structure VisitView where
  head : VisitHead
  rooms : List RoomView
  deriving DecidableEq, Repr

/-- The loop `for i := range rooms` of `GetOnSiteVisit`, its first round trip
being number `k` of the request: the filled rooms, or the message of the
failure that ends the request, and the round trips made. -/
def GetOnSiteVisit.loop (db : Store) (faults : Nat → Option String) :
    Nat → List Row → Except String (List RoomView) × List Event
  | _, [] => (.ok [], [])
  | k, r :: rest =>
    let id := asString (colValue r "id")
    let qe : Except String (List Row) :=
      match faults k with
      | some e => .error e
      | none => selectRoomProducts db "OnSiteExistingProduct" "Product" existingShape (.str id)
    match qe with
    | .error e =>
      (.error "failed to load existing",
        [⟨.exec GetOnSiteVisit.sqlExisting [.str id], some e⟩])
    | .ok ex =>
      let qs : Except String (List Row) :=
        match faults (k + 1) with
        | some e => .error e
        | none =>
          selectRoomProducts db "OnSiteSuggestedProduct" "LightFixtureType" suggestedShape
            (.str id)
      match qs with
      | .error e =>
        (.error "failed to load suggested",
          [⟨.exec GetOnSiteVisit.sqlExisting [.str id], none⟩,
           ⟨.exec GetOnSiteVisit.sqlSuggested [.str id], some e⟩])
      | .ok sg =>
        let tail := GetOnSiteVisit.loop db faults (k + 2) rest
        (match tail.1 with
          | .error msg => .error msg
          | .ok views =>
            .ok (⟨scanCols Room r, ex.map (scanCols ExistingRow),
              sg.map (scanCols SuggestedRow)⟩ :: views),
         [⟨.exec GetOnSiteVisit.sqlExisting [.str id], none⟩,
          ⟨.exec GetOnSiteVisit.sqlSuggested [.str id], none⟩] ++ tail.2)

/-- Result of `GetOnSiteVisit`. -/
structure GetVisitResult where
  resp : Response VisitView
  calls : List Event

/-- Handler `GetOnSiteVisit` (GET /api/cases/:id/onsite). -/
def GetOnSiteVisit (db : Store) (faults : Nat → Option String) (caseID : String) :
    GetVisitResult :=
  -- Visit
  let q1 : Except String (List Row) :=
    match faults 0 with
    | some e => .error e
    | none => selectWhere db "OnSiteVisit" ["id", "caseId", "createdAt"] "caseId" (.str caseID)
  let err1 : Option String := match q1 with | .error e => some e | .ok _ => none
  let visit : VisitHead :=
    match q1 with
    | .error _ => ⟨"", "", 0⟩
    | .ok rows => scanHead (rows.take 1) ⟨"", "", 0⟩
  let ev1 : Event := ⟨.exec GetOnSiteVisit.sqlVisit [.str caseID], err1⟩
  if err1 ≠ none ∨ visit.ID = "" then
    ⟨⟨StatusNotFound, .error "not found"⟩, [ev1]⟩
  else
    -- Rooms
    let q2 : Except String (List Row) :=
      match faults 1 with
      | some e => .error e
      | none =>
        match selectWhere db "OnSiteVisitRoom" roomCols "onSiteVisitId" (.str visit.ID) with
        | .error e => .error e
        | .ok rows => .ok (orderByTimeDesc "createdAt" rows)
    match q2 with
    | .error e =>
      ⟨⟨StatusInternalServerError, .error "failed to load rooms"⟩,
        [ev1, ⟨.exec GetOnSiteVisit.sqlRooms [.str visit.ID], some e⟩]⟩
    | .ok rooms =>
      -- For each room, load existing + suggested
      let filled := GetOnSiteVisit.loop db faults 2 rooms
      match filled.1 with
      | .error msg =>
        ⟨⟨StatusInternalServerError, .error msg⟩,
          [ev1, ⟨.exec GetOnSiteVisit.sqlRooms [.str visit.ID], none⟩] ++ filled.2⟩
      | .ok views =>
        ⟨⟨StatusOK, .json ⟨visit, views⟩⟩,
          [ev1, ⟨.exec GetOnSiteVisit.sqlRooms [.str visit.ID], none⟩] ++ filled.2⟩

/-! ## Request binding -/

/-- Message of the gin validator for a field that fails its `required` tag. -/
def requiredError (struct field : String) : String :=
  "Key: '" ++ struct ++ "." ++ field ++ "' Error:Field validation for '" ++ field
    ++ "' failed on the 'required' tag"

/-- The gin call `c.ShouldBindJSON(&req)`: `decoded` is what the JSON decoder
made of the body (an error for a malformed or ill-typed payload, else the
struct with zero values for absent members) and `missing` lists the fields
tagged `binding:"required"` that hold their zero value. -/
def ShouldBindJSON {α : Type} (struct : String) (missing : α → List String)
    (decoded : Except String α) : Except String α :=
  match decoded with
  | .error e => .error e
  | .ok req =>
    if missing req = [] then .ok req
    else .error ("\n".intercalate ((missing req).map (requiredError struct)))

/-- A Go `*string` as a bound argument. -/
def optStr : Option String → Any
  | none => Any.null
  | some s => Any.str s

/-- A Go `*int` as a bound argument. -/
def optNum : Option Int → Any
  | none => Any.null
  | some n => Any.num n

/-- Result of a handler that reads or writes the store outside a transaction:
the response, the store after the request and the store round trips. -/
structure StoreResult (α : Type) where
  resp : Response α
  db : Store
  calls : List Event

/-! ## CreateRoom -/

/-- The struct `CreateRoomReq`. -/
structure CreateRoomReq where
  Location : String
  LocationTagId : Option String
  LightingIssue : String
  CustomerRequest : String
  MountingKitQty : String
  MotionSensorQty : Int
  CeilingHeight : Option Int
  deriving DecidableEq, Repr

/-- The fields of `CreateRoomReq` tagged `binding:"required"` that are unset. -/
def CreateRoomReq.missing (req : CreateRoomReq) : List String :=
  if req.Location = "" then ["Location"] else []

/-- The INSERT of `CreateRoom`. -/
def CreateRoom.sql : String :=
  "INSERT INTO \"OnSiteVisitRoom\"\n\t\t (\"id\",\"onSiteVisitId\",\"location\",\"locationTagId\",\"lightingIssue\",\"customerRequest\",\n\t\t  \"mountingKitQty\",\"motionSensorQty\",\"createdAt\",\"ceilingHeight\")\n\t\t VALUES (?, ?, ?, ?, ?, ?, ?, ?, now(), ?)\n\t\t RETURNING \"id\",\"onSiteVisitId\",\"location\",\"locationTagId\",\"lightingIssue\",\"customerRequest\",\n\t\t           \"mountingKitQty\",\"motionSensorQty\",\"createdAt\",\"ceilingHeight\""

/-- Handler `CreateRoom` (POST /api/onsite/:visitId/rooms); `newID` is the
value `cuid.New()` returns and `now` the value of the engine's `now()`. -/
def CreateRoom (db : Store) (faults : Nat → Option String) (newID : String) (now : Int)
    (visitID : String) (decoded : Except String CreateRoomReq) : StoreResult RoomView :=
  match ShouldBindJSON "CreateRoomReq" CreateRoomReq.missing decoded with
  | .error e => ⟨⟨StatusBadRequest, .error e⟩, db, []⟩
  | .ok req =>
    let args : List Any :=
      [.str newID, .str visitID, .str req.Location, optStr req.LocationTagId,
       .str req.LightingIssue, .str req.CustomerRequest, .str req.MountingKitQty,
       .num req.MotionSensorQty, optNum req.CeilingHeight]
    let row : Row :=
      [("id", .str newID), ("onSiteVisitId", .str visitID), ("location", .str req.Location),
       ("locationTagId", optStr req.LocationTagId), ("lightingIssue", .str req.LightingIssue),
       ("customerRequest", .str req.CustomerRequest),
       ("mountingKitQty", .str req.MountingKitQty),
       ("motionSensorQty", .num req.MotionSensorQty), ("createdAt", .time now),
       ("ceilingHeight", optNum req.CeilingHeight)]
    let q : Except String Store :=
      match faults 0 with
      | some e => .error e
      | none => insertRow db "OnSiteVisitRoom" row
    match q with
    | .error e =>
      ⟨⟨StatusInternalServerError, .error "create failed"⟩, db,
        [⟨.exec CreateRoom.sql args, some e⟩]⟩
    | .ok db2 =>
      ⟨⟨StatusCreated, .json ⟨scanCols Room row, [], []⟩⟩, db2,
        [⟨.exec CreateRoom.sql args, none⟩]⟩

/-! ## Existing and suggested products -/

/-- The struct `AddProductReq`. -/
structure AddProductReq where
  ProductID : String
  Quantity : Int
  BypassBallast : Option Bool
  deriving DecidableEq, Repr

/-- The fields of `AddProductReq` tagged `binding:"required"` that are unset. -/
def AddProductReq.missing (req : AddProductReq) : List String :=
  (if req.ProductID = "" then ["ProductID"] else [])
    ++ (if req.Quantity = 0 then ["Quantity"] else [])

/-- The INSERT of `AddExistingProduct`. -/
def AddExistingProduct.sql : String :=
  "INSERT INTO \"OnSiteExistingProduct\" (\"id\",\"roomId\",\"productId\",\"quantity\",\"bypassBallast\")\n\t\t VALUES (gen_random_uuid()::text, ?, ?, ?, ?)\n\t\t RETURNING \"id\""

/-- Handler `AddExistingProduct` (POST /api/rooms/:roomId/existing); `newID`
is the value of the engine's `gen_random_uuid()::text`. -/
def AddExistingProduct (db : Store) (faults : Nat → Option String) (newID : String)
    (roomID : String) (decoded : Except String AddProductReq) : StoreResult String :=
  match ShouldBindJSON "AddProductReq" AddProductReq.missing decoded with
  | .error e => ⟨⟨StatusBadRequest, .error e⟩, db, []⟩
  | .ok req =>
    let bypass : Bool :=
      match req.BypassBallast with
      | some b => b
      | none => false
    let args : List Any := [.str roomID, .str req.ProductID, .num req.Quantity, .bool bypass]
    let row : Row :=
      [("id", .str newID), ("roomId", .str roomID), ("productId", .str req.ProductID),
       ("quantity", .num req.Quantity), ("bypassBallast", .bool bypass)]
    let q : Except String Store :=
      match faults 0 with
      | some e => .error e
      | none => insertRow db "OnSiteExistingProduct" row
    match q with
    | .error e =>
      ⟨⟨StatusInternalServerError, .error "create failed"⟩, db,
        [⟨.exec AddExistingProduct.sql args, some e⟩]⟩
    | .ok db2 =>
      ⟨⟨StatusCreated, .json (asString (colValue row "id"))⟩, db2,
        [⟨.exec AddExistingProduct.sql args, none⟩]⟩

/-- Handler `DeleteExistingProduct` (DELETE /api/existing/:id). -/
def DeleteExistingProduct (db : Store) (faults : Nat → Option String) (id : String) :
    StoreResult Unit :=
  let q : Except String Store :=
    match faults 0 with
    | some e => .error e
    | none => deleteWhere db "OnSiteExistingProduct" "id" (.str id)
  match q with
  | .error e =>
    ⟨⟨StatusInternalServerError, .error "delete failed"⟩, db,
      [⟨.exec "DELETE FROM \"OnSiteExistingProduct\" WHERE \"id\" = ?" [.str id], some e⟩]⟩
  | .ok db2 =>
    ⟨⟨StatusNoContent, .none⟩, db2,
      [⟨.exec "DELETE FROM \"OnSiteExistingProduct\" WHERE \"id\" = ?" [.str id], none⟩]⟩

/-- The INSERT of `AddSuggestedProduct`. -/
def AddSuggestedProduct.sql : String :=
  "INSERT INTO \"OnSiteSuggestedProduct\" (\"id\",\"roomId\",\"productId\",\"quantity\")\n\t\t VALUES (gen_random_uuid()::text, ?, ?, ?)\n\t\t RETURNING \"id\""

/-- Handler `AddSuggestedProduct` (POST /api/rooms/:roomId/suggested);
`newID` is the value of the engine's `gen_random_uuid()::text`. -/
def AddSuggestedProduct (db : Store) (faults : Nat → Option String) (newID : String)
    (roomID : String) (decoded : Except String AddProductReq) : StoreResult String :=
  match ShouldBindJSON "AddProductReq" AddProductReq.missing decoded with
  | .error e => ⟨⟨StatusBadRequest, .error e⟩, db, []⟩
  | .ok req =>
    let args : List Any := [.str roomID, .str req.ProductID, .num req.Quantity]
    let row : Row :=
      [("id", .str newID), ("roomId", .str roomID), ("productId", .str req.ProductID),
       ("quantity", .num req.Quantity)]
    let q : Except String Store :=
      match faults 0 with
      | some e => .error e
      | none => insertRow db "OnSiteSuggestedProduct" row
    match q with
    | .error e =>
      ⟨⟨StatusInternalServerError, .error "create failed"⟩, db,
        [⟨.exec AddSuggestedProduct.sql args, some e⟩]⟩
    | .ok db2 =>
      ⟨⟨StatusCreated, .json (asString (colValue row "id"))⟩, db2,
        [⟨.exec AddSuggestedProduct.sql args, none⟩]⟩

/-- Handler `DeleteSuggestedProduct` (DELETE /api/suggested/:id). -/
def DeleteSuggestedProduct (db : Store) (faults : Nat → Option String) (id : String) :
    StoreResult Unit :=
  let q : Except String Store :=
    match faults 0 with
    | some e => .error e
    | none => deleteWhere db "OnSiteSuggestedProduct" "id" (.str id)
  match q with
  | .error e =>
    ⟨⟨StatusInternalServerError, .error "delete failed"⟩, db,
      [⟨.exec "DELETE FROM \"OnSiteSuggestedProduct\" WHERE \"id\" = ?" [.str id], some e⟩]⟩
  | .ok db2 =>
    ⟨⟨StatusNoContent, .none⟩, db2,
      [⟨.exec "DELETE FROM \"OnSiteSuggestedProduct\" WHERE \"id\" = ?" [.str id], none⟩]⟩

/-! ## Catalog lists -/

/-- Result of a catalog list handler. -/
structure ListResult where
  resp : Response (List Row)
  calls : List Event

/-- The variable `page` of `ListProducts` after its clamp. -/
def ListProducts.page (qPage : Option String) : Int :=
  let page := (Atoi (DefaultQuery qPage "1")).1
  if page < 1 then 1 else page

/-- The variable `limit` of `ListProducts` after its clamp. -/
def ListProducts.limit (qLimit : Option String) : Int :=
  let limit := (Atoi (DefaultQuery qLimit "50")).1
  if limit < 1 ∨ limit > 200 then 50 else limit

/-- Handler `ListProducts` (GET /api/products): `qQ` and `qCategory` are the
values of `c.Query` for `q` and `category` (empty when absent); `result` is
what the engine returns for the statement when it runs it. -/
def ListProducts (faults : Nat → Option String) (result : List Row) (qQ qCategory : String)
    (qPage qLimit : Option String) : ListResult :=
  let q := TrimSpace qQ
  let category := TrimSpace qCategory
  let limit := ListProducts.limit qLimit
  let offset := wrapInt ((ListProducts.page qPage - 1) * limit)
  let where1 : List String :=
    if q ≠ "" then ["(\"name\" ILIKE ? OR \"description\" ILIKE ?)"] else []
  let args1 : List Any :=
    if q ≠ "" then [Any.str ("%" ++ q ++ "%"), Any.str ("%" ++ q ++ "%")] else []
  let where2 : List String := if category ≠ "" then where1 ++ ["\"category\" = ?"] else where1
  let args2 : List Any := if category ≠ "" then args1 ++ [Any.str category] else args1
  let whereSQL : String :=
    if where2.length > 0 then "WHERE " ++ stringsJoin where2 " AND " else ""
  let sql :=
    "\n\t\tSELECT \"id\",\"name\",\"wattage\",\"category\",\"description\"\n\t\tFROM \"Product\"\n\t\t"
      ++ whereSQL ++ "\n\t\tORDER BY \"name\" ASC\n\t\tLIMIT ? OFFSET ?"
  let args := args2 ++ [Any.num limit, Any.num offset]
  match faults 0 with
  | some e => ⟨⟨StatusInternalServerError, .error "list failed"⟩, [⟨.exec sql args, some e⟩]⟩
  | none =>
    ⟨⟨StatusOK, .json (result.map (scanCols
        [⟨"id", "id", .string⟩, ⟨"name", "name", .string⟩, ⟨"wattage", "wattage", .float64⟩,
         ⟨"category", "category", .pointer⟩, ⟨"description", "description", .pointer⟩]))⟩,
      [⟨.exec sql args, none⟩]⟩

/-- The variable `page` of `ListLightFixtureTypes` after its clamp. -/
def ListLightFixtureTypes.page (qPage : Option String) : Int :=
  let page := (Atoi (DefaultQuery qPage "1")).1
  if page < 1 then 1 else page

/-- The variable `limit` of `ListLightFixtureTypes` after its clamp. -/
def ListLightFixtureTypes.limit (qLimit : Option String) : Int :=
  let limit := (Atoi (DefaultQuery qLimit "50")).1
  if limit < 1 ∨ limit > 200 then 50 else limit

/-- Handler `ListLightFixtureTypes` (GET /api/lightfixturetypes): `qQ` is the
value of `c.Query` for `q` (empty when absent); `result` is what the engine
returns for the statement when it runs it. -/
def ListLightFixtureTypes (faults : Nat → Option String) (result : List Row) (qQ : String)
    (qPage qLimit : Option String) : ListResult :=
  let q := TrimSpace qQ
  let limit := ListLightFixtureTypes.limit qLimit
  let offset := wrapInt ((ListLightFixtureTypes.page qPage - 1) * limit)
  let where1 : List String :=
    if q ≠ "" then ["(\"name\" ILIKE ? OR \"description\" ILIKE ? OR \"SKU\" ILIKE ?)"] else []
  let args1 : List Any :=
    if q ≠ "" then
      [Any.str ("%" ++ q ++ "%"), Any.str ("%" ++ q ++ "%"), Any.str ("%" ++ q ++ "%")]
    else []
  let whereSQL : String :=
    if where1.length > 0 then "WHERE " ++ stringsJoin where1 " AND " else ""
  let sql :=
    "\n\t\tSELECT \"id\",\"name\",\"SKU\",\"wattage\",\"imageUrl\",\"description\"\n\t\tFROM \"LightFixtureType\"\n\t\t"
      ++ whereSQL ++ "\n\t\tORDER BY \"name\" ASC\n\t\tLIMIT ? OFFSET ?"
  let args := args1 ++ [Any.num limit, Any.num offset]
  match faults 0 with
  | some e => ⟨⟨StatusInternalServerError, .error "list failed"⟩, [⟨.exec sql args, some e⟩]⟩
  | none =>
    ⟨⟨StatusOK, .json
        (result.map (scanCols
          [⟨"id", "id", .string⟩, ⟨"name", "name", .string⟩, ⟨"sku", "SKU", .pointer⟩,
           ⟨"wattage", "wattage", .pointer⟩, ⟨"imageUrl", "imageUrl", .pointer⟩,
           ⟨"description", "description", .pointer⟩]))⟩,
      [⟨.exec sql args, none⟩]⟩

/-! ## Photos and documents -/

/-- The struct `AddFileReq`. -/
structure AddFileReq where
  URL : String
  FileName : Option String
  CustomName : Option String
  Comment : Option String
  UploadedVia : Option Bool
  deriving DecidableEq, Repr

/-- The fields of `AddFileReq` tagged `binding:"required"` that are unset. -/
def AddFileReq.missing (req : AddFileReq) : List String :=
  if req.URL = "" then ["URL"] else []

/-- The expression `req.UploadedVia != nil && *req.UploadedVia`. -/
def uploadedVia (req : AddFileReq) : Bool :=
  match req.UploadedVia with
  | some b => b
  | none => false

/-- The struct `models.Photo`, as created and as returned. -/
structure Photo where
  ID : String
  URL : String
  CaseID : String
  UploadedViaLink : Bool
  Comment : Option String
  CustomName : Option String
  CreatedAt : Int
  deriving DecidableEq, Repr

/-- The struct `models.Document`, as created and as returned. -/
structure Document where
  ID : String
  URL : String
  FileName : String
  CustomName : Option String
  CaseID : String
  UploadedViaLink : Bool
  CreatedAt : Int
  deriving DecidableEq, Repr

/-- The row gorm writes for a `models.Photo` (its default column names). -/
def Photo.row (p : Photo) : Row :=
  [("id", .str p.ID), ("url", .str p.URL), ("case_id", .str p.CaseID),
   ("uploaded_via_link", .bool p.UploadedViaLink), ("comment", optStr p.Comment),
   ("custom_name", optStr p.CustomName), ("created_at", .time p.CreatedAt)]

/-- The row gorm writes for a `models.Document` (its default column names). -/
def Document.row (d : Document) : Row :=
  [("id", .str d.ID), ("url", .str d.URL), ("file_name", .str d.FileName),
   ("custom_name", optStr d.CustomName), ("case_id", .str d.CaseID),
   ("uploaded_via_link", .bool d.UploadedViaLink), ("created_at", .time d.CreatedAt)]

/-- Result of `AddPhoto` and `AddDocument`. -/
structure FileResult (α : Type) where
  resp : Response α
  calls : List Event

/-- Handler `AddPhoto`; `newID` is the id the `BeforeCreate` hook assigns
(`cuid.New()`) and `now` the creation time gorm fills in. -/
def AddPhoto (faults : Nat → Option String) (newID : String) (now : Int) (caseID : String)
    (decoded : Except String AddFileReq) : FileResult Photo :=
  match ShouldBindJSON "AddFileReq" AddFileReq.missing decoded with
  | .error e => ⟨⟨StatusBadRequest, .error e⟩, []⟩
  | .ok req =>
    let item : Photo :=
      { ID := "", URL := req.URL, CaseID := caseID, UploadedViaLink := uploadedVia req,
        Comment := req.Comment, CustomName := req.CustomName, CreatedAt := 0 }
    let created : Photo := { item with ID := newID, CreatedAt := now }
    match faults 0 with
    | some e =>
      ⟨⟨StatusInternalServerError, .error "create failed"⟩,
        [⟨.create "photos" created.row, some e⟩]⟩
    | none => ⟨⟨StatusCreated, .json created⟩, [⟨.create "photos" created.row, none⟩]⟩

/-- Handler `AddDocument`; `newID` and `now` as for `AddPhoto`. -/
def AddDocument (faults : Nat → Option String) (newID : String) (now : Int) (caseID : String)
    (decoded : Except String AddFileReq) : FileResult Document :=
  match ShouldBindJSON "AddFileReq" AddFileReq.missing decoded with
  | .error e => ⟨⟨StatusBadRequest, .error e⟩, []⟩
  | .ok req =>
    match req.FileName with
    | none => ⟨⟨StatusBadRequest, .error "fileName is required"⟩, []⟩
    | some fileName =>
      let item : Document :=
        { ID := "", URL := req.URL, FileName := fileName, CustomName := req.CustomName,
          CaseID := caseID, UploadedViaLink := uploadedVia req, CreatedAt := 0 }
      let created : Document := { item with ID := newID, CreatedAt := now }
      match faults 0 with
      | some e =>
        ⟨⟨StatusInternalServerError, .error "create failed"⟩,
          [⟨.create "documents" created.row, some e⟩]⟩
      | none => ⟨⟨StatusCreated, .json created⟩, [⟨.create "documents" created.row, none⟩]⟩

/-! ## The router -/

/-- The handler functions of package `handlers`. -/
inductive Handler where
  | ListCases | GetCase | GetOnSiteVisit | EnsureOnSiteVisit | CreateRoom | UpdateRoom
  | DeleteRoom | ListProducts | ListLightFixtureTypes | AddExistingProduct
  | UpdateExistingProduct | DeleteExistingProduct | AddSuggestedProduct
  | UpdateSuggestedProduct | DeleteSuggestedProduct | AddPhoto | AddDocument
  deriving DecidableEq, Repr

/-- One registration of a gin router. -/
structure Route where
  method : String
  path : String
  handler : Handler
  deriving DecidableEq, Repr

/-- The gin call `r.Group(base)`: the routes registered on the group, each
path appended to the base path of the group. -/
def Group (base : String) (routes : List Route) : List Route :=
  routes.map (fun r => { r with path := base ++ r.path })

/-- The registrations of `NewRouter`, in program order. -/
def NewRouter : List Route :=
  Group "/api"
    [⟨"GET", "/cases", .ListCases⟩,
     ⟨"GET", "/cases/:id", .GetCase⟩,
     ⟨"GET", "/cases/:id/onsite", .GetOnSiteVisit⟩,
     ⟨"POST", "/cases/:id/onsite", .EnsureOnSiteVisit⟩,
     ⟨"POST", "/onsite/:visitId/rooms", .CreateRoom⟩,
     ⟨"PUT", "/rooms/:roomId", .UpdateRoom⟩,
     ⟨"DELETE", "/rooms/:roomId", .DeleteRoom⟩,
     ⟨"GET", "/products", .ListProducts⟩,
     ⟨"GET", "/lightfixturetypes", .ListLightFixtureTypes⟩,
     ⟨"POST", "/rooms/:roomId/existing", .AddExistingProduct⟩,
     ⟨"PUT", "/existing/:id", .UpdateExistingProduct⟩,
     ⟨"DELETE", "/existing/:id", .DeleteExistingProduct⟩,
     ⟨"POST", "/rooms/:roomId/suggested", .AddSuggestedProduct⟩,
     ⟨"PUT", "/suggested/:id", .UpdateSuggestedProduct⟩,
     ⟨"DELETE", "/suggested/:id", .DeleteSuggestedProduct⟩]

/-- The handler a method and route path are registered for, if any. -/
def registered (routes : List Route) (method path : String) : Option Handler :=
  (routes.find? (fun r => r.method = method ∧ r.path = path)).map Route.handler

/-- The HTTP surface table of the specification, section 6: each method and
path with the handler that serves its purpose. -/
def specSurface : List Route :=
  [⟨"GET", "/cases", .ListCases⟩,
   ⟨"GET", "/cases/:id", .GetCase⟩,
   ⟨"GET", "/cases/:id/onsite", .GetOnSiteVisit⟩,
   ⟨"POST", "/cases/:id/onsite", .EnsureOnSiteVisit⟩,
   ⟨"POST", "/onsite/:visitId/rooms", .CreateRoom⟩,
   ⟨"PUT", "/rooms/:roomId", .UpdateRoom⟩,
   ⟨"DELETE", "/rooms/:roomId", .DeleteRoom⟩,
   ⟨"GET", "/products", .ListProducts⟩,
   ⟨"GET", "/lightfixturetypes", .ListLightFixtureTypes⟩,
   ⟨"POST", "/rooms/:roomId/existing", .AddExistingProduct⟩,
   ⟨"PUT", "/existing/:id", .UpdateExistingProduct⟩,
   ⟨"DELETE", "/existing/:id", .DeleteExistingProduct⟩,
   ⟨"POST", "/rooms/:roomId/suggested", .AddSuggestedProduct⟩,
   ⟨"PUT", "/suggested/:id", .UpdateSuggestedProduct⟩,
   ⟨"DELETE", "/suggested/:id", .DeleteSuggestedProduct⟩,
   ⟨"POST", "/cases/:id/photos", .AddPhoto⟩,
   ⟨"POST", "/cases/:id/documents", .AddDocument⟩]

/-! ## A sample store with cases -/

/-- The store `declaredStore` with two users, three cases (two of `u1`, one of
`u2`), one document of `case1` and the two catalogs. -/
def surveyStore : Store := fun n =>
  if n = "User" then
    some ⟨["id", "email", "name", "password", "role", "createdAt", "updatedAt"], ["id", "email"],
      [[("id", .str "u1"), ("email", .str "ann@example.org"), ("name", .str "Ann"),
        ("role", .str "USER")],
       [("id", .str "u2"), ("email", .str "bob@example.org"), ("name", .null),
        ("role", .str "ADMIN")]]⟩
  else if n = "Case" then
    some ⟨["id", "userId", "customerName", "projectDetails", "contactPerson", "schoolName",
        "emailAddress", "phoneNumber", "schoolAddress", "status", "createdAt", "updatedAt"],
      ["id"],
      [[("id", .str "case1"), ("userId", .str "u1"), ("customerName", .str "North School"),
        ("status", .str "New"), ("createdAt", .time 10), ("updatedAt", .time 10)],
       [("id", .str "case2"), ("userId", .str "u2"), ("customerName", .str "Depot"),
        ("status", .str "New"), ("createdAt", .time 20), ("updatedAt", .time 21)],
       [("id", .str "case3"), ("userId", .str "u1"), ("customerName", .str "Gym"),
        ("status", .str "Quoted"), ("createdAt", .time 30), ("updatedAt", .time 35)]]⟩
  else if n = "Document" then
    some ⟨["id", "url", "fileName", "customName", "caseId", "uploadedViaLink", "createdAt"],
      ["id"],
      [[("id", .str "d1"), ("url", .str "https://x/plan.pdf"), ("fileName", .str "plan.pdf"),
        ("caseId", .str "case1"), ("uploadedViaLink", .bool false), ("createdAt", .time 11)]]⟩
  else if n = "Product" then
    some ⟨["id", "name", "wattage", "description", "category"], ["id"],
      [[("id", .str "p1"), ("name", .str "T8 tube"), ("wattage", .num 32)],
       [("id", .str "p2"), ("name", .str "Metal halide"), ("wattage", .num 400)]]⟩
  else if n = "LightFixtureType" then
    some ⟨["id", "name", "description", "createdAt", "SKU", "wattage", "imageUrl"],
      ["id", "name"],
      [[("id", .str "t1"), ("name", .str "2x4 LED panel"), ("SKU", .str "LP24"),
        ("wattage", .num 40)]]⟩
  else declaredStore n

/-- Environment in which round trip `i` of the request fails with `e` and
every other one is run by the engine. -/
def failAt (i : Nat) (e : String) : Nat → Option String :=
  fun k => if k = i then some e else none

/-- The three queries of `GetCase` for case `id`, in program order. -/
def getCaseScript (id : String) : List Call :=
  [Call.exec GetCase.sqlCase [Any.str id], Call.exec GetCase.sqlDocs [Any.str id],
   Call.exec GetCase.sqlPhotos [Any.str id]]

/-- Round trip number `i` of a request was made and returned an error. -/
def failedAt (calls : List Event) (i : Nat) : Prop :=
  ∃ ev, calls.get? i = some ev ∧ ev.err ≠ none

/-- The shape of a response as far as errors go: a status of 400 or more comes
with the error object `{"error": msg}` as its whole body, and the error object
comes only with a status from 400 to 599. -/
def ErrorShape {α : Type} (r : Response α) : Prop :=
  (400 ≤ r.status → ∃ msg, r.body = Body.error msg)
    ∧ (∀ msg, r.body = Body.error msg → 400 ≤ r.status ∧ r.status < 600)

/-- The four DELETE statements in the text of `DeleteRoom`, in program order:
on `Photo`, `SuggestedLight` and `ExistingLight` by room id, then on
`OnSiteVisitRoom` by id. -/
def deleteRoomStatements (roomID : String) : List Call :=
  [Call.exec "DELETE FROM \"Photo\" WHERE \"roomId\" = ?" [Any.str roomID],
   Call.exec "DELETE FROM \"SuggestedLight\" WHERE \"roomId\" = ?" [Any.str roomID],
   Call.exec "DELETE FROM \"ExistingLight\" WHERE \"roomId\" = ?" [Any.str roomID],
   Call.exec "DELETE FROM \"OnSiteVisitRoom\" WHERE \"id\" = ?" [Any.str roomID]]

/-- The statements among the round trips of a request. -/
def statementsOf (calls : List Event) : List Event := calls.filter Event.isStatement

/-- The visit lookup of `GetOnSiteVisit`, which is that of `EnsureOnSiteVisit`
too, yields no visit: the round trip fails, or it returns no row with a
non-empty id. -/
def noVisit (db : Store) (faults : Nat → Option String) (caseID : String) : Prop :=
  faults 0 ≠ none
    ∨ ∀ rows,
        selectWhere db "OnSiteVisit" ["id", "caseId", "createdAt"] "caseId" (Any.str caseID)
            = .ok rows →
          (scanHead (rows.take 1) ⟨"", "", 0⟩).ID = ""

/-! ## Lemmas on the patch handlers -/

theorem mapLookup_nil (k : String) : mapLookup [] k = false := rfl

theorem mapLookup_cons (k a : String) (b : Bool) (l : List (String × Bool)) :
    mapLookup ((a, b) :: l) k = if k = a then b else mapLookup l k := by
  unfold mapLookup
  by_cases h : k = a
  · subst h; simp [List.lookup]
  · have hb : (k == a) = false := by simpa using h
    simp [List.lookup, hb, h]

theorem room_allowed_iff (k : String) :
    mapLookup UpdateRoom.allowed k = true ↔ k ∈ roomFields := by
  simp only [UpdateRoom.allowed, roomFields, mapLookup_cons, mapLookup_nil, List.mem_cons,
    List.mem_singleton]
  split_ifs <;> simp_all

theorem existing_allowed_iff (k : String) :
    mapLookup UpdateExistingProduct.allowed k = true ↔ k ∈ existingFields := by
  simp only [UpdateExistingProduct.allowed, existingFields, mapLookup_cons, mapLookup_nil,
    List.mem_cons, List.mem_singleton]
  split_ifs <;> simp_all

theorem suggested_allowed_iff (k : String) :
    mapLookup UpdateSuggestedProduct.allowed k = true ↔ k ∈ suggestedFields := by
  simp only [UpdateSuggestedProduct.allowed, suggestedFields, mapLookup_cons, mapLookup_nil,
    List.mem_cons, List.mem_singleton]
  split_ifs <;> simp_all

/-- The loop keeps the accepted entries, in order. -/
theorem patchLoop_foldl (allowed : List (String × Bool)) (p : Patch)
    (acc : List String × List Any) :
    p.foldl
        (fun (acc : List String × List Any) (kv : String × Any) =>
          if mapLookup allowed kv.1 then
            (acc.1 ++ [sprintfSet kv.1], acc.2 ++ [kv.2])
          else acc)
        acc
      = (acc.1 ++ (recognized allowed p).map (fun kv => sprintfSet kv.1),
         acc.2 ++ (recognized allowed p).map Prod.snd) := by
  induction p generalizing acc with
  | nil => simp [recognized]
  | cons kv p ih =>
    rw [List.foldl_cons, ih]
    by_cases h : mapLookup allowed kv.1 = true
    · simp [recognized, List.filter_cons, h]
    · simp [recognized, List.filter_cons, h]

theorem patchLoop_eq (allowed : List (String × Bool)) (p : Patch) :
    patchLoop allowed p
      = ((recognized allowed p).map (fun kv => sprintfSet kv.1),
         (recognized allowed p).map Prod.snd) := by
  unfold patchLoop
  rw [patchLoop_foldl]
  simp

theorem recognized_mem (allowed : List (String × Bool)) (p : Patch) (kv : String × Any) :
    kv ∈ recognized allowed p ↔ kv ∈ p ∧ mapLookup allowed kv.1 = true := by
  simp [recognized, List.mem_filter]

theorem recognized_idem (allowed : List (String × Bool)) (p : Patch) :
    recognized allowed (recognized allowed p) = recognized allowed p := by
  simp [recognized, List.filter_filter]

theorem recognized_eq_nil (allowed : List (String × Bool)) (p : Patch) :
    recognized allowed p = [] ↔ ∀ kv ∈ p, mapLookup allowed kv.1 = false := by
  simp [recognized, List.filter_eq_nil_iff]

/-- A patch without an accepted key: 400 "no valid fields", no round trip. -/
theorem patchCore_none (stmtHead : String) (allowed : List (String × Bool))
    (faults : Nat → Option String) (id : String) (p : Patch)
    (h : recognized allowed p = []) :
    patchCore stmtHead allowed faults id (.ok p)
      = ⟨⟨StatusBadRequest, .error "no valid fields"⟩, []⟩ := by
  simp [patchCore, patchLoop_eq, h]

/-- A patch with an accepted key: exactly one round trip, the UPDATE. -/
theorem patchCore_some (stmtHead : String) (allowed : List (String × Bool))
    (faults : Nat → Option String) (id : String) (p : Patch)
    (h : recognized allowed p ≠ []) :
    patchCore stmtHead allowed faults id (.ok p)
      = ⟨⟨if (faults 0).isSome then StatusInternalServerError else StatusOK,
          if (faults 0).isSome then .error "update failed" else .none⟩,
         [⟨.exec (stmtHead
              ++ ", ".intercalate ((recognized allowed p).map (fun kv => sprintfSet kv.1))
              ++ " WHERE \"id\" = ?")
            ((recognized allowed p).map Prod.snd ++ [Any.str id]), faults 0⟩]⟩ := by
  have hlen : ¬ ((recognized allowed p).length = 0) := by
    intro h0; exact h (List.length_eq_zero.mp h0)
  cases hf : faults 0 <;> simp [patchCore, patchLoop_eq, hlen, hf, stringsJoin]

theorem patchCore_calls (table : String) (allowed : List (String × Bool))
    (faults : Nat → Option String) (id : String) (p : Patch) :
    (patchCore ("UPDATE \"" ++ table ++ "\" SET ") allowed faults id (.ok p)).calls.map Event.call
      = expectedCalls table allowed id p := by
  by_cases h : recognized allowed p = []
  · simp [patchCore_none _ _ _ _ _ h, expectedCalls, h]
  · simp [patchCore_some _ _ _ _ _ h, expectedCalls, h, updateStatement, sprintfSet,
      List.map_map, Function.comp_def]

/-! ## Placeholders -/

theorem placeholders_append (a b : String) :
    placeholders (a ++ b) = placeholders a + placeholders b := by
  simp [placeholders, String.data_append]

theorem placeholders_intercalate_go (sep : String) (l : List String) (acc : String) :
    placeholders (String.intercalate.go acc sep l)
      = placeholders acc + l.length * placeholders sep + (l.map placeholders).sum := by
  induction l generalizing acc with
  | nil => simp [String.intercalate.go]
  | cons a l ih =>
    simp only [String.intercalate.go, ih, placeholders_append, List.length_cons, List.map_cons,
      List.sum_cons]
    ring

theorem placeholders_set_clause (cols : List String) (h : ∀ k ∈ cols, placeholders k = 0) :
    placeholders (", ".intercalate (cols.map (fun k => "\"" ++ k ++ "\" = ?"))) = cols.length := by
  have hq : placeholders "\"" = 0 := by decide
  have he : placeholders "\" = ?" = 1 := by decide
  have hs : placeholders ", " = 0 := by decide
  have hsum : ∀ l : List String, (∀ k ∈ l, placeholders k = 0) →
      ((l.map (fun k => "\"" ++ k ++ "\" = ?")).map placeholders).sum = l.length := by
    intro l
    induction l with
    | nil => intro _; rfl
    | cons a l ih =>
      intro hl
      have ha : placeholders a = 0 := hl a (List.mem_cons_self a l)
      have hrest := ih (fun k hk => hl k (List.mem_cons_of_mem a hk))
      simp only [List.map_cons, List.sum_cons, hrest, placeholders_append, hq, he, ha,
        List.length_cons]
      omega
  cases cols with
  | nil => decide
  | cons a l =>
    have ha : placeholders a = 0 := h a (List.mem_cons_self a l)
    have hrest := hsum l (fun k hk => h k (List.mem_cons_of_mem a hk))
    simp only [List.map_cons, String.intercalate, placeholders_intercalate_go, hrest,
      placeholders_append, hq, he, hs, ha, List.length_cons, List.length_map]
    omega

theorem placeholders_updateStatement (table : String) (cols : List String)
    (ht : placeholders table = 0) (h : ∀ k ∈ cols, placeholders k = 0) :
    placeholders (updateStatement table cols) = cols.length + 1 := by
  have h1 : placeholders "UPDATE \"" = 0 := by decide
  have h2 : placeholders "\" SET " = 0 := by decide
  have h3 : placeholders " WHERE \"id\" = ?" = 1 := by decide
  simp only [updateStatement, placeholders_append, placeholders_set_clause cols h, h1, h2, h3, ht]
  omega

theorem room_key_plain (k : String) (h : mapLookup UpdateRoom.allowed k = true) :
    placeholders k = 0 := by
  have hk := (room_allowed_iff k).mp h
  simp only [roomFields, List.mem_cons, List.mem_singleton, List.not_mem_nil, or_false] at hk
  rcases hk with rfl | rfl | rfl | rfl | rfl | rfl | rfl <;> decide

theorem existing_key_plain (k : String) (h : mapLookup UpdateExistingProduct.allowed k = true) :
    placeholders k = 0 := by
  have hk := (existing_allowed_iff k).mp h
  simp only [existingFields, List.mem_cons, List.mem_singleton, List.not_mem_nil, or_false] at hk
  rcases hk with rfl | rfl | rfl <;> decide

theorem suggested_key_plain (k : String) (h : mapLookup UpdateSuggestedProduct.allowed k = true) :
    placeholders k = 0 := by
  have hk := (suggested_allowed_iff k).mp h
  simp only [suggestedFields, List.mem_cons, List.mem_singleton, List.not_mem_nil, or_false] at hk
  rcases hk with rfl | rfl <;> decide

/-! ## The patch handlers: C1 to C4 -/

theorem patchCore_setClauseExact (table : String) (allowed : List (String × Bool))
    (faults : Nat → Option String) (id : String) (p : Patch)
    (hnd : (p.map Prod.fst).Nodup) (hex : ∃ kv ∈ p, mapLookup allowed kv.1 = true) :
    SetClauseExact (patchCore ("UPDATE \"" ++ table ++ "\" SET ") allowed) table allowed
      faults id p := by
  have hne : recognized allowed p ≠ [] := by
    intro h
    obtain ⟨kv, hkv, hk⟩ := hex
    have := (recognized_eq_nil allowed p).mp h kv hkv
    simp [hk] at this
  have hne2 : recognized allowed (recognized allowed p) ≠ [] := by
    rw [recognized_idem]; exact hne
  refine ⟨?_, ?_, ?_, ?_⟩
  · rw [patchCore_calls]; simp [expectedCalls, hne]
  · exact (List.Nodup.filter _ hnd.of_map).map_on (by
      intro a ha b hb hab
      have ha2 : a ∈ p := List.mem_of_mem_filter ha
      have hb2 : b ∈ p := List.mem_of_mem_filter hb
      exact List.inj_on_of_nodup_map hnd ha2 hb2 hab)
  · intro k
    simp only [List.mem_map, recognized_mem]
    constructor
    · rintro ⟨kv, ⟨hkv, hal⟩, rfl⟩
      exact ⟨⟨kv, hkv, rfl⟩, hal⟩
    · rintro ⟨⟨kv, hkv, rfl⟩, hal⟩
      exact ⟨kv, ⟨hkv, hal⟩, rfl⟩
  · rw [patchCore_some _ _ _ _ _ hne, patchCore_some _ _ _ _ _ hne2, recognized_idem]

theorem sqlTexts_eq (calls : List Event) :
    sqlTexts calls
      = (calls.map Event.call).filterMap
          (fun c => match c with | .exec sql _ => some sql | _ => none) := by
  simp [sqlTexts, List.filterMap_map, Function.comp_def]

theorem patchCore_boundOnly (table : String) (allowed : List (String × Bool))
    (f1 f2 : Nat → Option String) (id1 id2 : String) (p1 p2 : Patch)
    (ht : placeholders table = 0) (hk : ∀ k, mapLookup allowed k = true → placeholders k = 0)
    (hsame : (recognized allowed p1).map Prod.fst = (recognized allowed p2).map Prod.fst) :
    BoundOnly (patchCore ("UPDATE \"" ++ table ++ "\" SET ") allowed) table allowed
      f1 f2 id1 id2 p1 p2 := by
  refine ⟨?_, patchCore_calls _ _ _ _ _, ?_⟩
  · rw [sqlTexts_eq, sqlTexts_eq, patchCore_calls, patchCore_calls]
    by_cases h1 : recognized allowed p1 = []
    · have h2 : recognized allowed p2 = [] := by
        have := congrArg List.length hsame
        simp [h1] at this
        exact List.length_eq_zero.mp this.symm
      simp [expectedCalls, h1, h2]
    · have h2 : recognized allowed p2 ≠ [] := by
        intro h2
        have := congrArg List.length hsame
        simp [h2] at this
        exact h1 this
      simp [expectedCalls, h1, h2, hsame]
  · intro ev hev sql args hcall
    have hmem : Call.exec sql args
        ∈ (patchCore ("UPDATE \"" ++ table ++ "\" SET ") allowed f1 id1 (.ok p1)).calls.map
            Event.call := by
      rw [← hcall]; exact List.mem_map_of_mem _ hev
    rw [patchCore_calls] at hmem
    by_cases h1 : recognized allowed p1 = []
    · simp [expectedCalls, h1] at hmem
    · simp only [expectedCalls, h1, if_false, List.mem_singleton, Call.exec.injEq] at hmem
      obtain ⟨rfl, rfl⟩ := hmem
      rw [placeholders_updateStatement table _ ht]
      · simp
      · intro k hkm
        obtain ⟨kv, hkv, rfl⟩ := List.mem_map.mp hkm
        exact hk _ ((recognized_mem allowed p1 kv).mp hkv).2

theorem patchCore_followsAllowList (table : String) (allowed : List (String × Bool))
    (fields : List String) (faults : Nat → Option String) (id : String) (p : Patch)
    (hiff : ∀ k, mapLookup allowed k = true ↔ k ∈ fields) :
    FollowsAllowList (patchCore ("UPDATE \"" ++ table ++ "\" SET ") allowed) table fields
      faults id p := by
  have hrec : recognized allowed p = p.filter (fun kv => kv.1 ∈ fields) := by
    unfold recognized
    apply List.filter_congr
    intro kv _
    by_cases h : kv.1 ∈ fields
    · simp [h, (hiff kv.1).mpr h]
    · have : mapLookup allowed kv.1 = false := by
        cases hm : mapLookup allowed kv.1
        · rfl
        · exact absurd ((hiff kv.1).mp hm) h
      simp [h, this]
  refine ⟨?_, ?_⟩
  · rw [patchCore_calls]
    simp only [expectedCalls, specCalls, hrec]
  · by_cases h : recognized allowed p = []
    · rw [patchCore_none _ _ _ _ _ h]
      have hall := (recognized_eq_nil allowed p).mp h
      constructor
      · intro _ kv hkv hmem
        have := hall kv hkv
        rw [(hiff kv.1).mpr hmem] at this
        exact Bool.noConfusion this
      · intro _; rfl
    · rw [patchCore_some _ _ _ _ _ h]
      constructor
      · intro heq
        exfalso
        cases hf : faults 0 <;> simp [hf, StatusOK, StatusInternalServerError] at heq
      · intro hall
        exfalso
        apply h
        rw [recognized_eq_nil]
        intro kv hkv
        cases hm : mapLookup allowed kv.1
        · rfl
        · exact absurd ((hiff kv.1).mp hm) (hall kv hkv)

theorem UpdateRoom_core :
    UpdateRoom = patchCore ("UPDATE \"" ++ "OnSiteVisitRoom" ++ "\" SET ") UpdateRoom.allowed := by
  have h : "UPDATE \"" ++ "OnSiteVisitRoom" ++ "\" SET " = "UPDATE \"OnSiteVisitRoom\" SET " := by
    decide
  rw [h]; rfl

theorem UpdateExistingProduct_core :
    UpdateExistingProduct
      = patchCore ("UPDATE \"" ++ "OnSiteExistingProduct" ++ "\" SET ")
          UpdateExistingProduct.allowed := by
  have h : "UPDATE \"" ++ "OnSiteExistingProduct" ++ "\" SET "
      = "UPDATE \"OnSiteExistingProduct\" SET " := by decide
  rw [h]; rfl

theorem UpdateSuggestedProduct_core :
    UpdateSuggestedProduct
      = patchCore ("UPDATE \"" ++ "OnSiteSuggestedProduct" ++ "\" SET ")
          UpdateSuggestedProduct.allowed := by
  have h : "UPDATE \"" ++ "OnSiteSuggestedProduct" ++ "\" SET "
      = "UPDATE \"OnSiteSuggestedProduct\" SET " := by decide
  rw [h]; rfl

/-- C1: a patch whose keys are all outside the allow-list of the resource (the
empty patch included) makes `UpdateRoom`, `UpdateExistingProduct` and
`UpdateSuggestedProduct` answer 400 with error "no valid fields" and make no
round trip to the store. -/
theorem patch_without_valid_fields_rejected (faults : Nat → Option String)
    (roomID exID sgID : String) (pr pe ps : Patch)
    (hr : ∀ kv ∈ pr, mapLookup UpdateRoom.allowed kv.1 = false)
    (he : ∀ kv ∈ pe, mapLookup UpdateExistingProduct.allowed kv.1 = false)
    (hs : ∀ kv ∈ ps, mapLookup UpdateSuggestedProduct.allowed kv.1 = false) :
    UpdateRoom faults roomID (.ok pr) = ⟨⟨400, .error "no valid fields"⟩, []⟩
      ∧ UpdateExistingProduct faults exID (.ok pe) = ⟨⟨400, .error "no valid fields"⟩, []⟩
      ∧ UpdateSuggestedProduct faults sgID (.ok ps) = ⟨⟨400, .error "no valid fields"⟩, []⟩ := by
  refine ⟨?_, ?_, ?_⟩
  · rw [UpdateRoom_core]
    exact patchCore_none _ _ _ _ _ ((recognized_eq_nil _ _).mpr hr)
  · rw [UpdateExistingProduct_core]
    exact patchCore_none _ _ _ _ _ ((recognized_eq_nil _ _).mpr he)
  · rw [UpdateSuggestedProduct_core]
    exact patchCore_none _ _ _ _ _ ((recognized_eq_nil _ _).mpr hs)

theorem patch_without_valid_fields_rejected_witness :
    UpdateRoom (fun _ => none) "room1" (.ok [("bogusField", .str "x"), ("id", .str "room2")])
        = ⟨⟨400, .error "no valid fields"⟩, []⟩
      ∧ UpdateExistingProduct (fun _ => none) "ex1" (.ok [])
          = ⟨⟨400, .error "no valid fields"⟩, []⟩
      ∧ UpdateSuggestedProduct (fun _ => none) "sg1" (.ok [("bypassBallast", .bool true)])
          = ⟨⟨400, .error "no valid fields"⟩, []⟩ :=
  patch_without_valid_fields_rejected (fun _ => none) "room1" "ex1" "sg1"
    [("bogusField", .str "x"), ("id", .str "room2")] [] [("bypassBallast", .bool true)]
    (by decide) (by decide) (by decide)

/-- C2: for a patch (a Go map, so with distinct keys) holding at least one
allow-listed key, the single UPDATE built by `UpdateRoom`, and likewise by
`UpdateExistingProduct` and `UpdateSuggestedProduct`, has a SET clause whose
columns are exactly the allow-listed keys of the patch, each once, none from
outside the allow-list; the handler behaves as on the patch restricted to its
allow-listed keys, so an unrecognized key has no effect. -/
theorem update_set_clause_is_allowed_keys (faults : Nat → Option String)
    (roomID exID sgID : String) (pr pe ps : Patch)
    (hr : (pr.map Prod.fst).Nodup) (hr1 : ∃ kv ∈ pr, mapLookup UpdateRoom.allowed kv.1 = true)
    (he : (pe.map Prod.fst).Nodup)
    (he1 : ∃ kv ∈ pe, mapLookup UpdateExistingProduct.allowed kv.1 = true)
    (hs : (ps.map Prod.fst).Nodup)
    (hs1 : ∃ kv ∈ ps, mapLookup UpdateSuggestedProduct.allowed kv.1 = true) :
    SetClauseExact UpdateRoom "OnSiteVisitRoom" UpdateRoom.allowed faults roomID pr
      ∧ SetClauseExact UpdateExistingProduct "OnSiteExistingProduct"
          UpdateExistingProduct.allowed faults exID pe
      ∧ SetClauseExact UpdateSuggestedProduct "OnSiteSuggestedProduct"
          UpdateSuggestedProduct.allowed faults sgID ps := by
  refine ⟨?_, ?_, ?_⟩
  · rw [UpdateRoom_core]; exact patchCore_setClauseExact _ _ _ _ _ hr hr1
  · rw [UpdateExistingProduct_core]; exact patchCore_setClauseExact _ _ _ _ _ he he1
  · rw [UpdateSuggestedProduct_core]; exact patchCore_setClauseExact _ _ _ _ _ hs hs1

theorem update_set_clause_is_allowed_keys_witness :
    SetClauseExact UpdateRoom "OnSiteVisitRoom" UpdateRoom.allowed (fun _ => none) "room1"
        [("location", .str "Warehouse B"), ("bogusField", .str "x")]
      ∧ SetClauseExact UpdateExistingProduct "OnSiteExistingProduct"
          UpdateExistingProduct.allowed (fun _ => none) "ex1"
          [("onSiteVisitId", .str "v9"), ("quantity", .num 4), ("bypassBallast", .bool true)]
      ∧ SetClauseExact UpdateSuggestedProduct "OnSiteSuggestedProduct"
          UpdateSuggestedProduct.allowed (fun _ => none) "sg1"
          [("quantity", .num 2), ("bypassBallast", .bool true)] :=
  update_set_clause_is_allowed_keys (fun _ => none) "room1" "ex1" "sg1"
    [("location", .str "Warehouse B"), ("bogusField", .str "x")]
    [("onSiteVisitId", .str "v9"), ("quantity", .num 4), ("bypassBallast", .bool true)]
    [("quantity", .num 2), ("bypassBallast", .bool true)]
    (by decide) (by decide) (by decide) (by decide) (by decide) (by decide)

/-- C3: in the three patch handlers field values travel only as bound
arguments: two patches with the same allow-listed keys in the same iteration
order give the same SQL text whatever their values and target ids; the
arguments of the statement are the values of its SET columns in order followed
by the target id; the text has as many `?` as there are arguments. -/
theorem update_values_are_bound (f1 f2 : Nat → Option String) (id1 id2 : String)
    (p1 p2 : Patch)
    (hr : (recognized UpdateRoom.allowed p1).map Prod.fst
        = (recognized UpdateRoom.allowed p2).map Prod.fst)
    (he : (recognized UpdateExistingProduct.allowed p1).map Prod.fst
        = (recognized UpdateExistingProduct.allowed p2).map Prod.fst)
    (hs : (recognized UpdateSuggestedProduct.allowed p1).map Prod.fst
        = (recognized UpdateSuggestedProduct.allowed p2).map Prod.fst) :
    BoundOnly UpdateRoom "OnSiteVisitRoom" UpdateRoom.allowed f1 f2 id1 id2 p1 p2
      ∧ BoundOnly UpdateExistingProduct "OnSiteExistingProduct" UpdateExistingProduct.allowed
          f1 f2 id1 id2 p1 p2
      ∧ BoundOnly UpdateSuggestedProduct "OnSiteSuggestedProduct"
          UpdateSuggestedProduct.allowed f1 f2 id1 id2 p1 p2 := by
  refine ⟨?_, ?_, ?_⟩
  · rw [UpdateRoom_core]
    exact patchCore_boundOnly _ _ _ _ _ _ _ _ (by decide) room_key_plain hr
  · rw [UpdateExistingProduct_core]
    exact patchCore_boundOnly _ _ _ _ _ _ _ _ (by decide) existing_key_plain he
  · rw [UpdateSuggestedProduct_core]
    exact patchCore_boundOnly _ _ _ _ _ _ _ _ (by decide) suggested_key_plain hs

theorem update_values_are_bound_witness :
    BoundOnly UpdateRoom "OnSiteVisitRoom" UpdateRoom.allowed
        (fun _ => none) (fun _ => some "connection reset") "room1" "room2"
        [("quantity", .num 1), ("location", .str "x; DROP TABLE y")]
        [("quantity", .num 7), ("bogus?", .null), ("location", .str "B")]
      ∧ BoundOnly UpdateExistingProduct "OnSiteExistingProduct" UpdateExistingProduct.allowed
          (fun _ => none) (fun _ => some "connection reset") "room1" "room2"
          [("quantity", .num 1), ("location", .str "x; DROP TABLE y")]
          [("quantity", .num 7), ("bogus?", .null), ("location", .str "B")]
      ∧ BoundOnly UpdateSuggestedProduct "OnSiteSuggestedProduct"
          UpdateSuggestedProduct.allowed
          (fun _ => none) (fun _ => some "connection reset") "room1" "room2"
          [("quantity", .num 1), ("location", .str "x; DROP TABLE y")]
          [("quantity", .num 7), ("bogus?", .null), ("location", .str "B")] :=
  update_values_are_bound (fun _ => none) (fun _ => some "connection reset") "room1" "room2"
    [("quantity", .num 1), ("location", .str "x; DROP TABLE y")]
    [("quantity", .num 7), ("bogus?", .null), ("location", .str "B")]
    (by decide) (by decide) (by decide)

/-- C4: the keys each patch handler accepts are exactly the allow-list of the
specification (room: location, locationTagId, lightingIssue, customerRequest,
mountingKitQty, motionSensorQty, ceilingHeight; existing product: productId,
quantity, bypassBallast; suggested product: productId, quantity), a key is
written by a handler if and only if it is in that list, and a patch holding
only bypassBallast is applied by `UpdateExistingProduct` and rejected with 400
by `UpdateSuggestedProduct`. -/
theorem update_allow_lists_match_spec (faults : Nat → Option String) (id : String)
    (p : Patch) (v : Any) :
    (∀ k, mapLookup UpdateRoom.allowed k = true ↔ k ∈ roomFields)
      ∧ (∀ k, mapLookup UpdateExistingProduct.allowed k = true ↔ k ∈ existingFields)
      ∧ (∀ k, mapLookup UpdateSuggestedProduct.allowed k = true ↔ k ∈ suggestedFields)
      ∧ FollowsAllowList UpdateRoom "OnSiteVisitRoom" roomFields faults id p
      ∧ FollowsAllowList UpdateExistingProduct "OnSiteExistingProduct" existingFields faults id p
      ∧ FollowsAllowList UpdateSuggestedProduct "OnSiteSuggestedProduct" suggestedFields
          faults id p
      ∧ (UpdateExistingProduct faults id (.ok [("bypassBallast", v)])).calls.map Event.call
          = [Call.exec "UPDATE \"OnSiteExistingProduct\" SET \"bypassBallast\" = ? WHERE \"id\" = ?"
              [v, Any.str id]]
      ∧ UpdateSuggestedProduct faults id (.ok [("bypassBallast", v)])
          = ⟨⟨400, .error "no valid fields"⟩, []⟩ := by
  refine ⟨room_allowed_iff, existing_allowed_iff, suggested_allowed_iff, ?_, ?_, ?_, ?_, ?_⟩
  · rw [UpdateRoom_core]; exact patchCore_followsAllowList _ _ _ _ _ _ room_allowed_iff
  · rw [UpdateExistingProduct_core]
    exact patchCore_followsAllowList _ _ _ _ _ _ existing_allowed_iff
  · rw [UpdateSuggestedProduct_core]
    exact patchCore_followsAllowList _ _ _ _ _ _ suggested_allowed_iff
  · have hrec : recognized UpdateExistingProduct.allowed [("bypassBallast", v)]
        = [("bypassBallast", v)] := by
      have : mapLookup UpdateExistingProduct.allowed "bypassBallast" = true := by decide
      simp [recognized, this]
    have htxt : updateStatement "OnSiteExistingProduct" ["bypassBallast"]
        = "UPDATE \"OnSiteExistingProduct\" SET \"bypassBallast\" = ? WHERE \"id\" = ?" := by
      decide
    rw [UpdateExistingProduct_core, patchCore_calls]
    simp [expectedCalls, hrec, htxt]
  · rw [UpdateSuggestedProduct_core]
    apply patchCore_none
    have : mapLookup UpdateSuggestedProduct.allowed "bypassBallast" = false := by decide
    simp [recognized, this]

/-! ## The DeleteRoom transaction: C5 to C8 -/

theorem deleteSQL_texts (roomID : String) :
    deleteRoomScript roomID
      = [Call.begin,
         Call.exec (deleteSQL "Photo" "roomId") [Any.str roomID],
         Call.exec (deleteSQL "SuggestedLight" "roomId") [Any.str roomID],
         Call.exec (deleteSQL "ExistingLight" "roomId") [Any.str roomID],
         Call.exec (deleteSQL "OnSiteVisitRoom" "id") [Any.str roomID],
         Call.commit] := by
  have h1 : deleteSQL "Photo" "roomId" = "DELETE FROM \"Photo\" WHERE \"roomId\" = ?" := by
    decide
  have h2 : deleteSQL "SuggestedLight" "roomId"
      = "DELETE FROM \"SuggestedLight\" WHERE \"roomId\" = ?" := by decide
  have h3 : deleteSQL "ExistingLight" "roomId"
      = "DELETE FROM \"ExistingLight\" WHERE \"roomId\" = ?" := by decide
  have h4 : deleteSQL "OnSiteVisitRoom" "id"
      = "DELETE FROM \"OnSiteVisitRoom\" WHERE \"id\" = ?" := by decide
  rw [h1, h2, h3, h4]; rfl

theorem ExecDelete_open (f : Option String) (s w : Store) (table col : String) (v : Any) :
    Conn.ExecDelete f ⟨s, some w, none⟩ table col v
      = match txDelete f w table col v with
        | .ok w2 => (none, ⟨s, some w2, none⟩)
        | .error e => (some e, ⟨s, some w, none⟩) := by
  cases f with
  | some e => rfl
  | none =>
    simp only [Conn.ExecDelete, txDelete]

/-- The paths of `DeleteRoom`, one per outcome of its calls. -/
theorem DeleteRoom_eq (db : Store) (faults : Nat → Option String) (roomID : String) :
    DeleteRoom db faults roomID
      = match faults 0 with
        | some e =>
          ⟨⟨500, .error ("failed to delete photos: " ++ e)⟩, ⟨db, none, some e⟩,
            [⟨Call.begin, some e⟩,
             ⟨Call.exec "DELETE FROM \"Photo\" WHERE \"roomId\" = ?" [Any.str roomID], some e⟩,
             ⟨Call.rollback, none⟩]⟩
        | none =>
        match txDelete (faults 1) db "Photo" "roomId" (.str roomID) with
        | .error e =>
          ⟨⟨500, .error ("failed to delete photos: " ++ e)⟩, ⟨db, none, none⟩,
            failedRun roomID 1 e⟩
        | .ok w1 =>
        match txDelete (faults 2) w1 "SuggestedLight" "roomId" (.str roomID) with
        | .error e =>
          ⟨⟨500, .error ("failed to delete suggested lights: " ++ e)⟩, ⟨db, none, none⟩,
            failedRun roomID 2 e⟩
        | .ok w2 =>
        match txDelete (faults 3) w2 "ExistingLight" "roomId" (.str roomID) with
        | .error e =>
          ⟨⟨500, .error ("failed to delete existing lights: " ++ e)⟩, ⟨db, none, none⟩,
            failedRun roomID 3 e⟩
        | .ok w3 =>
        match txDelete (faults 4) w3 "OnSiteVisitRoom" "id" (.str roomID) with
        | .error e =>
          ⟨⟨500, .error ("failed to delete room: " ++ e)⟩, ⟨db, none, none⟩,
            failedRun roomID 4 e⟩
        | .ok w4 =>
        match faults 5 with
        | some e =>
          ⟨⟨500, .error ("failed to commit transaction: " ++ e)⟩, ⟨db, none, none⟩,
            ((deleteRoomScript roomID).take 5).map (fun c => ⟨c, none⟩)
              ++ [⟨Call.commit, some e⟩]⟩
        | none =>
          ⟨⟨204, .none⟩, ⟨w4, none, none⟩,
            (deleteRoomScript roomID).map (fun c => ⟨c, none⟩)⟩ := by
  have h1 : deleteSQL "Photo" "roomId" = "DELETE FROM \"Photo\" WHERE \"roomId\" = ?" := by
    decide
  unfold DeleteRoom
  cases faults 0 with
  | some e0 =>
    simp [Conn.Begin, Conn.ExecDelete, Conn.Rollback, StatusInternalServerError, h1]
  | none =>
  simp only [Conn.Begin, ExecDelete_open, failedRun, deleteSQL_texts]
  cases txDelete (faults 1) db "Photo" "roomId" (.str roomID) with
  | error e => simp [Conn.Rollback, StatusInternalServerError]
  | ok w1 =>
    simp only [ExecDelete_open]
    cases txDelete (faults 2) w1 "SuggestedLight" "roomId" (.str roomID) with
    | error e => simp [Conn.Rollback, StatusInternalServerError]
    | ok w2 =>
      simp only [ExecDelete_open]
      cases txDelete (faults 3) w2 "ExistingLight" "roomId" (.str roomID) with
      | error e => simp [Conn.Rollback, StatusInternalServerError]
      | ok w3 =>
        simp only [ExecDelete_open]
        cases txDelete (faults 4) w3 "OnSiteVisitRoom" "id" (.str roomID) with
        | error e => simp [Conn.Rollback, StatusInternalServerError]
        | ok w4 =>
          simp only []
          cases faults 5 with
          | some e => simp [Conn.Commit, StatusInternalServerError]
          | none => simp [Conn.Commit, StatusNoContent]

theorem txDelete_ok {f : Option String} {w w2 : Store} {table col : String} {v : Any}
    (h : txDelete f w table col v = .ok w2) : deleteWhere w table col v = .ok w2 := by
  cases f with
  | some e => simp [txDelete] at h
  | none => simpa [txDelete] using h

theorem deleteWhere_ok {s s2 : Store} {table col : String} {v : Any}
    (h : deleteWhere s table col v = .ok s2) :
    ∃ t, s table = some t ∧ col ∈ t.cols
      ∧ s2 = setRows s table (t.rows.filter (fun r => !sqlEq (colValue r col) v)) := by
  unfold deleteWhere at h
  cases ht : s table with
  | none => simp [ht] at h
  | some t =>
    simp only [ht] at h
    by_cases hc : col ∈ t.cols
    · simp only [hc, if_true] at h
      exact ⟨t, rfl, hc, (Except.ok.inj h).symm⟩
    · simp [hc] at h

/-- After a DELETE nothing is left for the same DELETE to remove. -/
theorem stable_after {s s2 : Store} {table col : String} {v : Any}
    (h : deleteWhere s table col v = .ok s2) : Stable s2 table col v := by
  obtain ⟨t, ht, hc, rfl⟩ := deleteWhere_ok h
  refine ⟨{ t with rows := t.rows.filter (fun r => !sqlEq (colValue r col) v) }, ?_, hc, ?_⟩
  · simp [setRows, ht]
  · intro r hr
    have := (List.mem_filter.mp hr).2
    simpa using this

/-- A DELETE on any relation keeps the others, and itself, free of the rows an
earlier DELETE removed. -/
theorem stable_preserved {s s2 : Store} {table col table2 col2 : String} {v v2 : Any}
    (hs : Stable s table col v) (h : deleteWhere s table2 col2 v2 = .ok s2) :
    Stable s2 table col v := by
  obtain ⟨t2, ht2, _, rfl⟩ := deleteWhere_ok h
  obtain ⟨t, ht, hc, hrows⟩ := hs
  by_cases hn : table = table2
  · subst hn
    have h22 : t2 = t := Option.some.inj (ht2.symm.trans ht)
    subst h22
    refine ⟨{ t2 with rows := t2.rows.filter (fun r => !sqlEq (colValue r col2) v2) }, ?_, hc, ?_⟩
    · simp [setRows, ht]
    · intro r hr
      exact hrows r (List.mem_filter.mp hr).1
  · exact ⟨t, by simp [setRows, hn, ht], hc, hrows⟩

/-- A DELETE with nothing to remove succeeds and changes nothing. -/
theorem deleteWhere_stable {s : Store} {table col : String} {v : Any}
    (hs : Stable s table col v) : deleteWhere s table col v = .ok s := by
  obtain ⟨t, ht, hc, hrows⟩ := hs
  have hf : t.rows.filter (fun r => !sqlEq (colValue r col) v) = t.rows := by
    apply List.filter_eq_self.mpr
    intro r hr
    simpa using hrows r hr
  unfold deleteWhere
  simp only [ht, hc, if_true, hf]
  congr 1
  funext n
  by_cases hn : n = table
  · subst hn; simp [setRows, ht]
  · simp [setRows, hn]

/-- A DELETE changes no relation other than its own. -/
theorem deleteWhere_other {s s2 : Store} {table col : String} {v : Any} (name : String)
    (h : deleteWhere s table col v = .ok s2) (hn : name ≠ table) : s2 name = s name := by
  obtain ⟨t, _, _, rfl⟩ := deleteWhere_ok h
  simp [setRows, hn]

/-- C5 (the code departs from the claim): `DeleteRoom` never changes the
relations `OnSiteExistingProduct` and `OnSiteSuggestedProduct`, the ones
`AddExistingProduct` and `AddSuggestedProduct` insert into, nor
`OnSiteVisitPhoto`; on `legacyStore` the call for `room1` commits with 204 and
removes the room row, yet two existing-product rows and one suggested-product
row still reference `room1`. -/
theorem deleteRoom_keeps_product_rows :
    (∀ (db : Store) (faults : Nat → Option String) (roomID : String),
        (DeleteRoom db faults roomID).conn.store "OnSiteExistingProduct"
            = db "OnSiteExistingProduct"
          ∧ (DeleteRoom db faults roomID).conn.store "OnSiteSuggestedProduct"
            = db "OnSiteSuggestedProduct"
          ∧ (DeleteRoom db faults roomID).conn.store "OnSiteVisitPhoto"
            = db "OnSiteVisitPhoto")
      ∧ (DeleteRoom legacyStore (fun _ => none) "room1").resp = ⟨204, .none⟩
      ∧ (DeleteRoom legacyStore (fun _ => none) "room1").calls.getLast?
          = some ⟨Call.commit, none⟩
      ∧ rowsWhere (DeleteRoom legacyStore (fun _ => none) "room1").conn.store
          "OnSiteVisitRoom" "id" "room1" = []
      ∧ (rowsWhere (DeleteRoom legacyStore (fun _ => none) "room1").conn.store
          "OnSiteExistingProduct" "roomId" "room1").length = 2
      ∧ (rowsWhere (DeleteRoom legacyStore (fun _ => none) "room1").conn.store
          "OnSiteSuggestedProduct" "roomId" "room1").length = 1 := by
  refine ⟨?_, by decide, by decide, by decide, by decide, by decide⟩
  intro db faults roomID
  have key : ∀ name : String, name ≠ "Photo" → name ≠ "SuggestedLight" →
      name ≠ "ExistingLight" → name ≠ "OnSiteVisitRoom" →
      (DeleteRoom db faults roomID).conn.store name = db name := by
    intro name n1 n2 n3 n4
    rw [DeleteRoom_eq]
    cases faults 0 with
    | some e0 => rfl
    | none =>
    simp only []
    cases h1 : txDelete (faults 1) db "Photo" "roomId" (.str roomID) with
    | error e => rfl
    | ok w1 =>
      simp only []
      cases h2 : txDelete (faults 2) w1 "SuggestedLight" "roomId" (.str roomID) with
      | error e => rfl
      | ok w2 =>
        simp only []
        cases h3 : txDelete (faults 3) w2 "ExistingLight" "roomId" (.str roomID) with
        | error e => rfl
        | ok w3 =>
          simp only []
          cases h4 : txDelete (faults 4) w3 "OnSiteVisitRoom" "id" (.str roomID) with
          | error e => rfl
          | ok w4 =>
            simp only []
            cases faults 5 with
            | some e => rfl
            | none =>
              simp only []
              rw [deleteWhere_other name (txDelete_ok h4) n4,
                deleteWhere_other name (txDelete_ok h3) n3,
                deleteWhere_other name (txDelete_ok h2) n2,
                deleteWhere_other name (txDelete_ok h1) n1]
  exact ⟨key _ (by decide) (by decide) (by decide) (by decide),
    key _ (by decide) (by decide) (by decide) (by decide),
    key _ (by decide) (by decide) (by decide) (by decide)⟩

/-- C6: `DeleteRoom` is all-or-nothing: when one of its four DELETE statements
fails, the transaction is rolled back (the last round trip is the rollback and
no transaction stays open), the committed store equals the store before the
call, the response is 500 with an error body, and no commit is issued. -/
theorem deleteRoom_all_or_nothing (db : Store) (faults : Nat → Option String)
    (roomID : String)
    (h : ∃ ev ∈ (DeleteRoom db faults roomID).calls, ev.isStatement = true ∧ ev.err ≠ none) :
    (DeleteRoom db faults roomID).conn.store = db
      ∧ (DeleteRoom db faults roomID).conn.tx = none
      ∧ (DeleteRoom db faults roomID).resp.status = 500
      ∧ (∃ msg, (DeleteRoom db faults roomID).resp.body = .error msg)
      ∧ (DeleteRoom db faults roomID).calls.getLast? = some ⟨Call.rollback, none⟩
      ∧ ∀ ev ∈ (DeleteRoom db faults roomID).calls, ev.call ≠ Call.commit := by
  revert h
  rw [DeleteRoom_eq]
  cases faults 0 with
  | some e0 => intro _; simp
  | none =>
  simp only []
  cases txDelete (faults 1) db "Photo" "roomId" (.str roomID) with
  | error e => intro _; simp [failedRun, deleteRoomScript]
  | ok w1 =>
    simp only []
    cases txDelete (faults 2) w1 "SuggestedLight" "roomId" (.str roomID) with
    | error e => intro _; simp [failedRun, deleteRoomScript]
    | ok w2 =>
      simp only []
      cases txDelete (faults 3) w2 "ExistingLight" "roomId" (.str roomID) with
      | error e => intro _; simp [failedRun, deleteRoomScript]
      | ok w3 =>
        simp only []
        cases txDelete (faults 4) w3 "OnSiteVisitRoom" "id" (.str roomID) with
        | error e => intro _; simp [failedRun, deleteRoomScript]
        | ok w4 =>
          simp only []
          cases faults 5 with
          | some e => intro h; simp [deleteRoomScript, Event.isStatement] at h
          | none => intro h; simp [deleteRoomScript, Event.isStatement] at h

theorem deleteRoom_all_or_nothing_witness :
    (∃ ev ∈ (DeleteRoom declaredStore (fun _ => none) "room1").calls,
        ev.isStatement = true ∧ ev.err ≠ none)
      ∧ (DeleteRoom declaredStore (fun _ => none) "room1").conn.store = declaredStore
      ∧ (DeleteRoom declaredStore (fun _ => none) "room1").conn.tx = none
      ∧ (DeleteRoom declaredStore (fun _ => none) "room1").resp.status = 500
      ∧ (∃ msg, (DeleteRoom declaredStore (fun _ => none) "room1").resp.body = .error msg)
      ∧ (DeleteRoom declaredStore (fun _ => none) "room1").calls.getLast?
          = some ⟨Call.rollback, none⟩
      ∧ ∀ ev ∈ (DeleteRoom declaredStore (fun _ => none) "room1").calls,
          ev.call ≠ Call.commit :=
  ⟨by decide, deleteRoom_all_or_nothing declaredStore (fun _ => none) "room1" (by decide)⟩

/-- C7: `DeleteRoom` answers 204 with no content exactly when all four DELETE
statements and the commit are issued and succeed; in every other case (a
statement fails, or the commit fails) it answers 500 with an error body. -/
theorem deleteRoom_status (db : Store) (faults : Nat → Option String) (roomID : String) :
    ((DeleteRoom db faults roomID).resp.status = 204
        ↔ (DeleteRoom db faults roomID).calls
            = (deleteRoomScript roomID).map (fun c => ⟨c, none⟩))
      ∧ ((DeleteRoom db faults roomID).resp.status = 204
          → (DeleteRoom db faults roomID).resp.body = .none)
      ∧ ((DeleteRoom db faults roomID).resp.status ≠ 204
          → (DeleteRoom db faults roomID).resp.status = 500
            ∧ (∃ msg, (DeleteRoom db faults roomID).resp.body = .error msg)
            ∧ ∃ ev ∈ (DeleteRoom db faults roomID).calls,
                (ev.isStatement = true ∨ ev.call = Call.commit) ∧ ev.err ≠ none) := by
  rw [DeleteRoom_eq]
  cases faults 0 with
  | some e0 => simp [deleteRoomScript, Event.isStatement]
  | none =>
  simp only []
  cases txDelete (faults 1) db "Photo" "roomId" (.str roomID) with
  | error e => simp [failedRun, deleteRoomScript, Event.isStatement]
  | ok w1 =>
    simp only []
    cases txDelete (faults 2) w1 "SuggestedLight" "roomId" (.str roomID) with
    | error e => simp [failedRun, deleteRoomScript, Event.isStatement]
    | ok w2 =>
      simp only []
      cases txDelete (faults 3) w2 "ExistingLight" "roomId" (.str roomID) with
      | error e => simp [failedRun, deleteRoomScript, Event.isStatement]
      | ok w3 =>
        simp only []
        cases txDelete (faults 4) w3 "OnSiteVisitRoom" "id" (.str roomID) with
        | error e => simp [failedRun, deleteRoomScript, Event.isStatement]
        | ok w4 =>
          simp only []
          cases faults 5 with
          | some e => simp [deleteRoomScript, Event.isStatement]
          | none => simp [deleteRoomScript]

/-- C8: `DeleteRoom` is idempotent: after a `DeleteRoom` of a room that
answered 204, a second `DeleteRoom` of the same room on the resulting store
(the store itself not failing) answers 204 again and leaves the store as it
was: deleting rows already absent is not an error. -/
theorem deleteRoom_idempotent (db : Store) (faults : Nat → Option String) (roomID : String)
    (h : (DeleteRoom db faults roomID).resp.status = 204) :
    (DeleteRoom (DeleteRoom db faults roomID).conn.store (fun _ => none) roomID).resp
        = ⟨204, .none⟩
      ∧ (DeleteRoom (DeleteRoom db faults roomID).conn.store (fun _ => none) roomID).conn.store
        = (DeleteRoom db faults roomID).conn.store := by
  revert h
  rw [DeleteRoom_eq db faults roomID]
  cases faults 0 with
  | some e0 => intro h; simp at h
  | none =>
  simp only []
  cases h1 : txDelete (faults 1) db "Photo" "roomId" (.str roomID) with
  | error e => intro h; simp at h
  | ok w1 =>
    simp only []
    cases h2 : txDelete (faults 2) w1 "SuggestedLight" "roomId" (.str roomID) with
    | error e => intro h; simp at h
    | ok w2 =>
      simp only []
      cases h3 : txDelete (faults 3) w2 "ExistingLight" "roomId" (.str roomID) with
      | error e => intro h; simp at h
      | ok w3 =>
        simp only []
        cases h4 : txDelete (faults 4) w3 "OnSiteVisitRoom" "id" (.str roomID) with
        | error e => intro h; simp at h
        | ok w4 =>
          simp only []
          cases faults 5 with
          | some e => intro h; simp at h
          | none =>
            intro _
            simp only []
            have d1 := txDelete_ok h1
            have d2 := txDelete_ok h2
            have d3 := txDelete_ok h3
            have d4 := txDelete_ok h4
            have s1 : Stable w4 "Photo" "roomId" (.str roomID) :=
              stable_preserved (stable_preserved (stable_preserved (stable_after d1) d2) d3) d4
            have s2 : Stable w4 "SuggestedLight" "roomId" (.str roomID) :=
              stable_preserved (stable_preserved (stable_after d2) d3) d4
            have s3 : Stable w4 "ExistingLight" "roomId" (.str roomID) :=
              stable_preserved (stable_after d3) d4
            have s4 : Stable w4 "OnSiteVisitRoom" "id" (.str roomID) := stable_after d4
            rw [DeleteRoom_eq w4]
            simp [txDelete, deleteWhere_stable s1, deleteWhere_stable s2, deleteWhere_stable s3,
              deleteWhere_stable s4]

theorem deleteRoom_idempotent_witness :
    (DeleteRoom legacyStore (fun _ => none) "room1").resp.status = 204
      ∧ (DeleteRoom (DeleteRoom legacyStore (fun _ => none) "room1").conn.store
            (fun _ => none) "room1").resp = ⟨204, .none⟩
      ∧ (DeleteRoom (DeleteRoom legacyStore (fun _ => none) "room1").conn.store
            (fun _ => none) "room1").conn.store
          = (DeleteRoom legacyStore (fun _ => none) "room1").conn.store :=
  ⟨by decide, deleteRoom_idempotent legacyStore (fun _ => none) "room1" (by decide)⟩

/-! ## EnsureOnSiteVisit: C9 and C10 -/

theorem sqlEq_str (a : Any) (s : String) : sqlEq a (Any.str s) = true ↔ a = Any.str s := by
  constructor
  · intro h
    simp only [sqlEq, Bool.and_eq_true, beq_iff_eq] at h
    exact h.2
  · intro h
    subst h
    simp [sqlEq]

theorem selectWhere_ok {db : Store} {table col : String} {sel : List String} {v : Any}
    {rows : List Row} (h : selectWhere db table sel col v = .ok rows) :
    ∃ t, db table = some t ∧ col ∈ t.cols ∧ (∀ c ∈ sel, c ∈ t.cols)
      ∧ rows = t.rows.filter (fun r => sqlEq (colValue r col) v) := by
  unfold selectWhere at h
  cases ht : db table with
  | none => simp [ht] at h
  | some t =>
    simp only [ht] at h
    by_cases hc : col ∈ t.cols ∧ ∀ c ∈ sel, c ∈ t.cols
    · rw [if_pos hc] at h
      exact ⟨t, rfl, hc.1, hc.2, (Except.ok.inj h).symm⟩
    · rw [if_neg hc] at h
      exact Except.noConfusion h

theorem insertRow_ok {db db2 : Store} {table : String} {row : Row}
    (h : insertRow db table row = .ok db2) :
    ∃ t, db table = some t ∧ (∀ kv ∈ row, kv.1 ∈ t.cols)
      ∧ (¬ ∃ u ∈ t.unique, ∃ r ∈ t.rows, sqlEq (colValue r u) (colValue row u) = true)
      ∧ db2 = setRows db table (t.rows ++ [row]) := by
  unfold insertRow at h
  cases ht : db table with
  | none => simp [ht] at h
  | some t =>
    simp only [ht] at h
    by_cases hc : ∀ kv ∈ row, kv.1 ∈ t.cols
    · rw [if_pos hc] at h
      by_cases hu : ∃ u ∈ t.unique, ∃ r ∈ t.rows, sqlEq (colValue r u) (colValue row u) = true
      · rw [if_pos hu] at h
        exact Except.noConfusion h
      · rw [if_neg hu] at h
        exact ⟨t, rfl, hc, hu, (Except.ok.inj h).symm⟩
    · rw [if_neg hc] at h
      exact Except.noConfusion h

/-- The lookup found a visit with a non-empty id: the handler answers with it
after that one round trip. -/
theorem ensure_found (db : Store) (faults : Nat → Option String) (newID : String) (now : Int)
    (caseID : String) (row : Row) (rest : List Row) (hf : faults 0 = none)
    (hsel : selectWhere db "OnSiteVisit" ["id", "caseId", "createdAt"] "caseId" (.str caseID)
        = .ok (row :: rest))
    (hid : asString (colValue row "id") ≠ "") :
    EnsureOnSiteVisit db faults newID now caseID
      = ⟨⟨200, .json (rowHead row)⟩, db, [⟨.exec ensureSelectSQL [.str caseID], none⟩]⟩ := by
  have hid2 : (rowHead row).ID ≠ "" := hid
  simp [EnsureOnSiteVisit, hf, hsel, scanHead, hid2, StatusOK]

theorem scanHead_cons (r : Row) (rs : List Row) (head : VisitHead) :
    scanHead (r :: rs) head = rowHead r := rfl

theorem rowHead_new (newID caseID : String) (now : Int) :
    rowHead [("id", .str newID), ("caseId", .str caseID), ("createdAt", .time now)]
      = ⟨newID, caseID, now⟩ := rfl

theorem colValue_new_caseId (newID caseID : String) (now : Int) :
    colValue [("id", .str newID), ("caseId", .str caseID), ("createdAt", .time now)] "caseId"
      = .str caseID := rfl

/-- The lookup failed or found no usable visit (no fault injected): the
handler goes on to the insert, and its answer is decided by the insert. -/
theorem ensure_insert (db : Store) (newID : String) (now : Int) (caseID : String)
    (hq : match selectWhere db "OnSiteVisit" ["id", "caseId", "createdAt"] "caseId"
        (.str caseID) with
      | .error _ => True
      | .ok rows => (scanHead (rows.take 1) ⟨"", "", 0⟩).ID = "") :
    (EnsureOnSiteVisit db (fun _ => none) newID now caseID).resp
        = (match insertRow db "OnSiteVisit"
              [("id", .str newID), ("caseId", .str caseID), ("createdAt", .time now)] with
          | .error _ => ⟨500, .error "create visit failed"⟩
          | .ok _ => ⟨200, .json ⟨newID, caseID, now⟩⟩)
      ∧ (EnsureOnSiteVisit db (fun _ => none) newID now caseID).db
        = (match insertRow db "OnSiteVisit"
              [("id", .str newID), ("caseId", .str caseID), ("createdAt", .time now)] with
          | .error _ => db
          | .ok db2 => db2) := by
  revert hq
  cases hs : selectWhere db "OnSiteVisit" ["id", "caseId", "createdAt"] "caseId" (.str caseID) with
  | error e =>
    intro _
    cases hi : insertRow db "OnSiteVisit"
        [("id", .str newID), ("caseId", .str caseID), ("createdAt", .time now)] <;>
      simp [EnsureOnSiteVisit, hs, hi, StatusOK, StatusInternalServerError, scanHead_cons,
        rowHead_new]
  | ok rows =>
    intro hq
    simp only [] at hq
    cases hi : insertRow db "OnSiteVisit"
        [("id", .str newID), ("caseId", .str caseID), ("createdAt", .time now)] <;>
      simp [EnsureOnSiteVisit, hs, hi, hq, StatusOK, StatusInternalServerError, scanHead_cons,
        rowHead_new]

/-- C9: on a store whose operations succeed (no fault injected, the first call
answers 200) and where the declared unique index on `caseId` is in force,
two calls of `EnsureOnSiteVisit` in sequence for the same case id (the id
`cuid.New()` hands to the first being non-empty) both answer 200 with the same
visit id, and the store then holds exactly one `OnSiteVisit` row of the case. -/
theorem ensure_twice_same_visit (db : Store) (id1 id2 : String) (t1 t2 : Int)
    (caseID : String) (hu : uniqueVisitPerCase db caseID = true) (hid : id1 ≠ "")
    (hok : (EnsureOnSiteVisit db (fun _ => none) id1 t1 caseID).resp.status = 200) :
    ∃ h1 h2 : VisitHead,
      (EnsureOnSiteVisit db (fun _ => none) id1 t1 caseID).resp = ⟨200, .json h1⟩
        ∧ (EnsureOnSiteVisit (EnsureOnSiteVisit db (fun _ => none) id1 t1 caseID).db
              (fun _ => none) id2 t2 caseID).resp = ⟨200, .json h2⟩
        ∧ h1.ID = h2.ID
        ∧ visitCount
            (EnsureOnSiteVisit (EnsureOnSiteVisit db (fun _ => none) id1 t1 caseID).db
              (fun _ => none) id2 t2 caseID).db caseID = 1 := by
  cases hs : selectWhere db "OnSiteVisit" ["id", "caseId", "createdAt"] "caseId"
      (.str caseID) with
  | error e =>
    have hq : match selectWhere db "OnSiteVisit" ["id", "caseId", "createdAt"] "caseId"
          (.str caseID) with
        | .error _ => True
        | .ok rows => (scanHead (rows.take 1) ⟨"", "", 0⟩).ID = "" := by
      rw [hs]; trivial
    obtain ⟨hr, _⟩ := ensure_insert db id1 t1 caseID hq
    exfalso
    cases hi : insertRow db "OnSiteVisit"
        [("id", .str id1), ("caseId", .str caseID), ("createdAt", .time t1)] with
    | error e2 => rw [hr, hi] at hok; simp at hok
    | ok db2 =>
      obtain ⟨t, ht, hcols, _, _⟩ := insertRow_ok hi
      have c1 : "id" ∈ t.cols := hcols ("id", .str id1) (by simp)
      have c2 : "caseId" ∈ t.cols := hcols ("caseId", .str caseID) (by simp)
      have c3 : "createdAt" ∈ t.cols := hcols ("createdAt", .time t1) (by simp)
      simp [selectWhere, ht, c1, c2, c3] at hs
  | ok rows =>
    obtain ⟨t, ht, hc, hsel, hrows⟩ := selectWhere_ok hs
    have hut : "caseId" ∈ t.unique
        ∧ (t.rows.filter (fun r => sqlEq (colValue r "caseId") (Any.str caseID))).length ≤ 1 := by
      simpa [uniqueVisitPerCase, ht] using hu
    cases rows with
    | nil =>
      have hq : match selectWhere db "OnSiteVisit" ["id", "caseId", "createdAt"] "caseId"
            (.str caseID) with
          | .error _ => True
          | .ok rows => (scanHead (rows.take 1) ⟨"", "", 0⟩).ID = "" := by
        rw [hs]; rfl
      obtain ⟨hr, hd⟩ := ensure_insert db id1 t1 caseID hq
      cases hi : insertRow db "OnSiteVisit"
          [("id", .str id1), ("caseId", .str caseID), ("createdAt", .time t1)] with
      | error e2 => rw [hr, hi] at hok; simp at hok
      | ok db2 =>
        rw [hi] at hr hd
        simp only [] at hr hd
        obtain ⟨tb, ht2, _, _, hdb2⟩ := insertRow_ok hi
        have htt : tb = t := Option.some.inj (ht2.symm.trans ht)
        subst htt
        have hs2 : selectWhere db2 "OnSiteVisit" ["id", "caseId", "createdAt"] "caseId"
            (.str caseID)
            = .ok [[("id", .str id1), ("caseId", .str caseID), ("createdAt", .time t1)]] := by
          have hcond : "caseId" ∈ tb.cols ∧ ∀ c ∈ ["id", "caseId", "createdAt"], c ∈ tb.cols :=
            ⟨hc, hsel⟩
          subst hdb2
          simp only [selectWhere, setRows, ht, if_true, Option.map_some', if_pos hcond,
            List.filter_append, ← hrows]
          simp [colValue_new_caseId, (sqlEq_str _ _).mpr rfl]
        have hf2 := ensure_found db2 (fun _ => none) id2 t2 caseID _ [] rfl hs2
          (by rw [show colValue [("id", Any.str id1), ("caseId", Any.str caseID),
                ("createdAt", Any.time t1)] "id" = Any.str id1 from rfl]; exact hid)
        refine ⟨⟨id1, caseID, t1⟩, ⟨id1, caseID, t1⟩, hr, ?_, rfl, ?_⟩
        · rw [hd, hf2, rowHead_new]
        · rw [hd, hf2]
          subst hdb2
          simp only [visitCount, setRows, ht, if_true, Option.map_some', List.filter_append,
            ← hrows]
          simp [colValue_new_caseId, (sqlEq_str _ _).mpr rfl]
    | cons r rest =>
      have hrest : rest = [] := by
        have hlen := hut.2
        rw [← hrows] at hlen
        simp at hlen
        exact hlen
      subst hrest
      have hrmem : r ∈ t.rows.filter (fun r => sqlEq (colValue r "caseId") (Any.str caseID)) := by
        rw [← hrows]; exact List.mem_singleton.mpr rfl
      by_cases hid0 : asString (colValue r "id") = ""
      · have hq : match selectWhere db "OnSiteVisit" ["id", "caseId", "createdAt"] "caseId"
              (.str caseID) with
            | .error _ => True
            | .ok rows => (scanHead (rows.take 1) ⟨"", "", 0⟩).ID = "" := by
          rw [hs]; exact hid0
        obtain ⟨hr, _⟩ := ensure_insert db id1 t1 caseID hq
        exfalso
        cases hi : insertRow db "OnSiteVisit"
            [("id", .str id1), ("caseId", .str caseID), ("createdAt", .time t1)] with
        | error e2 => rw [hr, hi] at hok; simp at hok
        | ok db2 =>
          obtain ⟨tb, ht2, _, huniq, _⟩ := insertRow_ok hi
          have htt : tb = t := Option.some.inj (ht2.symm.trans ht)
          subst htt
          apply huniq
          refine ⟨"caseId", hut.1, r, (List.mem_filter.mp hrmem).1, ?_⟩
          rw [colValue_new_caseId]
          exact (List.mem_filter.mp hrmem).2
      · have hf1 := ensure_found db (fun _ => none) id1 t1 caseID r [] rfl hs hid0
        have hf2 := ensure_found db (fun _ => none) id2 t2 caseID r [] rfl hs hid0
        refine ⟨rowHead r, rowHead r, ?_, ?_, rfl, ?_⟩
        · rw [hf1]
        · rw [hf1, hf2]
        · rw [hf1, hf2]
          simp only [visitCount, ht, ← hrows, List.length_singleton]

theorem ensure_twice_same_visit_witness :
    uniqueVisitPerCase declaredStore "case2" = true ∧ "ckx01" ≠ ""
      ∧ (EnsureOnSiteVisit declaredStore (fun _ => none) "ckx01" 200 "case2").resp.status = 200
      ∧ ∃ h1 h2 : VisitHead,
          (EnsureOnSiteVisit declaredStore (fun _ => none) "ckx01" 200 "case2").resp
              = ⟨200, .json h1⟩
            ∧ (EnsureOnSiteVisit
                  (EnsureOnSiteVisit declaredStore (fun _ => none) "ckx01" 200 "case2").db
                  (fun _ => none) "ckx02" 201 "case2").resp = ⟨200, .json h2⟩
            ∧ h1.ID = h2.ID
            ∧ visitCount
                (EnsureOnSiteVisit
                  (EnsureOnSiteVisit declaredStore (fun _ => none) "ckx01" 200 "case2").db
                  (fun _ => none) "ckx02" 201 "case2").db "case2" = 1 :=
  ⟨by decide, by decide, by decide,
    ensure_twice_same_visit declaredStore "ckx01" "ckx02" 200 201 "case2"
      (by decide) (by decide) (by decide)⟩

/-- C10: when a visit already exists for the case id and the lookup succeeds
(it returns the stored row, whose id is one `cuid.New()` generated and so not
empty), `EnsureOnSiteVisit` answers 200 with the header of that stored row
(its id, its caseId, which is the requested case id, and its createdAt),
makes the lookup as its only call (no insert), and leaves the store
unchanged. -/
theorem ensure_returns_existing_visit (db : Store) (faults : Nat → Option String)
    (newID : String) (now : Int) (caseID : String) (row : Row) (rest : List Row)
    (hf : faults 0 = none)
    (hsel : selectWhere db "OnSiteVisit" ["id", "caseId", "createdAt"] "caseId" (.str caseID)
        = .ok (row :: rest))
    (hid : asString (colValue row "id") ≠ "") :
    (EnsureOnSiteVisit db faults newID now caseID).resp = ⟨200, .json (rowHead row)⟩
      ∧ row ∈ rowsWhere db "OnSiteVisit" "caseId" caseID
      ∧ (rowHead row).CaseID = caseID
      ∧ (EnsureOnSiteVisit db faults newID now caseID).calls
          = [⟨.exec ensureSelectSQL [.str caseID], none⟩]
      ∧ (EnsureOnSiteVisit db faults newID now caseID).db = db := by
  obtain ⟨t, ht, _, _, hrows⟩ := selectWhere_ok hsel
  have hmem : row ∈ t.rows.filter (fun r => sqlEq (colValue r "caseId") (Any.str caseID)) := by
    rw [← hrows]; exact List.mem_cons_self _ _
  have hcase : colValue row "caseId" = Any.str caseID :=
    (sqlEq_str _ _).mp (List.mem_filter.mp hmem).2
  rw [ensure_found db faults newID now caseID row rest hf hsel hid]
  refine ⟨rfl, ?_, ?_, rfl, rfl⟩
  · simpa [rowsWhere, ht] using hmem
  · simp [rowHead, hcase, asString]

theorem ensure_returns_existing_visit_witness :
    selectWhere declaredStore "OnSiteVisit" ["id", "caseId", "createdAt"] "caseId"
        (.str "case1")
        = .ok [[("id", .str "visit1"), ("caseId", .str "case1"), ("createdAt", .time 100)]]
      ∧ (EnsureOnSiteVisit declaredStore (fun _ => none) "ckx01" 200 "case1").resp
          = ⟨200, .json ⟨"visit1", "case1", 100⟩⟩
      ∧ (EnsureOnSiteVisit declaredStore (fun _ => none) "ckx01" 200 "case1").calls
          = [⟨.exec ensureSelectSQL [.str "case1"], none⟩]
      ∧ (EnsureOnSiteVisit declaredStore (fun _ => none) "ckx01" 200 "case1").db
          = declaredStore :=
  have hsel : selectWhere declaredStore "OnSiteVisit" ["id", "caseId", "createdAt"] "caseId"
      (.str "case1")
      = .ok [[("id", .str "visit1"), ("caseId", .str "case1"), ("createdAt", .time 100)]] := rfl
  have h := ensure_returns_existing_visit declaredStore (fun _ => none) "ckx01" 200 "case1"
    [("id", .str "visit1"), ("caseId", .str "case1"), ("createdAt", .time 100)] [] rfl hsel
    (by decide)
  ⟨hsel, h.1, h.2.2.2.1, h.2.2.2.2⟩

/-! ## What `strconv.Atoi` returns -/

theorem foldl_digitStep_none (cs : List Char) : cs.foldl digitStep none = none := by
  induction cs with
  | nil => rfl
  | cons c cs ih => simpa [List.foldl, digitStep] using ih

theorem foldl_digitStep_cons (c : Char) (cs : List Char) (n : Nat) :
    (c :: cs).foldl digitStep (some n)
      = if 48 ≤ c.toNat ∧ c.toNat ≤ 57 then cs.foldl digitStep (some (n * 10 + (c.toNat - 48)))
        else none := by
  by_cases h : 48 ≤ c.toNat ∧ c.toNat ≤ 57
  · simp only [List.foldl, digitStep, if_pos h]
  · simp only [List.foldl, digitStep, if_neg h, foldl_digitStep_none]

theorem foldl_digitStep_ge (cs : List Char) :
    ∀ (n v : Nat), cs.foldl digitStep (some n) = some v → n ≤ v := by
  induction cs with
  | nil =>
    intro n v h
    simp only [List.foldl] at h
    exact le_of_eq (Option.some.inj h)
  | cons c cs ih =>
    intro n v h
    rw [foldl_digitStep_cons] at h
    by_cases hd : 48 ≤ c.toNat ∧ c.toNat ≤ 57
    · rw [if_pos hd] at h
      have := ih _ _ h
      omega
    · rw [if_neg hd] at h
      exact Option.noConfusion h

theorem foldl_digitStep_lt (cs : List Char) :
    ∀ (n v : Nat), cs.foldl digitStep (some n) = some v → v < (n + 1) * 10 ^ cs.length := by
  induction cs with
  | nil =>
    intro n v h
    simp only [List.foldl] at h
    have := Option.some.inj h
    simp only [List.length_nil, pow_zero, mul_one]
    omega
  | cons c cs ih =>
    intro n v h
    rw [foldl_digitStep_cons] at h
    by_cases hd : 48 ≤ c.toNat ∧ c.toNat ≤ 57
    · rw [if_pos hd] at h
      have h1 := ih _ _ h
      have h2 : (n * 10 + (c.toNat - 48) + 1) * 10 ^ cs.length
          ≤ ((n + 1) * 10) * 10 ^ cs.length :=
        Nat.mul_le_mul_right _ (by omega)
      rw [List.length_cons, pow_succ]
      calc v < (n * 10 + (c.toNat - 48) + 1) * 10 ^ cs.length := h1
        _ ≤ ((n + 1) * 10) * 10 ^ cs.length := h2
        _ = (n + 1) * (10 ^ cs.length * 10) := by ring
    · rw [if_neg hd] at h
      exact Option.noConfusion h

/-- The loop of `ParseUint`, read off the value of the digits: the value when
every character is a digit and it fits, the range error when the digits
overflow (at once, whatever follows), the syntax error otherwise. -/
theorem ParseUint_loop_eq (cs : List Char) :
    ∀ n : Nat, n ≤ maxUint64 →
      ParseUint.loop cs n
        = match cs.foldl digitStep (some n) with
          | some v => if v ≤ maxUint64 then (v, none) else (maxUint64, some NumError.ErrRange)
          | none =>
            if overflowsFrom n cs = true then (maxUint64, some NumError.ErrRange)
            else (0, some NumError.ErrSyntax) := by
  induction cs with
  | nil =>
    intro n hn
    simp only [ParseUint.loop, List.foldl, if_pos hn]
  | cons c cs ih =>
    intro n hn
    rw [foldl_digitStep_cons]
    unfold ParseUint.loop overflowsFrom
    by_cases hd : 48 ≤ c.toNat ∧ c.toNat ≤ 57
    · simp only [if_pos hd]
      by_cases ho : 18446744073709551615 < n * 10 + (c.toNat - 48)
      · have hres : (if n ≥ maxUint64 / 10 + 1 then (maxUint64, some NumError.ErrRange)
            else if n * 10 + (c.toNat - 48) > maxUint64 then (maxUint64, some NumError.ErrRange)
            else ParseUint.loop cs (n * 10 + (c.toNat - 48)))
            = (maxUint64, some NumError.ErrRange) := by
          by_cases h1 : n ≥ maxUint64 / 10 + 1
          · rw [if_pos h1]
          · rw [if_neg h1, if_pos (by unfold maxUint64; omega)]
        simp only [hres, if_pos ho]
        cases hf : cs.foldl digitStep (some (n * 10 + (c.toNat - 48))) with
        | none => simp
        | some v =>
          have := foldl_digitStep_ge cs _ _ hf
          have hv : ¬ v ≤ maxUint64 := by unfold maxUint64; omega
          simp only [if_neg hv]
      · have h1 : ¬ n ≥ maxUint64 / 10 + 1 := by unfold maxUint64; omega
        have h2 : ¬ n * 10 + (c.toNat - 48) > maxUint64 := by unfold maxUint64; omega
        simp only [if_neg h1, if_neg h2, if_neg ho]
        exact ih _ (by unfold maxUint64; omega)
    · simp only [if_neg hd]
      simp

theorem overflowsFrom_iff (cs : List Char) :
    ∀ n : Nat, n ≤ maxUint64 →
      (overflowsFrom n cs = true
        ↔ ∃ k v, (cs.take k).foldl digitStep (some n) = some v ∧ maxUint64 < v) := by
  induction cs with
  | nil =>
    intro n hn
    simp only [overflowsFrom, List.take_nil, List.foldl, Option.some.injEq]
    constructor
    · intro h; exact Bool.noConfusion h
    · rintro ⟨_, v, rfl, hv⟩; omega
  | cons c cs ih =>
    intro n hn
    unfold overflowsFrom
    by_cases hd : 48 ≤ c.toNat ∧ c.toNat ≤ 57
    · rw [if_pos hd]
      by_cases ho : 18446744073709551615 < n * 10 + (c.toNat - 48)
      · rw [if_pos ho]
        refine ⟨fun _ => ⟨1, n * 10 + (c.toNat - 48), ?_, ho⟩, fun _ => rfl⟩
        rw [List.take_succ_cons, foldl_digitStep_cons, if_pos hd]
        rfl
      · rw [if_neg ho, ih _ (by unfold maxUint64; omega)]
        constructor
        · rintro ⟨k, v, hf, hv⟩
          refine ⟨k + 1, v, ?_, hv⟩
          rw [List.take_succ_cons, foldl_digitStep_cons, if_pos hd]
          exact hf
        · rintro ⟨k, v, hf, hv⟩
          cases k with
          | zero =>
            simp only [List.take_zero, List.foldl, Option.some.injEq] at hf
            omega
          | succ k =>
            rw [List.take_succ_cons, foldl_digitStep_cons, if_pos hd] at hf
            exact ⟨k, v, hf, hv⟩
    · rw [if_neg hd]
      constructor
      · intro h; exact Bool.noConfusion h
      · rintro ⟨k, v, hf, hv⟩
        cases k with
        | zero =>
          simp only [List.take_zero, List.foldl, Option.some.injEq] at hf
          omega
        | succ k =>
          rw [List.take_succ_cons, foldl_digitStep_cons, if_neg hd] at hf
          exact Option.noConfusion hf

theorem overflowsUint64_eq (ds : List Char) : overflowsUint64 ds = overflowsFrom 0 ds := by
  rw [Bool.eq_iff_iff, overflowsFrom_iff ds 0 (by decide)]
  unfold overflowsUint64
  rw [List.any_eq_true]
  constructor
  · rintro ⟨k, _, hk⟩
    cases hv : digitsValue (ds.take k) with
    | none => rw [hv] at hk; exact Bool.noConfusion hk
    | some v =>
      rw [hv] at hk
      refine ⟨k, v, ?_, of_decide_eq_true hk⟩
      unfold digitsValue at hv
      split_ifs at hv
      exact hv
  · rintro ⟨k, v, hf, hv⟩
    have hne : ds.take k ≠ [] := by
      intro h0
      rw [h0] at hf
      simp only [List.foldl, Option.some.injEq] at hf
      omega
    have hdv : digitsValue (ds.take k) = some v := by
      unfold digitsValue
      rw [if_neg hne]
      exact hf
    by_cases hk : k ≤ ds.length
    · refine ⟨k, List.mem_range.mpr (by omega), ?_⟩
      rw [hdv]
      exact decide_eq_true hv
    · refine ⟨ds.length, List.mem_range.mpr (by omega), ?_⟩
      rw [List.take_of_length_le (by omega)] at hdv
      rw [List.take_length, hdv]
      exact decide_eq_true hv

theorem digitsValue_of_ne {ds : List Char} (h : ds ≠ []) :
    digitsValue ds = ds.foldl digitStep (some 0) := by
  unfold digitsValue
  rw [if_neg h]

theorem readInt_nil (neg : Bool) : readInt neg [] = 0 := by
  cases neg <;> rfl

/-- What `ParseInt` makes of the rest of a text after its sign. -/
theorem ParseUint_readInt (neg : Bool) (ds : List Char) :
    (match ParseUint ds with
      | (_, some NumError.ErrSyntax) => ((0 : Int), some NumError.ErrSyntax)
      | (un, _) =>
        if neg = false ∧ un ≥ 9223372036854775808 then (9223372036854775807, some .ErrRange)
        else if neg = true ∧ un > 9223372036854775808 then
          (-9223372036854775808, some .ErrRange)
        else (if neg then -(un : Int) else (un : Int), none)).1 = readInt neg ds := by
  by_cases hne : ds = []
  · subst hne
    rw [readInt_nil]
    rfl
  · unfold ParseUint readInt
    rw [if_neg hne, ParseUint_loop_eq ds 0 (by decide), digitsValue_of_ne hne,
      overflowsUint64_eq]
    cases hf : ds.foldl digitStep (some 0) with
    | none =>
      simp only []
      by_cases ho : overflowsFrom 0 ds = true
      · simp only [ho, if_true]
        cases neg <;> simp [maxUint64, minInt, maxInt]
      · simp only [ho]
        simp
    | some v =>
      simp only [maxUint64, maxInt, minInt]
      cases neg
      · simp only [Bool.false_eq_true, false_and, if_false, true_and]
        split_ifs <;> simp only [] <;> (try split_ifs) <;> (try simp only []) <;> omega
      · simp only [Bool.true_eq_false, false_and, if_false, true_and, if_true]
        split_ifs <;> simp only [] <;> (try split_ifs) <;> (try simp only []) <;> omega

theorem readText_cons (s : String) (c : Char) (cs : List Char) (hs : s.data = c :: cs) :
    readText s
      = if c = '+' then readInt false cs
        else if c = '-' then readInt true cs
        else readInt false (c :: cs) := by
  unfold readText
  rw [hs]
  by_cases h1 : c = '+'
  · subst h1; rfl
  · by_cases h2 : c = '-'
    · subst h2; rfl
    · rw [if_neg h1, if_neg h2]
      split
      · rename_i heq; exact absurd (List.cons.inj heq).1 h1
      · rename_i heq; exact absurd (List.cons.inj heq).1 h2
      · rfl

/-- The slow path of `Atoi`. -/
theorem ParseInt_value (s : String) : (ParseInt s).1 = readText s := by
  cases hs : s.data with
  | nil =>
    unfold ParseInt readText
    rw [hs]
    rfl
  | cons c cs =>
    rw [readText_cons s c cs hs]
    unfold ParseInt
    rw [hs]
    simp only []
    by_cases h1 : c = '+'
    · subst h1
      have hn : decide ('+' = '-') = false := by decide
      rw [if_pos rfl, if_pos (Or.inl rfl), hn]
      exact ParseUint_readInt false cs
    · by_cases h2 : c = '-'
      · subst h2
        rw [if_neg h1, if_pos rfl, if_pos (Or.inr rfl), decide_eq_true rfl]
        exact ParseUint_readInt true cs
      · have h3 : ¬ (c = '+' ∨ c = '-') := fun h => h.elim h1 h2
        rw [if_neg h1, if_neg h2, if_neg h3, decide_eq_false h2]
        exact ParseUint_readInt false (c :: cs)

theorem Atoi_loop_eq (cs : List Char) :
    ∀ n : Nat, Atoi.loop cs (n : Int)
      = (cs.foldl digitStep (some n)).map (fun v => (v : Int)) := by
  induction cs with
  | nil => intro n; rfl
  | cons c cs ih =>
    intro n
    rw [foldl_digitStep_cons]
    unfold Atoi.loop
    by_cases hd : 48 ≤ c.toNat ∧ c.toNat ≤ 57
    · rw [if_pos hd, if_pos hd, ← ih]
      push_cast
      rfl
    · rw [if_neg hd, if_neg hd]
      rfl

theorem length_le_utf8ByteSize_go (cs : List Char) :
    cs.length ≤ String.utf8ByteSize.go cs := by
  induction cs with
  | nil => exact Nat.le_refl _
  | cons c cs ih =>
    have := Char.utf8Size_pos c
    simp only [String.utf8ByteSize.go, List.length_cons]
    omega

theorem length_le_utf8ByteSize (s : String) : s.data.length ≤ s.utf8ByteSize :=
  length_le_utf8ByteSize_go s.data

/-- A text of at most 18 characters: its digits cannot overflow. -/
theorem readInt_short (neg : Bool) (ds : List Char) (hlen : ds.length ≤ 18) :
    readInt neg ds
      = match digitsValue ds with
        | some v => if neg then -(v : Int) else (v : Int)
        | none => 0 := by
  unfold readInt
  cases hv : digitsValue ds with
  | some v =>
    have hne : ds ≠ [] := by
      intro h0
      rw [h0] at hv
      exact Option.noConfusion hv
    rw [digitsValue_of_ne hne] at hv
    have h1 := foldl_digitStep_lt ds 0 v hv
    have h2 : (10 : Nat) ^ ds.length ≤ 10 ^ 18 := Nat.pow_le_pow_right (by decide) hlen
    have h3 : v < 1000000000000000000 := by
      have : (10 : Nat) ^ 18 = 1000000000000000000 := by norm_num
      omega
    simp only [maxInt, minInt]
    cases neg
    · simp only [Bool.false_eq_true, if_false]
      split_ifs <;> first | rfl | omega
    · simp only [if_true]
      split_ifs <;> first | rfl | omega
  | none =>
    have ho : overflowsUint64 ds = false := by
      rw [overflowsUint64_eq, Bool.eq_false_iff]
      intro h
      obtain ⟨k, v, hf, hv2⟩ := (overflowsFrom_iff ds 0 (by decide)).mp h
      have h1 := foldl_digitStep_lt _ 0 v hf
      have hk : (ds.take k).length ≤ 18 := by
        rw [List.length_take]
        exact le_trans (Nat.min_le_right _ _) hlen
      have h2 : (10 : Nat) ^ (ds.take k).length ≤ 10 ^ 18 :=
        Nat.pow_le_pow_right (by decide) hk
      have : (10 : Nat) ^ 18 = 1000000000000000000 := by norm_num
      unfold maxUint64 at hv2
      omega
    simp only [ho]
    rfl

/-- The integer `Atoi` hands back, on both of its paths. -/
theorem Atoi_value (s : String) : (Atoi s).1 = readText s := by
  unfold Atoi
  by_cases hfast : 0 < s.utf8ByteSize ∧ s.utf8ByteSize < 19
  · rw [if_pos hfast]
    have hlen := length_le_utf8ByteSize s
    cases hs : s.data with
    | nil =>
      unfold readText
      rw [hs]
      rfl
    | cons c cs =>
      rw [hs] at hlen
      simp only [List.length_cons] at hlen
      rw [readText_cons s c cs hs]
      simp only []
      have hloop := Atoi_loop_eq
      by_cases h1 : c = '+'
      · subst h1
        have hm : ¬ ('+' = '-') := by decide
        simp only [if_true, or_true, true_and, hm, if_false]
        rw [readInt_short false cs (by omega)]
        by_cases hcs : cs = []
        · subst hcs; rfl
        · rw [if_neg hcs, digitsValue_of_ne hcs]
          have := hloop cs 0
          simp only [Nat.cast_zero] at this
          rw [this]
          cases cs.foldl digitStep (some 0) <;> rfl
      · by_cases h2 : c = '-'
        · subst h2
          simp only [if_true, true_or, true_and, h1, if_false]
          rw [readInt_short true cs (by omega)]
          by_cases hcs : cs = []
          · subst hcs; rfl
          · rw [if_neg hcs, digitsValue_of_ne hcs]
            have := hloop cs 0
            simp only [Nat.cast_zero] at this
            rw [this]
            cases cs.foldl digitStep (some 0) <;> rfl
        · simp only [h1, h2, or_self, false_and, if_false]
          rw [readInt_short false (c :: cs) (by simp only [List.length_cons]; omega)]
          rw [digitsValue_of_ne (List.cons_ne_nil c cs)]
          have := hloop (c :: cs) 0
          simp only [Nat.cast_zero] at this
          rw [this]
          cases (c :: cs).foldl digitStep (some 0) <;> rfl
  · rw [if_neg hfast]
    exact ParseInt_value s

theorem parseDecimal_cons (s : String) (c : Char) (cs : List Char) (hs : s.data = c :: cs) :
    parseDecimal s
      = if c = '+' then (digitsValue cs).map (fun n => (n : Int))
        else if c = '-' then (digitsValue cs).map (fun n => -(n : Int))
        else (digitsValue (c :: cs)).map (fun n => (n : Int)) := by
  unfold parseDecimal
  rw [hs]
  by_cases h1 : c = '+'
  · subst h1; rfl
  · by_cases h2 : c = '-'
    · subst h2; rfl
    · rw [if_neg h1, if_neg h2]
      split
      · rename_i heq; exact absurd (List.cons.inj heq).1 h1
      · rename_i heq; exact absurd (List.cons.inj heq).1 h2
      · rfl

theorem overflowsUp_cons (s : String) (c : Char) (cs : List Char) (hs : s.data = c :: cs) :
    overflowsUp s
      = if c = '+' then overflowsUint64 cs
        else if c = '-' then false
        else overflowsUint64 (c :: cs) := by
  unfold overflowsUp
  rw [hs]
  by_cases h1 : c = '+'
  · subst h1; rfl
  · by_cases h2 : c = '-'
    · subst h2; rfl
    · rw [if_neg h1, if_neg h2]
      split
      · rename_i heq; exact absurd (List.cons.inj heq).1 h2
      · rename_i heq; exact absurd (List.cons.inj heq).1 h1
      · rfl

theorem readInt_decimal (neg : Bool) (ds : List Char) (v : Nat) (h : digitsValue ds = some v) :
    readInt neg ds
      = if neg then (if (v : Int) > 9223372036854775808 then minInt else -(v : Int))
        else (if (v : Int) > maxInt then maxInt else (v : Int)) := by
  unfold readInt
  rw [h]

theorem readInt_other (neg : Bool) (ds : List Char) (h : digitsValue ds = none) :
    readInt neg ds = if overflowsUint64 ds then (if neg then minInt else maxInt) else 0 := by
  unfold readInt
  rw [h]

/-- The integer of a text that is a base-10 integer: that integer, held to the
range of `int`. -/
theorem readText_decimal (s : String) (v : Int) (h : parseDecimal s = some v) :
    readText s = if v > maxInt then maxInt else if v < minInt then minInt else v := by
  cases hs : s.data with
  | nil =>
    unfold parseDecimal at h
    rw [hs] at h
    exact Option.noConfusion h
  | cons c cs =>
    rw [parseDecimal_cons s c cs hs] at h
    rw [readText_cons s c cs hs]
    by_cases h1 : c = '+'
    · rw [if_pos h1] at h
      rw [if_pos h1]
      cases hd : digitsValue cs with
      | none => rw [hd] at h; exact Option.noConfusion h
      | some n =>
        rw [hd] at h
        have hv : v = (n : Int) := (Option.some.inj h).symm
        rw [readInt_decimal false cs n hd, hv]
        simp only [Bool.false_eq_true, if_false, maxInt, minInt]
        split_ifs <;> first | rfl | omega
    · rw [if_neg h1] at h
      rw [if_neg h1]
      by_cases h2 : c = '-'
      · rw [if_pos h2] at h
        rw [if_pos h2]
        cases hd : digitsValue cs with
        | none => rw [hd] at h; exact Option.noConfusion h
        | some n =>
          rw [hd] at h
          have hv : v = -(n : Int) := (Option.some.inj h).symm
          rw [readInt_decimal true cs n hd, hv]
          simp only [if_true, maxInt, minInt]
          split_ifs <;> first | rfl | omega
      · rw [if_neg h2] at h
        rw [if_neg h2]
        cases hd : digitsValue (c :: cs) with
        | none => rw [hd] at h; exact Option.noConfusion h
        | some n =>
          rw [hd] at h
          have hv : v = (n : Int) := (Option.some.inj h).symm
          rw [readInt_decimal false (c :: cs) n hd, hv]
          simp only [Bool.false_eq_true, if_false, maxInt, minInt]
          split_ifs <;> first | rfl | omega

/-- The integer of a text that is no base-10 integer: the largest `int` when
its digits overflow before its first bad character, and else 0 or, with a
minus sign and such digits, the smallest `int`. -/
theorem readText_other (s : String) (h : parseDecimal s = none) :
    (overflowsUp s = true → readText s = maxInt)
      ∧ (overflowsUp s = false → readText s = 0 ∨ readText s = minInt) := by
  cases hs : s.data with
  | nil =>
    have h1 : overflowsUp s = false := by
      unfold overflowsUp
      rw [hs]
      rfl
    have h2 : readText s = 0 := by
      unfold readText
      rw [hs]
      rfl
    rw [h1, h2]
    exact ⟨fun h => Bool.noConfusion h, fun _ => Or.inl rfl⟩
  | cons c cs =>
    rw [parseDecimal_cons s c cs hs] at h
    rw [readText_cons s c cs hs, overflowsUp_cons s c cs hs]
    by_cases h1 : c = '+'
    · rw [if_pos h1] at h
      rw [if_pos h1, if_pos h1]
      have hd : digitsValue cs = none := by
        cases hd : digitsValue cs with
        | none => rfl
        | some n => rw [hd] at h; exact Option.noConfusion h
      rw [readInt_other false cs hd]
      cases overflowsUint64 cs <;> simp
    · rw [if_neg h1] at h
      rw [if_neg h1, if_neg h1]
      by_cases h2 : c = '-'
      · rw [if_pos h2] at h
        rw [if_pos h2, if_pos h2]
        have hd : digitsValue cs = none := by
          cases hd : digitsValue cs with
          | none => rfl
          | some n => rw [hd] at h; exact Option.noConfusion h
        rw [readInt_other true cs hd]
        cases overflowsUint64 cs <;> simp
      · rw [if_neg h2] at h
        rw [if_neg h2, if_neg h2]
        have hd : digitsValue (c :: cs) = none := by
          cases hd : digitsValue (c :: cs) with
          | none => rfl
          | some n => rw [hd] at h; exact Option.noConfusion h
        rw [readInt_other false (c :: cs) hd]
        cases overflowsUint64 (c :: cs) <;> simp

/-- A clamp of a query text to [1, hi] with a default, read off the integer
the text denotes: a text that is no integer in the range gives the default. -/
theorem limit_of_text (s : String) (hi d : Int) (h2 : hi < maxInt) :
    (if (Atoi s).1 < 1 ∨ (Atoi s).1 > hi then d else (Atoi s).1)
      = (match parseDecimal s with
        | some v => if 1 ≤ v ∧ v ≤ hi then v else d
        | none => d) := by
  rw [Atoi_value]
  unfold maxInt at h2
  cases h : parseDecimal s with
  | some v =>
    rw [readText_decimal s v h]
    simp only [maxInt, minInt]
    split_ifs <;> first | rfl | omega
  | none =>
    simp only []
    obtain ⟨hup, hlow⟩ := readText_other s h
    have hc : readText s < 1 ∨ readText s > hi := by
      cases ho : overflowsUp s with
      | true =>
        rw [hup ho]
        unfold maxInt
        omega
      | false =>
        rcases hlow ho with h0 | h0
        · rw [h0]
          omega
        · rw [h0]
          unfold minInt
          omega
    rw [if_pos hc]

/-- The clamp of a page text from below, read off the integer the text
denotes: an integer below 1 gives 1, one above the largest `int` gives that
`int`, and a text that is no integer gives 1, unless its digits overflow
before its first bad character, which gives the largest `int`. -/
theorem page_of_text (s : String) :
    (if (Atoi s).1 < 1 then 1 else (Atoi s).1)
      = (match parseDecimal s with
        | some v => if v < 1 then 1 else if v ≤ maxInt then v else maxInt
        | none => if overflowsUp s = true then maxInt else 1) := by
  rw [Atoi_value]
  cases h : parseDecimal s with
  | some v =>
    rw [readText_decimal s v h]
    simp only [maxInt, minInt]
    split_ifs <;> first | rfl | omega
  | none =>
    simp only []
    obtain ⟨hup, hlow⟩ := readText_other s h
    cases ho : overflowsUp s with
    | true =>
      have hc : ¬ readText s < 1 := by
        rw [hup ho]
        unfold maxInt
        omega
      rw [if_neg hc, if_pos rfl, hup ho]
    | false =>
      have hc : readText s < 1 := by
        rcases hlow ho with h0 | h0
        · rw [h0]
          omega
        · rw [h0]
          unfold minInt
          omega
      rw [if_pos hc, if_neg (by decide)]

/-! ## ListCases: C11 to C13 -/

theorem wrapInt_of_range (x : Int) (h0 : 0 ≤ x) (h1 : x ≤ maxInt) : wrapInt x = x := by
  unfold maxInt at h1
  unfold wrapInt
  omega

theorem Atoi_default_page : Atoi "1" = (1, true) := by decide

theorem Atoi_default_limit : Atoi "100" = (100, true) := by decide

theorem ListCases_page_ge (qPage : Option String) : 1 ≤ ListCases.page qPage := by
  unfold ListCases.page
  simp only []
  split_ifs <;> omega

theorem ListCases_limit_range (qLimit : Option String) :
    1 ≤ ListCases.limit qLimit ∧ ListCases.limit qLimit ≤ 500 := by
  unfold ListCases.limit
  simp only []
  split_ifs <;> omega

/-- The clamp of `limit`, read off the integer the query text denotes. -/
theorem ListCases_limit_eq (qLimit : Option String) :
    ListCases.limit qLimit
      = (match qLimit with
        | none => 100
        | some s =>
          match parseDecimal s with
          | some v => if 1 ≤ v ∧ v ≤ 500 then v else 100
          | none => 100) := by
  cases qLimit with
  | none =>
    have h : Atoi "100" = (100, true) := by decide
    simp [ListCases.limit, DefaultQuery, h]
  | some s =>
    simp only [ListCases.limit, DefaultQuery, Option.getD_some]
    exact limit_of_text s 500 100 (by decide)

/-- The clamp of `page`, read off the integer the query text denotes. -/
theorem ListCases_page_eq (qPage : Option String) :
    ListCases.page qPage
      = (match qPage with
        | none => 1
        | some s =>
          match parseDecimal s with
          | some v => if v < 1 then 1 else if v ≤ maxInt then v else maxInt
          | none => if overflowsUp s = true then maxInt else 1) := by
  cases qPage with
  | none => simp [ListCases.page, DefaultQuery, Atoi_default_page]
  | some s =>
    simp only [ListCases.page, DefaultQuery, Option.getD_some]
    exact page_of_text s

/-- The round trips of `ListCases`: none for a caller it turns away, else the
one case query, with the owner filter and its argument unless the caller is an
administrator, then the limit and the offset. -/
theorem ListCases_calls (db : Store) (faults : Nat → Option String) (hdrUserId hdrRole : String)
    (qPage qLimit : Option String) :
    (ListCases db faults hdrUserId hdrRole qPage qLimit).calls.map Event.call
      = if TrimSpace hdrUserId = ""
            ∨ (ToUpper (TrimSpace hdrRole) ≠ "ADMIN" ∧ ToUpper (TrimSpace hdrRole) ≠ "USER") then []
        else if ToUpper (TrimSpace hdrRole) = "ADMIN" then
          [Call.exec (ListCases.baseSQL ++ "" ++ ListCases.orderLimit)
            [Any.num (ListCases.limit qLimit), Any.num (ListCases.offset qPage qLimit)]]
        else
          [Call.exec (ListCases.baseSQL ++ "WHERE c.\"userId\" = ?" ++ ListCases.orderLimit)
            [Any.str (TrimSpace hdrUserId), Any.num (ListCases.limit qLimit),
             Any.num (ListCases.offset qPage qLimit)]] := by
  unfold ListCases
  by_cases hun : TrimSpace hdrUserId = ""
      ∨ (ToUpper (TrimSpace hdrRole) ≠ "ADMIN" ∧ ToUpper (TrimSpace hdrRole) ≠ "USER")
  · simp only [if_pos hun]; rfl
  · simp only [if_neg hun]
    by_cases had : ToUpper (TrimSpace hdrRole) = "ADMIN"
    · simp only [had, decide_True, Bool.not_true]
      split <;> simp
    · simp only [had, decide_False, Bool.not_false]
      split <;> simp

/-- The status of `ListCases`: 401 exactly for a caller it turns away. -/
theorem ListCases_status (db : Store) (faults : Nat → Option String) (hdrUserId hdrRole : String)
    (qPage qLimit : Option String) :
    (ListCases db faults hdrUserId hdrRole qPage qLimit).resp.status = 401
      ↔ (TrimSpace hdrUserId = ""
          ∨ (ToUpper (TrimSpace hdrRole) ≠ "ADMIN" ∧ ToUpper (TrimSpace hdrRole) ≠ "USER")) := by
  unfold ListCases
  by_cases hun : TrimSpace hdrUserId = ""
      ∨ (ToUpper (TrimSpace hdrRole) ≠ "ADMIN" ∧ ToUpper (TrimSpace hdrRole) ≠ "USER")
  · simp only [if_pos hun]
    exact ⟨fun _ => hun, fun _ => rfl⟩
  · simp only [if_neg hun]
    constructor
    · intro h
      exfalso
      revert h
      split <;> simp [StatusOK, StatusInternalServerError]
    · intro h
      exact absurd h hun

/-- C11 as stated fails for a requested page above the largest Go `int`: the
query text 9223372036854775808 denotes an integer that is at least 1, yet
`strconv.Atoi` hands back the largest `int` (its range error is discarded),
so the effective page is 9223372036854775807 and, with limit 1, the OFFSET
argument is 9223372036854775806 where the claim has 9223372036854775807. -/
theorem listCases_page_saturates :
    parseDecimal "9223372036854775808" = some 9223372036854775808
      ∧ ListCases.page (some "9223372036854775808") = 9223372036854775807
      ∧ (ListCases surveyStore (fun _ => none) "u2" "ADMIN" (some "9223372036854775808")
            (some "1")).calls.map Event.call
          = [Call.exec (ListCases.baseSQL ++ "" ++ ListCases.orderLimit)
              [Any.num 1, Any.num 9223372036854775806]] := by
  refine ⟨by decide, by decide, ?_⟩
  rw [ListCases_calls]
  have h1 : ¬ (TrimSpace "u2" = ""
      ∨ (ToUpper (TrimSpace "ADMIN") ≠ "ADMIN" ∧ ToUpper (TrimSpace "ADMIN") ≠ "USER")) := by
    decide
  have h2 : ToUpper (TrimSpace "ADMIN") = "ADMIN" := by decide
  have h3 : ListCases.limit (some "1") = 1 := by decide
  have h4 : ListCases.offset (some "9223372036854775808") (some "1") = 9223372036854775806 := by
    decide
  rw [if_neg h1, if_pos h2, h3, h4]

/-- C11 (amended): in `ListCases` the effective limit is the requested limit
when it is an integer in [1,500] and 100 otherwise (absent, non-numeric, below
1 or above 500; limit=501 gives 100); the effective page is the requested page
when it is an integer from 1 to the largest Go `int`; it is that largest `int`
when the requested page is a larger integer, or a text that is no integer but
whose digits, after an optional plus sign, exceed 2^64-1 before its first
character that is no digit (page=99999999999999999999x); and it is 1 otherwise
(page=0, page=12x and page=18446744073709551615x give 1); the last two
arguments of the query are the effective limit and (page-1)*limit as a Go
`int`, which is the exact product whenever that product fits an `int`. -/
theorem listCases_pagination (db : Store) (faults : Nat → Option String)
    (hdrUserId hdrRole : String) (qPage qLimit : Option String) :
    ListCases.limit qLimit
        = (match qLimit with
          | none => 100
          | some s =>
            match parseDecimal s with
            | some v => if 1 ≤ v ∧ v ≤ 500 then v else 100
            | none => 100)
      ∧ ListCases.page qPage
        = (match qPage with
          | none => 1
          | some s =>
            match parseDecimal s with
            | some v => if v < 1 then 1 else if v ≤ maxInt then v else maxInt
            | none => if overflowsUp s = true then maxInt else 1)
      ∧ ListCases.limit (some "501") = 100
      ∧ ListCases.page (some "0") = 1
      ∧ ListCases.page (some "99999999999999999999x") = 9223372036854775807
      ∧ ListCases.page (some "12x") = 1
      ∧ ListCases.page (some "18446744073709551615x") = 1
      ∧ ((ListCases db faults hdrUserId hdrRole qPage qLimit).resp.status ≠ 401 →
          ∃ sql owner,
            (ListCases db faults hdrUserId hdrRole qPage qLimit).calls.map Event.call
              = [Call.exec sql
                  (owner ++ [Any.num (ListCases.limit qLimit),
                    Any.num (wrapInt ((ListCases.page qPage - 1) * ListCases.limit qLimit))])])
      ∧ ((ListCases.page qPage - 1) * ListCases.limit qLimit ≤ maxInt →
          wrapInt ((ListCases.page qPage - 1) * ListCases.limit qLimit)
            = (ListCases.page qPage - 1) * ListCases.limit qLimit) := by
  refine ⟨ListCases_limit_eq qLimit, ListCases_page_eq qPage, by decide, by decide, by decide,
    by decide, by decide, ?_, ?_⟩
  · intro hst
    have hun := mt (ListCases_status db faults hdrUserId hdrRole qPage qLimit).mpr hst
    rw [ListCases_calls, if_neg hun]
    by_cases had : ToUpper (TrimSpace hdrRole) = "ADMIN"
    · rw [if_pos had]
      exact ⟨_, [], rfl⟩
    · rw [if_neg had]
      exact ⟨_, [Any.str (TrimSpace hdrUserId)], rfl⟩
  · intro hle
    apply wrapInt_of_range _ _ hle
    have h1 := ListCases_page_ge qPage
    have h2 := (ListCases_limit_range qLimit).1
    exact Int.mul_nonneg (by omega) (by omega)

/-- C12: `ListCases` answers 401 "Unauthorized", without a round trip to the
store, if and only if the caller-identity header is absent or blank after
trimming, or the role header, trimmed and upper-cased, is neither ADMIN nor
USER; every other request makes the one case query. -/
theorem listCases_unauthorized_iff (db : Store) (faults : Nat → Option String)
    (hdrUserId hdrRole : String) (qPage qLimit : Option String) :
    ((ListCases db faults hdrUserId hdrRole qPage qLimit).resp.status = 401
        ↔ (TrimSpace hdrUserId = ""
            ∨ (ToUpper (TrimSpace hdrRole) ≠ "ADMIN" ∧ ToUpper (TrimSpace hdrRole) ≠ "USER")))
      ∧ ((ListCases db faults hdrUserId hdrRole qPage qLimit).resp.status = 401 →
          (ListCases db faults hdrUserId hdrRole qPage qLimit).resp
              = ⟨401, .error "Unauthorized"⟩
            ∧ (ListCases db faults hdrUserId hdrRole qPage qLimit).calls = [])
      ∧ ((ListCases db faults hdrUserId hdrRole qPage qLimit).resp.status ≠ 401 →
          (ListCases db faults hdrUserId hdrRole qPage qLimit).calls.length = 1)
      ∧ (ListCases db faults "" hdrRole qPage qLimit).resp.status = 401
      ∧ (ListCases db faults hdrUserId "" qPage qLimit).resp.status = 401 := by
  refine ⟨ListCases_status db faults hdrUserId hdrRole qPage qLimit, ?_, ?_, ?_, ?_⟩
  · intro hst
    have hun := (ListCases_status db faults hdrUserId hdrRole qPage qLimit).mp hst
    unfold ListCases
    simp only [if_pos hun]
    exact ⟨rfl, trivial⟩
  · intro hst
    have hun := mt (ListCases_status db faults hdrUserId hdrRole qPage qLimit).mpr hst
    have hlen := congrArg List.length (ListCases_calls db faults hdrUserId hdrRole qPage qLimit)
    rw [List.length_map, if_neg hun] at hlen
    rw [hlen]
    split <;> rfl
  · rw [ListCases_status]
    left
    decide
  · rw [ListCases_status]
    right
    decide

theorem mem_orderByTimeDesc (col : String) (rows : List Row) (r : Row) :
    r ∈ orderByTimeDesc col rows ↔ r ∈ rows :=
  (List.perm_insertionSort _ rows).mem_iff

/-- With an owner filter the case query returns joined rows of that owner
only. -/
theorem selectCases_owner {db : Store} {v : Any} {limit offset : Int} {rows : List Row}
    (h : selectCases db (some v) limit offset = .ok rows) :
    ∃ joined, joinCaseUser db = .ok joined
      ∧ ∀ r ∈ rows, r ∈ joined ∧ sqlEq (colValue r "userId") v = true := by
  unfold selectCases at h
  cases hj : joinCaseUser db with
  | error e => simp [hj] at h
  | ok joined =>
    simp only [hj] at h
    by_cases hl : limit < 0
    · simp [hl] at h
    · by_cases ho : offset < 0
      · simp [hl, ho] at h
      · simp only [hl, ho, if_false] at h
        have hrows := (Except.ok.inj h).symm
        refine ⟨joined, rfl, ?_⟩
        intro r hr
        rw [hrows] at hr
        have h1 := List.mem_of_mem_drop (List.mem_of_mem_take hr)
        rw [mem_orderByTimeDesc] at h1
        exact ⟨(List.mem_filter.mp h1).1, (List.mem_filter.mp h1).2⟩

set_option maxRecDepth 100000 in
theorem ListCases_sql_placeholders :
    placeholders ListCases.baseSQL = 0 ∧ placeholders ListCases.orderLimit = 2
      ∧ ¬ ("WHERE".data <:+: (ListCases.baseSQL ++ "" ++ ListCases.orderLimit).data) := by
  refine ⟨by decide, by decide, by decide⟩

/-- C13: in `ListCases` a caller whose role is not ADMIN gets the case query
with the filter on the userId of the case, bound as an argument to the
caller's identity (the trimmed value of the identity header), and every case
returned is a joined row whose userId is that identity; an ADMIN caller gets
the query without a WHERE clause and without an owner argument; either way
the text has as many placeholders as there are arguments. -/
theorem listCases_owner_filter (db : Store) (faults : Nat → Option String)
    (hdrUserId hdrRole : String) (qPage qLimit : Option String)
    (hauth : (ListCases db faults hdrUserId hdrRole qPage qLimit).resp.status ≠ 401) :
    (ToUpper (TrimSpace hdrRole) ≠ "ADMIN" →
        (ListCases db faults hdrUserId hdrRole qPage qLimit).calls.map Event.call
            = [Call.exec (ListCases.baseSQL ++ "WHERE c.\"userId\" = ?" ++ ListCases.orderLimit)
                [Any.str (TrimSpace hdrUserId), Any.num (ListCases.limit qLimit),
                 Any.num (ListCases.offset qPage qLimit)]]
          ∧ ∀ items, (ListCases db faults hdrUserId hdrRole qPage qLimit).resp.body = .json items →
              ∃ joined, joinCaseUser db = .ok joined
                ∧ ∀ it ∈ items, ∃ row ∈ joined, it = caseItem row
                    ∧ colValue row "userId" = Any.str (TrimSpace hdrUserId))
      ∧ (ToUpper (TrimSpace hdrRole) = "ADMIN" →
          (ListCases db faults hdrUserId hdrRole qPage qLimit).calls.map Event.call
            = [Call.exec (ListCases.baseSQL ++ "" ++ ListCases.orderLimit)
                [Any.num (ListCases.limit qLimit), Any.num (ListCases.offset qPage qLimit)]])
      ∧ ¬ ("WHERE".data <:+: (ListCases.baseSQL ++ "" ++ ListCases.orderLimit).data)
      ∧ (∀ sql args,
          Call.exec sql args ∈ (ListCases db faults hdrUserId hdrRole qPage qLimit).calls.map
              Event.call →
            placeholders sql = args.length) := by
  have hun := mt (ListCases_status db faults hdrUserId hdrRole qPage qLimit).mpr hauth
  have hp := ListCases_sql_placeholders
  have hw : placeholders "WHERE c.\"userId\" = ?" = 1 := by decide
  have he : placeholders "" = 0 := by decide
  refine ⟨?_, ?_, hp.2.2, ?_⟩
  · intro had
    refine ⟨by rw [ListCases_calls, if_neg hun, if_neg had], ?_⟩
    intro items hbody
    unfold ListCases at hbody
    simp only [if_neg hun, had, decide_False, Bool.not_false, if_true] at hbody
    cases hf : faults 0 with
    | some e => simp [hf] at hbody
    | none =>
      simp only [hf] at hbody
      cases hq : selectCases db (some (Any.str (TrimSpace hdrUserId))) (ListCases.limit qLimit)
          (ListCases.offset qPage qLimit) with
      | error e => simp [hq] at hbody
      | ok rows =>
        simp only [hq] at hbody
        have hitems : items = rows.map caseItem := (Body.json.inj hbody).symm
        obtain ⟨joined, hj, hrows⟩ := selectCases_owner hq
        refine ⟨joined, hj, ?_⟩
        intro it hit
        rw [hitems] at hit
        obtain ⟨row, hrow, rfl⟩ := List.mem_map.mp hit
        exact ⟨row, (hrows row hrow).1, rfl, (sqlEq_str _ _).mp (hrows row hrow).2⟩
  · intro had
    rw [ListCases_calls, if_neg hun, if_pos had]
  · intro sql args hmem
    rw [ListCases_calls, if_neg hun] at hmem
    by_cases had : ToUpper (TrimSpace hdrRole) = "ADMIN"
    · rw [if_pos had] at hmem
      simp only [List.mem_singleton, Call.exec.injEq] at hmem
      obtain ⟨rfl, rfl⟩ := hmem
      simp [placeholders_append, hp.1, hp.2.1, he]
    · rw [if_neg had] at hmem
      simp only [List.mem_singleton, Call.exec.injEq] at hmem
      obtain ⟨rfl, rfl⟩ := hmem
      simp [placeholders_append, hp.1, hp.2.1, hw]

theorem listCases_owner_filter_witness :
    (ListCases surveyStore (fun _ => none) " u1 " "user" none (some "10")).resp.status ≠ 401
      ∧ (ToUpper (TrimSpace "user") ≠ "ADMIN" →
          (ListCases surveyStore (fun _ => none) " u1 " "user" none (some "10")).calls.map
              Event.call
              = [Call.exec
                  (ListCases.baseSQL ++ "WHERE c.\"userId\" = ?" ++ ListCases.orderLimit)
                  [Any.str (TrimSpace " u1 "), Any.num (ListCases.limit (some "10")),
                   Any.num (ListCases.offset none (some "10"))]]
            ∧ ∀ items,
                (ListCases surveyStore (fun _ => none) " u1 " "user" none (some "10")).resp.body
                    = .json items →
                ∃ joined, joinCaseUser surveyStore = .ok joined
                  ∧ ∀ it ∈ items, ∃ row ∈ joined, it = caseItem row
                      ∧ colValue row "userId" = Any.str (TrimSpace " u1 ")) :=
  ⟨by decide,
    (listCases_owner_filter surveyStore (fun _ => none) " u1 " "user" none (some "10")
      (by decide)).1⟩

/-! ## GetCase: C14 -/

/-- C14 as stated fails for the case-header query: with the first round trip
failing, `GetCase` of an existing case answers 404 "not found", not 500. -/
theorem getCase_header_failure_is_404 :
    (GetCase surveyStore (fun _ => none) "case1").resp.status = 200
      ∧ (GetCase surveyStore (failAt 0 "connection refused") "case1").resp
          = ⟨404, .error "not found"⟩
      ∧ (GetCase surveyStore (failAt 0 "connection refused") "case1").calls.map Event.err
          = [some "connection refused"] := by
  refine ⟨by decide, by decide, by decide⟩

/-- C14 (amended): in `GetCase` a store failure of the documents query or of
the photos query aborts the read with status 500, and a store failure of the
case-header query aborts it with status 404 "not found"; on any failure the
body is the error object alone, and the full object is returned only when all
three queries succeeded. -/
theorem getCase_failure_aborts (db : Store) (faults : Nat → Option String) (id : String) :
    (failedAt (GetCase db faults id).calls 0 →
        (GetCase db faults id).resp = ⟨404, .error "not found"⟩)
      ∧ (failedAt (GetCase db faults id).calls 1 →
          (GetCase db faults id).resp = ⟨500, .error "failed to load documents"⟩)
      ∧ (failedAt (GetCase db faults id).calls 2 →
          (GetCase db faults id).resp = ⟨500, .error "failed to load photos"⟩)
      ∧ (GetCase db faults id).calls.map Event.call <+: getCaseScript id
      ∧ ((∃ ev ∈ (GetCase db faults id).calls, ev.err ≠ none) →
          ∃ msg, (GetCase db faults id).resp.body = .error msg)
      ∧ (∀ detail, (GetCase db faults id).resp.body = .json detail →
          (GetCase db faults id).resp.status = 200
            ∧ (GetCase db faults id).calls.map Event.call = getCaseScript id
            ∧ ∀ ev ∈ (GetCase db faults id).calls, ev.err = none) := by
  unfold GetCase failedAt getCaseScript
  simp only []
  split_ifs with h1
  · refine ⟨fun _ => rfl, ?_, ?_, ?_, fun _ => ⟨_, rfl⟩, ?_⟩
    · rintro ⟨ev, hev, _⟩; simp at hev
    · rintro ⟨ev, hev, _⟩; simp at hev
    · exact ⟨_, rfl⟩
    · intro d hd; simp at hd
  · have herr : (match (match faults 0 with
          | some e => Except.error e
          | none => selectCaseHead db (Any.str id)) with
        | Except.error e => some e
        | Except.ok _ => none) = none := by
      by_contra hne
      exact h1 (Or.inl hne)
    split
    · refine ⟨?_, fun _ => rfl, ?_, ?_, fun _ => ⟨_, rfl⟩, ?_⟩
      · rintro ⟨ev, hev, hne⟩
        simp only [List.get?_cons_zero, Option.some.injEq] at hev
        subst hev
        exact absurd herr hne
      · rintro ⟨ev, hev, _⟩; simp at hev
      · exact ⟨[_], rfl⟩
      · intro d hd; simp at hd
    · split
      · refine ⟨?_, ?_, fun _ => rfl, ?_, fun _ => ⟨_, rfl⟩, ?_⟩
        · rintro ⟨ev, hev, hne⟩
          simp only [List.get?_cons_zero, Option.some.injEq] at hev
          subst hev
          exact absurd herr hne
        · rintro ⟨ev, hev, hne⟩
          simp only [List.get?_cons_succ, List.get?_cons_zero, Option.some.injEq] at hev
          subst hev
          exact absurd rfl hne
        · exact ⟨[], by simp⟩
        · intro d hd; simp at hd
      · refine ⟨?_, ?_, ?_, ?_, ?_, ?_⟩
        · rintro ⟨ev, hev, hne⟩
          simp only [List.get?_cons_zero, Option.some.injEq] at hev
          subst hev
          exact absurd herr hne
        · rintro ⟨ev, hev, hne⟩
          simp only [List.get?_cons_succ, List.get?_cons_zero, Option.some.injEq] at hev
          subst hev
          exact absurd rfl hne
        · rintro ⟨ev, hev, hne⟩
          simp only [List.get?_cons_succ, List.get?_cons_zero, Option.some.injEq] at hev
          subst hev
          exact absurd rfl hne
        · exact ⟨[], by simp⟩
        · rintro ⟨ev, hev, hne⟩
          exfalso
          simp only [List.mem_cons, List.mem_singleton, List.not_mem_nil, or_false] at hev
          rcases hev with rfl | rfl | rfl
          · exact hne herr
          · exact hne rfl
          · exact hne rfl
        · intro d _
          refine ⟨rfl, by simp, ?_⟩
          intro ev hev
          simp only [List.mem_cons, List.mem_singleton, List.not_mem_nil, or_false] at hev
          rcases hev with rfl | rfl | rfl
          · exact herr
          · rfl
          · rfl

/-! ## The router: C15 -/

/-- C15 as stated fails: the specification lists POST /cases/:id/photos and
POST /cases/:id/documents, yet `NewRouter` registers no route for `AddPhoto`
or `AddDocument`, under any path; and no route is registered at a path of the
table as written, each living under the group `/api`. -/
theorem router_lacks_file_routes :
    (⟨"POST", "/cases/:id/photos", .AddPhoto⟩ ∈ specSurface
        ∧ ⟨"POST", "/cases/:id/documents", .AddDocument⟩ ∈ specSurface)
      ∧ (∀ r ∈ NewRouter, r.handler ≠ .AddPhoto ∧ r.handler ≠ .AddDocument)
      ∧ registered NewRouter "POST" "/cases/:id/photos" = none
      ∧ registered NewRouter "POST" "/api/cases/:id/photos" = none
      ∧ registered NewRouter "POST" "/cases/:id/documents" = none
      ∧ registered NewRouter "POST" "/api/cases/:id/documents" = none
      ∧ (∀ s ∈ specSurface, registered NewRouter s.method s.path = none) := by
  decide

/-- C15 (amended): every method and path of the HTTP surface table other than
POST /cases/:id/photos and POST /cases/:id/documents is registered by
`NewRouter` exactly once, at that path under the group `/api` and with that
verb, for the corresponding handler; and `NewRouter` registers nothing
else. -/
theorem router_serves_surface (s : Route) (hs : s ∈ specSurface)
    (hp : s.handler ≠ .AddPhoto) (hd : s.handler ≠ .AddDocument) :
    registered NewRouter s.method ("/api" ++ s.path) = some s.handler
      ∧ (NewRouter.filter (fun r => r.method = s.method ∧ r.path = "/api" ++ s.path)).length = 1
      ∧ (∀ r ∈ NewRouter, ∃ t ∈ specSurface, r = ⟨t.method, "/api" ++ t.path, t.handler⟩) := by
  refine ⟨?_, ?_, by decide⟩
  · simp only [specSurface, List.mem_cons, List.mem_singleton, List.not_mem_nil, or_false] at hs
    rcases hs with rfl | rfl | rfl | rfl | rfl | rfl | rfl | rfl | rfl | rfl | rfl | rfl | rfl
      | rfl | rfl | rfl | rfl
    all_goals first | decide | exact absurd rfl hp | exact absurd rfl hd
  · simp only [specSurface, List.mem_cons, List.mem_singleton, List.not_mem_nil, or_false] at hs
    rcases hs with rfl | rfl | rfl | rfl | rfl | rfl | rfl | rfl | rfl | rfl | rfl | rfl | rfl
      | rfl | rfl | rfl | rfl
    all_goals first | decide | exact absurd rfl hp | exact absurd rfl hd

theorem router_serves_surface_witness :
    (⟨"DELETE", "/rooms/:roomId", .DeleteRoom⟩ : Route) ∈ specSurface
      ∧ registered NewRouter "DELETE" ("/api" ++ "/rooms/:roomId") = some .DeleteRoom
      ∧ (NewRouter.filter
            (fun r => r.method = "DELETE" ∧ r.path = "/api" ++ "/rooms/:roomId")).length = 1
      ∧ (∀ r ∈ NewRouter, ∃ t ∈ specSurface, r = ⟨t.method, "/api" ++ t.path, t.handler⟩) :=
  ⟨by decide,
    router_serves_surface ⟨"DELETE", "/rooms/:roomId", .DeleteRoom⟩ (by decide) (by decide)
      (by decide)⟩

/-! ## Product rows that do not exist: C16 -/

/-- C16 as stated fails: no row of `declaredStore` has the id `nope`, yet the
two delete handlers answer 204 and the two update handlers answer 200 for
it. -/
theorem missing_row_is_not_404 :
    rowsWhere declaredStore "OnSiteExistingProduct" "id" "nope" = []
      ∧ rowsWhere declaredStore "OnSiteSuggestedProduct" "id" "nope" = []
      ∧ (DeleteExistingProduct declaredStore (fun _ => none) "nope").resp = ⟨204, .none⟩
      ∧ (DeleteSuggestedProduct declaredStore (fun _ => none) "nope").resp = ⟨204, .none⟩
      ∧ (UpdateExistingProduct (fun _ => none) "nope" (.ok [("quantity", .num 3)])).resp
          = ⟨200, .none⟩
      ∧ (UpdateSuggestedProduct (fun _ => none) "nope" (.ok [("quantity", .num 3)])).resp
          = ⟨200, .none⟩ := by
  decide

theorem patchCore_status (stmtHead : String) (allowed : List (String × Bool))
    (faults : Nat → Option String) (id : String) (bind : Except String Patch) :
    (patchCore stmtHead allowed faults id bind).resp.status = 200
      ∨ (patchCore stmtHead allowed faults id bind).resp.status = 400
      ∨ (patchCore stmtHead allowed faults id bind).resp.status = 500 := by
  cases bind with
  | error e => right; left; rfl
  | ok p =>
    by_cases h : recognized allowed p = []
    · rw [patchCore_none _ _ _ _ _ h]; right; left; rfl
    · rw [patchCore_some _ _ _ _ _ h]
      cases faults 0 with
      | none => left; rfl
      | some e => right; right; rfl

theorem DeleteExistingProduct_eq (db : Store) (faults : Nat → Option String) (id : String) :
    (DeleteExistingProduct db faults id).resp
        = (match txDelete (faults 0) db "OnSiteExistingProduct" "id" (.str id) with
          | .error _ => ⟨500, .error "delete failed"⟩
          | .ok _ => ⟨204, .none⟩)
      ∧ (DeleteExistingProduct db faults id).db
        = (match txDelete (faults 0) db "OnSiteExistingProduct" "id" (.str id) with
          | .error _ => db
          | .ok db2 => db2) := by
  unfold DeleteExistingProduct txDelete
  cases faults 0 with
  | some e => exact ⟨rfl, rfl⟩
  | none =>
    simp only []
    cases deleteWhere db "OnSiteExistingProduct" "id" (.str id) <;> exact ⟨rfl, rfl⟩

theorem DeleteSuggestedProduct_eq (db : Store) (faults : Nat → Option String) (id : String) :
    (DeleteSuggestedProduct db faults id).resp
        = (match txDelete (faults 0) db "OnSiteSuggestedProduct" "id" (.str id) with
          | .error _ => ⟨500, .error "delete failed"⟩
          | .ok _ => ⟨204, .none⟩)
      ∧ (DeleteSuggestedProduct db faults id).db
        = (match txDelete (faults 0) db "OnSiteSuggestedProduct" "id" (.str id) with
          | .error _ => db
          | .ok db2 => db2) := by
  unfold DeleteSuggestedProduct txDelete
  cases faults 0 with
  | some e => exact ⟨rfl, rfl⟩
  | none =>
    simp only []
    cases deleteWhere db "OnSiteSuggestedProduct" "id" (.str id) <;> exact ⟨rfl, rfl⟩

/-- C16 (amended): the existing-fixture and suggested-fixture update and
delete handlers never answer 404: an update answers 200, 400 or 500 and a
delete answers 204 or 500; when no row has the given identity (the relation
being there and the store not failing) a delete answers 204 and leaves the
store as it was. -/
theorem product_handlers_never_404 (db : Store) (faults : Nat → Option String) (id : String)
    (bind : Except String Patch) :
    ((UpdateExistingProduct faults id bind).resp.status = 200
        ∨ (UpdateExistingProduct faults id bind).resp.status = 400
        ∨ (UpdateExistingProduct faults id bind).resp.status = 500)
      ∧ ((UpdateSuggestedProduct faults id bind).resp.status = 200
          ∨ (UpdateSuggestedProduct faults id bind).resp.status = 400
          ∨ (UpdateSuggestedProduct faults id bind).resp.status = 500)
      ∧ ((DeleteExistingProduct db faults id).resp.status = 204
          ∨ (DeleteExistingProduct db faults id).resp.status = 500)
      ∧ ((DeleteSuggestedProduct db faults id).resp.status = 204
          ∨ (DeleteSuggestedProduct db faults id).resp.status = 500)
      ∧ (faults 0 = none → Stable db "OnSiteExistingProduct" "id" (.str id) →
          (DeleteExistingProduct db faults id).resp = ⟨204, .none⟩
            ∧ (DeleteExistingProduct db faults id).db = db)
      ∧ (faults 0 = none → Stable db "OnSiteSuggestedProduct" "id" (.str id) →
          (DeleteSuggestedProduct db faults id).resp = ⟨204, .none⟩
            ∧ (DeleteSuggestedProduct db faults id).db = db) := by
  refine ⟨?_, ?_, ?_, ?_, ?_, ?_⟩
  · rw [UpdateExistingProduct_core]; exact patchCore_status _ _ _ _ _
  · rw [UpdateSuggestedProduct_core]; exact patchCore_status _ _ _ _ _
  · rw [(DeleteExistingProduct_eq db faults id).1]
    cases txDelete (faults 0) db "OnSiteExistingProduct" "id" (.str id)
    · right; rfl
    · left; rfl
  · rw [(DeleteSuggestedProduct_eq db faults id).1]
    cases txDelete (faults 0) db "OnSiteSuggestedProduct" "id" (.str id)
    · right; rfl
    · left; rfl
  · intro hf hs
    rw [(DeleteExistingProduct_eq db faults id).1, (DeleteExistingProduct_eq db faults id).2, hf]
    simp [txDelete, deleteWhere_stable hs]
  · intro hf hs
    rw [(DeleteSuggestedProduct_eq db faults id).1, (DeleteSuggestedProduct_eq db faults id).2, hf]
    simp [txDelete, deleteWhere_stable hs]

/-! ## Photos and documents: C17 -/

theorem ShouldBindJSON_AddFileReq (req : AddFileReq) :
    (req.URL = "" → ∃ msg, ShouldBindJSON "AddFileReq" AddFileReq.missing (.ok req) = .error msg)
      ∧ (req.URL ≠ "" → ShouldBindJSON "AddFileReq" AddFileReq.missing (.ok req) = .ok req) := by
  constructor
  · intro h
    exact ⟨"\n".intercalate [requiredError "AddFileReq" "URL"],
      by simp [ShouldBindJSON, AddFileReq.missing, h]⟩
  · intro h
    simp [ShouldBindJSON, AddFileReq.missing, h]

theorem uploadedVia_iff (req : AddFileReq) :
    uploadedVia req = true ↔ req.UploadedVia = some true := by
  unfold uploadedVia
  cases req.UploadedVia with
  | none => simp
  | some b => simp

/-- C17: `AddPhoto` and `AddDocument` answer 400 and make no round trip to the
store when the payload is malformed, when url is absent or empty (both decode
to the empty string) or, for documents, when fileName is absent; otherwise,
when the create succeeds, they answer 201 with the created item, whose caseId
is the case id of the path, whose url is the url of the request and whose
uploadedViaLink is true exactly when the request carried uploadedViaLink =
true. -/
theorem addFile_validation (faults : Nat → Option String) (newID : String) (now : Int)
    (caseID : String) (req : AddFileReq) (e : String) :
    AddPhoto faults newID now caseID (.error e) = ⟨⟨400, .error e⟩, []⟩
      ∧ AddDocument faults newID now caseID (.error e) = ⟨⟨400, .error e⟩, []⟩
      ∧ (req.URL = "" →
          (∃ msg, AddPhoto faults newID now caseID (.ok req) = ⟨⟨400, .error msg⟩, []⟩)
            ∧ ∃ msg, AddDocument faults newID now caseID (.ok req) = ⟨⟨400, .error msg⟩, []⟩)
      ∧ (req.URL ≠ "" → req.FileName = none →
          AddDocument faults newID now caseID (.ok req)
            = ⟨⟨400, .error "fileName is required"⟩, []⟩)
      ∧ (req.URL ≠ "" → faults 0 = none →
          ∃ p : Photo,
            AddPhoto faults newID now caseID (.ok req)
                = ⟨⟨201, .json p⟩, [⟨.create "photos" p.row, none⟩]⟩
              ∧ p.CaseID = caseID ∧ p.URL = req.URL
              ∧ (p.UploadedViaLink = true ↔ req.UploadedVia = some true))
      ∧ (req.URL ≠ "" → ∀ fileName, req.FileName = some fileName → faults 0 = none →
          ∃ d : Document,
            AddDocument faults newID now caseID (.ok req)
                = ⟨⟨201, .json d⟩, [⟨.create "documents" d.row, none⟩]⟩
              ∧ d.CaseID = caseID ∧ d.URL = req.URL ∧ d.FileName = fileName
              ∧ (d.UploadedViaLink = true ↔ req.UploadedVia = some true)) := by
  refine ⟨rfl, rfl, ?_, ?_, ?_, ?_⟩
  · intro h
    obtain ⟨msg, hmsg⟩ := (ShouldBindJSON_AddFileReq req).1 h
    exact ⟨⟨msg, by simp [AddPhoto, hmsg, StatusBadRequest]⟩,
      ⟨msg, by simp [AddDocument, hmsg, StatusBadRequest]⟩⟩
  · intro h hn
    have hb := (ShouldBindJSON_AddFileReq req).2 h
    simp [AddDocument, hb, hn, StatusBadRequest]
  · intro h hf
    have hb := (ShouldBindJSON_AddFileReq req).2 h
    refine ⟨_, by simp only [AddPhoto, hb, hf, StatusCreated]; rfl, rfl, rfl, ?_⟩
    exact uploadedVia_iff req
  · intro h fileName hn hf
    have hb := (ShouldBindJSON_AddFileReq req).2 h
    refine ⟨_, by simp only [AddDocument, hb, hn, hf, StatusCreated]; rfl, rfl, rfl, rfl, ?_⟩
    exact uploadedVia_iff req

/-! ## Error responses: C18 -/

theorem errorShape_error {α : Type} (status : Nat) (msg : String) (h1 : 400 ≤ status)
    (h2 : status < 600) : ErrorShape (⟨status, Body.error msg⟩ : Response α) :=
  ⟨fun _ => ⟨msg, rfl⟩, fun _ _ => ⟨h1, h2⟩⟩

theorem errorShape_none {α : Type} (status : Nat) (h : status < 400) :
    ErrorShape (⟨status, Body.none⟩ : Response α) :=
  ⟨fun h4 => absurd h (by simp only [] at h4; omega), fun _ hb => Body.noConfusion hb⟩

theorem errorShape_json {α : Type} (status : Nat) (v : α) (h : status < 400) :
    ErrorShape (⟨status, Body.json v⟩ : Response α) :=
  ⟨fun h4 => absurd h (by simp only [] at h4; omega), fun _ hb => Body.noConfusion hb⟩

theorem errorShape_patchCore (stmtHead : String) (allowed : List (String × Bool))
    (faults : Nat → Option String) (id : String) (bind : Except String Patch) :
    ErrorShape (patchCore stmtHead allowed faults id bind).resp := by
  cases bind with
  | error e => exact errorShape_error 400 e (by decide) (by decide)
  | ok p =>
    by_cases h : recognized allowed p = []
    · rw [patchCore_none _ _ _ _ _ h]
      exact errorShape_error 400 _ (by decide) (by decide)
    · rw [patchCore_some _ _ _ _ _ h]
      cases faults 0 with
      | none => exact errorShape_none 200 (by decide)
      | some e => exact errorShape_error 500 _ (by decide) (by decide)

theorem errorShape_DeleteRoom (db : Store) (faults : Nat → Option String) (roomID : String) :
    ErrorShape (DeleteRoom db faults roomID).resp := by
  rw [DeleteRoom_eq]
  cases faults 0 with
  | some e0 => exact errorShape_error 500 _ (by decide) (by decide)
  | none =>
  simp only []
  cases txDelete (faults 1) db "Photo" "roomId" (.str roomID) with
  | error e => exact errorShape_error 500 _ (by decide) (by decide)
  | ok w1 =>
    simp only []
    cases txDelete (faults 2) w1 "SuggestedLight" "roomId" (.str roomID) with
    | error e => exact errorShape_error 500 _ (by decide) (by decide)
    | ok w2 =>
      simp only []
      cases txDelete (faults 3) w2 "ExistingLight" "roomId" (.str roomID) with
      | error e => exact errorShape_error 500 _ (by decide) (by decide)
      | ok w3 =>
        simp only []
        cases txDelete (faults 4) w3 "OnSiteVisitRoom" "id" (.str roomID) with
        | error e => exact errorShape_error 500 _ (by decide) (by decide)
        | ok w4 =>
          simp only []
          cases faults 5 with
          | some e => exact errorShape_error 500 _ (by decide) (by decide)
          | none => exact errorShape_none 204 (by decide)

theorem errorShape_EnsureOnSiteVisit (db : Store) (faults : Nat → Option String)
    (newID : String) (now : Int) (caseID : String) :
    ErrorShape (EnsureOnSiteVisit db faults newID now caseID).resp := by
  unfold EnsureOnSiteVisit
  simp only []
  split_ifs
  · exact errorShape_json 200 _ (by decide)
  · split
    · exact errorShape_error 500 _ (by decide) (by decide)
    · exact errorShape_json 200 _ (by decide)

theorem errorShape_GetOnSiteVisit (db : Store) (faults : Nat → Option String)
    (caseID : String) : ErrorShape (GetOnSiteVisit db faults caseID).resp := by
  unfold GetOnSiteVisit
  simp only []
  split_ifs
  · exact errorShape_error 404 _ (by decide) (by decide)
  · split
    · exact errorShape_error 500 _ (by decide) (by decide)
    · split
      · exact errorShape_error 500 _ (by decide) (by decide)
      · exact errorShape_json 200 _ (by decide)

theorem errorShape_GetCase (db : Store) (faults : Nat → Option String) (id : String) :
    ErrorShape (GetCase db faults id).resp := by
  unfold GetCase
  simp only []
  split_ifs
  · exact errorShape_error 404 _ (by decide) (by decide)
  · split
    · exact errorShape_error 500 _ (by decide) (by decide)
    · split
      · exact errorShape_error 500 _ (by decide) (by decide)
      · exact errorShape_json 200 _ (by decide)

theorem errorShape_ListCases (db : Store) (faults : Nat → Option String)
    (hdrUserId hdrRole : String) (qPage qLimit : Option String) :
    ErrorShape (ListCases db faults hdrUserId hdrRole qPage qLimit).resp := by
  unfold ListCases
  by_cases hun : TrimSpace hdrUserId = ""
      ∨ (ToUpper (TrimSpace hdrRole) ≠ "ADMIN" ∧ ToUpper (TrimSpace hdrRole) ≠ "USER")
  · simp only [if_pos hun]
    exact errorShape_error 401 _ (by decide) (by decide)
  · simp only [if_neg hun]
    split
    · exact errorShape_error 500 _ (by decide) (by decide)
    · exact errorShape_json 200 _ (by decide)

theorem errorShape_CreateRoom (db : Store) (faults : Nat → Option String) (newID : String)
    (now : Int) (visitID : String) (decoded : Except String CreateRoomReq) :
    ErrorShape (CreateRoom db faults newID now visitID decoded).resp := by
  unfold CreateRoom
  split
  · exact errorShape_error 400 _ (by decide) (by decide)
  · simp only []
    split
    · exact errorShape_error 500 _ (by decide) (by decide)
    · exact errorShape_json 201 _ (by decide)

theorem errorShape_AddExistingProduct (db : Store) (faults : Nat → Option String)
    (newID roomID : String) (decoded : Except String AddProductReq) :
    ErrorShape (AddExistingProduct db faults newID roomID decoded).resp := by
  unfold AddExistingProduct
  split
  · exact errorShape_error 400 _ (by decide) (by decide)
  · simp only []
    split
    · exact errorShape_error 500 _ (by decide) (by decide)
    · exact errorShape_json 201 _ (by decide)

theorem errorShape_AddSuggestedProduct (db : Store) (faults : Nat → Option String)
    (newID roomID : String) (decoded : Except String AddProductReq) :
    ErrorShape (AddSuggestedProduct db faults newID roomID decoded).resp := by
  unfold AddSuggestedProduct
  split
  · exact errorShape_error 400 _ (by decide) (by decide)
  · simp only []
    split
    · exact errorShape_error 500 _ (by decide) (by decide)
    · exact errorShape_json 201 _ (by decide)

theorem errorShape_DeleteExistingProduct (db : Store) (faults : Nat → Option String)
    (id : String) : ErrorShape (DeleteExistingProduct db faults id).resp := by
  rw [(DeleteExistingProduct_eq db faults id).1]
  cases txDelete (faults 0) db "OnSiteExistingProduct" "id" (.str id)
  · exact errorShape_error 500 _ (by decide) (by decide)
  · exact errorShape_none 204 (by decide)

theorem errorShape_DeleteSuggestedProduct (db : Store) (faults : Nat → Option String)
    (id : String) : ErrorShape (DeleteSuggestedProduct db faults id).resp := by
  rw [(DeleteSuggestedProduct_eq db faults id).1]
  cases txDelete (faults 0) db "OnSiteSuggestedProduct" "id" (.str id)
  · exact errorShape_error 500 _ (by decide) (by decide)
  · exact errorShape_none 204 (by decide)

theorem errorShape_ListProducts (faults : Nat → Option String) (result : List Row)
    (qQ qCategory : String) (qPage qLimit : Option String) :
    ErrorShape (ListProducts faults result qQ qCategory qPage qLimit).resp := by
  unfold ListProducts
  simp only []
  split
  · exact errorShape_error 500 _ (by decide) (by decide)
  · exact errorShape_json 200 _ (by decide)

theorem errorShape_ListLightFixtureTypes (faults : Nat → Option String) (result : List Row)
    (qQ : String) (qPage qLimit : Option String) :
    ErrorShape (ListLightFixtureTypes faults result qQ qPage qLimit).resp := by
  unfold ListLightFixtureTypes
  simp only []
  split
  · exact errorShape_error 500 _ (by decide) (by decide)
  · exact errorShape_json 200 _ (by decide)

theorem errorShape_AddPhoto (faults : Nat → Option String) (newID : String) (now : Int)
    (caseID : String) (decoded : Except String AddFileReq) :
    ErrorShape (AddPhoto faults newID now caseID decoded).resp := by
  unfold AddPhoto
  split
  · exact errorShape_error 400 _ (by decide) (by decide)
  · simp only []
    split
    · exact errorShape_error 500 _ (by decide) (by decide)
    · exact errorShape_json 201 _ (by decide)

theorem errorShape_AddDocument (faults : Nat → Option String) (newID : String) (now : Int)
    (caseID : String) (decoded : Except String AddFileReq) :
    ErrorShape (AddDocument faults newID now caseID decoded).resp := by
  unfold AddDocument
  split
  · exact errorShape_error 400 _ (by decide) (by decide)
  · split
    · exact errorShape_error 400 _ (by decide) (by decide)
    · simp only []
      split
      · exact errorShape_error 500 _ (by decide) (by decide)
      · exact errorShape_json 201 _ (by decide)

/-- C18: every response of every handler with a status of 400 or more has the
error object (one `error` string, nothing else) as its body, and no handler
sends the error object with a status outside 400 to 599: no error is reported
with an empty body or with a success status. -/
theorem every_error_has_error_body (db : Store) (faults : Nat → Option String)
    (id newID : String) (now : Int) (hdrUserId hdrRole qQ qCategory : String)
    (qPage qLimit : Option String) (result : List Row) (patch : Except String Patch)
    (room : Except String CreateRoomReq) (product : Except String AddProductReq)
    (file : Except String AddFileReq) :
    ErrorShape (ListCases db faults hdrUserId hdrRole qPage qLimit).resp
      ∧ ErrorShape (GetCase db faults id).resp
      ∧ ErrorShape (GetOnSiteVisit db faults id).resp
      ∧ ErrorShape (EnsureOnSiteVisit db faults newID now id).resp
      ∧ ErrorShape (CreateRoom db faults newID now id room).resp
      ∧ ErrorShape (UpdateRoom faults id patch).resp
      ∧ ErrorShape (DeleteRoom db faults id).resp
      ∧ ErrorShape (ListProducts faults result qQ qCategory qPage qLimit).resp
      ∧ ErrorShape (ListLightFixtureTypes faults result qQ qPage qLimit).resp
      ∧ ErrorShape (AddExistingProduct db faults newID id product).resp
      ∧ ErrorShape (UpdateExistingProduct faults id patch).resp
      ∧ ErrorShape (DeleteExistingProduct db faults id).resp
      ∧ ErrorShape (AddSuggestedProduct db faults newID id product).resp
      ∧ ErrorShape (UpdateSuggestedProduct faults id patch).resp
      ∧ ErrorShape (DeleteSuggestedProduct db faults id).resp
      ∧ ErrorShape (AddPhoto faults newID now id file).resp
      ∧ ErrorShape (AddDocument faults newID now id file).resp := by
  refine ⟨errorShape_ListCases _ _ _ _ _ _, errorShape_GetCase _ _ _,
    errorShape_GetOnSiteVisit _ _ _, errorShape_EnsureOnSiteVisit _ _ _ _ _,
    errorShape_CreateRoom _ _ _ _ _ _, ?_, errorShape_DeleteRoom _ _ _,
    errorShape_ListProducts _ _ _ _ _ _, errorShape_ListLightFixtureTypes _ _ _ _ _,
    errorShape_AddExistingProduct _ _ _ _ _, ?_, errorShape_DeleteExistingProduct _ _ _,
    errorShape_AddSuggestedProduct _ _ _ _ _, ?_, errorShape_DeleteSuggestedProduct _ _ _,
    errorShape_AddPhoto _ _ _ _ _, errorShape_AddDocument _ _ _ _ _⟩
  · rw [UpdateRoom_core]; exact errorShape_patchCore _ _ _ _ _
  · rw [UpdateExistingProduct_core]; exact errorShape_patchCore _ _ _ _ _
  · rw [UpdateSuggestedProduct_core]; exact errorShape_patchCore _ _ _ _ _

/-! ## Round trips of GetOnSiteVisit: C20 -/

theorem wrapInt_eq_iff (x : Int) (h0 : 0 ≤ x) : wrapInt x = x ↔ x ≤ maxInt := by
  unfold wrapInt maxInt
  omega

/-- The one round trip of `ListProducts`: the text is chosen by which of the
two filters are set, the arguments are the filter values, then the limit and
the offset. -/
theorem ListProducts_calls (faults : Nat → Option String) (result : List Row)
    (qQ qCategory : String) (qPage qLimit : Option String) :
    (ListProducts faults result qQ qCategory qPage qLimit).calls.map Event.call
      = [Call.exec
          ("\n\t\tSELECT \"id\",\"name\",\"wattage\",\"category\",\"description\"\n\t\tFROM \"Product\"\n\t\t"
            ++ (if TrimSpace qQ = "" then
                  (if TrimSpace qCategory = "" then "" else "WHERE \"category\" = ?")
                else if TrimSpace qCategory = "" then
                  "WHERE (\"name\" ILIKE ? OR \"description\" ILIKE ?)"
                else "WHERE (\"name\" ILIKE ? OR \"description\" ILIKE ?) AND \"category\" = ?")
            ++ "\n\t\tORDER BY \"name\" ASC\n\t\tLIMIT ? OFFSET ?")
          ((if TrimSpace qQ = "" then []
            else [Any.str ("%" ++ TrimSpace qQ ++ "%"), Any.str ("%" ++ TrimSpace qQ ++ "%")])
            ++ (if TrimSpace qCategory = "" then [] else [Any.str (TrimSpace qCategory)])
            ++ [Any.num (ListProducts.limit qLimit),
                Any.num (wrapInt ((ListProducts.page qPage - 1) * ListProducts.limit qLimit))])] := by
  have j1 : stringsJoin ["\"category\" = ?"] " AND " = "\"category\" = ?" := by decide
  have j2 : stringsJoin ["(\"name\" ILIKE ? OR \"description\" ILIKE ?)"] " AND "
      = "(\"name\" ILIKE ? OR \"description\" ILIKE ?)" := by decide
  have j3 : stringsJoin ["(\"name\" ILIKE ? OR \"description\" ILIKE ?)", "\"category\" = ?"] " AND "
      = "(\"name\" ILIKE ? OR \"description\" ILIKE ?) AND \"category\" = ?" := by decide
  have w1 : "WHERE " ++ "\"category\" = ?" = "WHERE \"category\" = ?" := by decide
  have w2 : "WHERE " ++ "(\"name\" ILIKE ? OR \"description\" ILIKE ?)"
      = "WHERE (\"name\" ILIKE ? OR \"description\" ILIKE ?)" := by decide
  have w3 : "WHERE " ++ "(\"name\" ILIKE ? OR \"description\" ILIKE ?) AND \"category\" = ?"
      = "WHERE (\"name\" ILIKE ? OR \"description\" ILIKE ?) AND \"category\" = ?" := by decide
  unfold ListProducts
  by_cases hq : TrimSpace qQ = "" <;> by_cases hc : TrimSpace qCategory = ""
  all_goals
    simp only [hq, hc, ne_eq, not_true_eq_false, not_false_eq_true, if_true, if_false,
      List.length_nil, List.length_cons, List.nil_append, List.cons_append, gt_iff_lt,
      Nat.lt_irrefl, Nat.zero_lt_succ, Nat.lt_add_one, Nat.zero_add, Nat.reduceLT, Nat.reduceAdd,
      j1, j2, j3, w1, w2, w3, List.append_nil]
    split <;> rfl

/-- The one round trip of `ListLightFixtureTypes`: the text is chosen by
whether the search filter is set, the arguments are the filter value three
times, then the limit and the offset. -/
theorem ListLightFixtureTypes_calls (faults : Nat → Option String) (result : List Row)
    (qQ : String) (qPage qLimit : Option String) :
    (ListLightFixtureTypes faults result qQ qPage qLimit).calls.map Event.call
      = [Call.exec
          ("\n\t\tSELECT \"id\",\"name\",\"SKU\",\"wattage\",\"imageUrl\",\"description\"\n\t\tFROM \"LightFixtureType\"\n\t\t"
            ++ (if TrimSpace qQ = "" then ""
                else "WHERE (\"name\" ILIKE ? OR \"description\" ILIKE ? OR \"SKU\" ILIKE ?)")
            ++ "\n\t\tORDER BY \"name\" ASC\n\t\tLIMIT ? OFFSET ?")
          ((if TrimSpace qQ = "" then []
            else [Any.str ("%" ++ TrimSpace qQ ++ "%"), Any.str ("%" ++ TrimSpace qQ ++ "%"),
                  Any.str ("%" ++ TrimSpace qQ ++ "%")])
            ++ [Any.num (ListLightFixtureTypes.limit qLimit),
                Any.num (wrapInt ((ListLightFixtureTypes.page qPage - 1)
                  * ListLightFixtureTypes.limit qLimit))])] := by
  have j1 : stringsJoin ["(\"name\" ILIKE ? OR \"description\" ILIKE ? OR \"SKU\" ILIKE ?)"] " AND "
      = "(\"name\" ILIKE ? OR \"description\" ILIKE ? OR \"SKU\" ILIKE ?)" := by decide
  have w1 : "WHERE " ++ "(\"name\" ILIKE ? OR \"description\" ILIKE ? OR \"SKU\" ILIKE ?)"
      = "WHERE (\"name\" ILIKE ? OR \"description\" ILIKE ? OR \"SKU\" ILIKE ?)" := by decide
  unfold ListLightFixtureTypes
  by_cases hq : TrimSpace qQ = ""
  all_goals
    simp only [hq, ne_eq, not_true_eq_false, not_false_eq_true, if_true, if_false,
      List.length_nil, List.length_cons, List.nil_append, List.cons_append, gt_iff_lt,
      Nat.lt_irrefl, Nat.zero_lt_succ, Nat.lt_add_one, Nat.zero_add, Nat.reduceLT, Nat.reduceAdd,
      j1, w1, List.append_nil]
    split <;> rfl

theorem ListProducts_page_ge (qPage : Option String) : 1 ≤ ListProducts.page qPage := by
  unfold ListProducts.page
  simp only []
  split_ifs <;> omega

theorem ListProducts_limit_range (qLimit : Option String) :
    1 ≤ ListProducts.limit qLimit ∧ ListProducts.limit qLimit ≤ 200 := by
  unfold ListProducts.limit
  simp only []
  split_ifs <;> omega

theorem ListLightFixtureTypes_page_ge (qPage : Option String) :
    1 ≤ ListLightFixtureTypes.page qPage := by
  unfold ListLightFixtureTypes.page
  simp only []
  split_ifs <;> omega

theorem ListLightFixtureTypes_limit_range (qLimit : Option String) :
    1 ≤ ListLightFixtureTypes.limit qLimit ∧ ListLightFixtureTypes.limit qLimit ≤ 200 := by
  unfold ListLightFixtureTypes.limit
  simp only []
  split_ifs <;> omega

/-- A product of a page count and a limit within their bounds fits a Go `int`. -/
theorem offset_fits (p l b k : Int) (hp0 : 0 ≤ p) (hl0 : 0 ≤ l) (hl : l ≤ b) (hp : p ≤ k)
    (hk : k * b ≤ maxInt) : 0 ≤ p * l ∧ p * l ≤ maxInt := by
  refine ⟨Int.mul_nonneg hp0 hl0, ?_⟩
  have h1 : p * l ≤ k * b := Int.mul_le_mul hp hl hl0 (le_trans hp0 hp)
  exact le_trans h1 hk

/-! ## The OFFSET of the three list handlers: C21 -/

/-- C21 as stated fails for a large page: page=9223372036854775807 is a Go
`int` (nothing saturates) and limit=2 is within every handler's bounds, the
exact product (page-1)*limit is 18446744073709551612, and the OFFSET argument
each of the three handlers binds is -4: negative, and not the product.
`ListCases` then answers 500, the engine refusing a negative OFFSET. -/
theorem offset_wraps_negative :
    ListCases.page (some "9223372036854775807") = 9223372036854775807
      ∧ ListCases.limit (some "2") = 2
      ∧ (ListCases surveyStore (fun _ => none) "u2" "ADMIN" (some "9223372036854775807")
            (some "2")).calls.map Event.call
          = [Call.exec (ListCases.baseSQL ++ "" ++ ListCases.orderLimit)
              [Any.num 2, Any.num (-4)]]
      ∧ (ListCases surveyStore (fun _ => none) "u2" "ADMIN" (some "9223372036854775807")
            (some "2")).resp.status = 500
      ∧ (ListProducts (fun _ => none) [] "" "" (some "9223372036854775807")
            (some "2")).calls.map Event.call
          = [Call.exec
              "\n\t\tSELECT \"id\",\"name\",\"wattage\",\"category\",\"description\"\n\t\tFROM \"Product\"\n\t\t\n\t\tORDER BY \"name\" ASC\n\t\tLIMIT ? OFFSET ?"
              [Any.num 2, Any.num (-4)]]
      ∧ (ListLightFixtureTypes (fun _ => none) [] "" (some "9223372036854775807")
            (some "2")).calls.map Event.call
          = [Call.exec
              "\n\t\tSELECT \"id\",\"name\",\"SKU\",\"wattage\",\"imageUrl\",\"description\"\n\t\tFROM \"LightFixtureType\"\n\t\t\n\t\tORDER BY \"name\" ASC\n\t\tLIMIT ? OFFSET ?"
              [Any.num 2, Any.num (-4)]]
      ∧ ((9223372036854775807 : Int) - 1) * 2 = 18446744073709551612 := by
  have h1 : ¬ (TrimSpace "u2" = ""
      ∨ (ToUpper (TrimSpace "ADMIN") ≠ "ADMIN" ∧ ToUpper (TrimSpace "ADMIN") ≠ "USER")) := by
    decide
  have h2 : ToUpper (TrimSpace "ADMIN") = "ADMIN" := by decide
  have h3 : ListCases.limit (some "2") = 2 := by decide
  have h4 : ListCases.offset (some "9223372036854775807") (some "2") = -4 := by decide
  have h5 : TrimSpace "" = "" := by decide
  have h6 : ListProducts.limit (some "2") = 2 := by decide
  have h7 : wrapInt ((ListProducts.page (some "9223372036854775807") - 1) * 2) = -4 := by decide
  have h8 : ListLightFixtureTypes.limit (some "2") = 2 := by decide
  have h9 : wrapInt ((ListLightFixtureTypes.page (some "9223372036854775807") - 1) * 2) = -4 := by
    decide
  refine ⟨by decide, h3, ?_, ?_, ?_, ?_, by decide⟩
  · rw [ListCases_calls, if_neg h1, if_pos h2, h3, h4]
  · decide
  · rw [ListProducts_calls, h5, if_pos rfl, if_pos rfl, if_pos rfl, if_pos rfl, h6, h7]
    rfl
  · rw [ListLightFixtureTypes_calls, h5, if_pos rfl, if_pos rfl, h8, h9]
    rfl

/-- C21 (amended): in `ListCases`, `ListProducts` and `ListLightFixtureTypes`
the OFFSET argument is (page-1)*limit over Go's 64-bit `int`, page being
clamped to at least 1 and limit to the handler's bounds. The exact product is
never negative, and the OFFSET equals it (no wraparound) if and only if the
product is at most 2^63-1: so for every page up to 18446744073709552 in
`ListCases` and up to 46116860184273880 in the two catalog lists, whatever the
limit. -/
theorem offset_exact_iff_fits (db : Store) (faults : Nat → Option String)
    (hdrUserId hdrRole : String) (result : List Row) (qQ qCategory : String)
    (qPage qLimit : Option String) :
    ((ListCases db faults hdrUserId hdrRole qPage qLimit).resp.status ≠ 401 →
        ∃ sql owner,
          (ListCases db faults hdrUserId hdrRole qPage qLimit).calls.map Event.call
            = [Call.exec sql
                (owner ++ [Any.num (ListCases.limit qLimit),
                  Any.num (wrapInt ((ListCases.page qPage - 1) * ListCases.limit qLimit))])])
      ∧ (∃ sql filters,
          (ListProducts faults result qQ qCategory qPage qLimit).calls.map Event.call
            = [Call.exec sql
                (filters ++ [Any.num (ListProducts.limit qLimit),
                  Any.num (wrapInt ((ListProducts.page qPage - 1) * ListProducts.limit qLimit))])])
      ∧ (∃ sql filters,
          (ListLightFixtureTypes faults result qQ qPage qLimit).calls.map Event.call
            = [Call.exec sql
                (filters ++ [Any.num (ListLightFixtureTypes.limit qLimit),
                  Any.num (wrapInt ((ListLightFixtureTypes.page qPage - 1)
                    * ListLightFixtureTypes.limit qLimit))])])
      ∧ (0 ≤ (ListCases.page qPage - 1) * ListCases.limit qLimit
          ∧ (wrapInt ((ListCases.page qPage - 1) * ListCases.limit qLimit)
                = (ListCases.page qPage - 1) * ListCases.limit qLimit
              ↔ (ListCases.page qPage - 1) * ListCases.limit qLimit ≤ maxInt)
          ∧ (ListCases.page qPage ≤ 18446744073709552 →
              wrapInt ((ListCases.page qPage - 1) * ListCases.limit qLimit)
                = (ListCases.page qPage - 1) * ListCases.limit qLimit))
      ∧ (0 ≤ (ListProducts.page qPage - 1) * ListProducts.limit qLimit
          ∧ (wrapInt ((ListProducts.page qPage - 1) * ListProducts.limit qLimit)
                = (ListProducts.page qPage - 1) * ListProducts.limit qLimit
              ↔ (ListProducts.page qPage - 1) * ListProducts.limit qLimit ≤ maxInt)
          ∧ (ListProducts.page qPage ≤ 46116860184273880 →
              wrapInt ((ListProducts.page qPage - 1) * ListProducts.limit qLimit)
                = (ListProducts.page qPage - 1) * ListProducts.limit qLimit))
      ∧ (0 ≤ (ListLightFixtureTypes.page qPage - 1) * ListLightFixtureTypes.limit qLimit
          ∧ (wrapInt ((ListLightFixtureTypes.page qPage - 1) * ListLightFixtureTypes.limit qLimit)
                = (ListLightFixtureTypes.page qPage - 1) * ListLightFixtureTypes.limit qLimit
              ↔ (ListLightFixtureTypes.page qPage - 1) * ListLightFixtureTypes.limit qLimit
                  ≤ maxInt)
          ∧ (ListLightFixtureTypes.page qPage ≤ 46116860184273880 →
              wrapInt ((ListLightFixtureTypes.page qPage - 1) * ListLightFixtureTypes.limit qLimit)
                = (ListLightFixtureTypes.page qPage - 1) * ListLightFixtureTypes.limit qLimit)) := by
  have core : ∀ (p l b k : Int), 1 ≤ p → 1 ≤ l → l ≤ b → k * b ≤ maxInt →
      0 ≤ (p - 1) * l
        ∧ (wrapInt ((p - 1) * l) = (p - 1) * l ↔ (p - 1) * l ≤ maxInt)
        ∧ (p ≤ k + 1 → wrapInt ((p - 1) * l) = (p - 1) * l) := by
    intro p l b k hp hl hb hk
    have h0 : 0 ≤ (p - 1) * l := Int.mul_nonneg (by omega) (by omega)
    refine ⟨h0, wrapInt_eq_iff _ h0, fun hpk => ?_⟩
    exact (wrapInt_eq_iff _ h0).mpr
      (offset_fits (p - 1) l b k (by omega) (by omega) hb (by omega) hk).2
  refine ⟨?_, ?_, ?_, ?_, ?_, ?_⟩
  · intro hst
    have hun := mt (ListCases_status db faults hdrUserId hdrRole qPage qLimit).mpr hst
    rw [ListCases_calls, if_neg hun]
    by_cases had : ToUpper (TrimSpace hdrRole) = "ADMIN"
    · rw [if_pos had]
      exact ⟨_, [], rfl⟩
    · rw [if_neg had]
      exact ⟨_, [Any.str (TrimSpace hdrUserId)], rfl⟩
  · rw [ListProducts_calls]
    exact ⟨_, _, rfl⟩
  · rw [ListLightFixtureTypes_calls]
    exact ⟨_, _, rfl⟩
  · exact core _ _ 500 18446744073709551 (ListCases_page_ge qPage) (ListCases_limit_range qLimit).1
      (ListCases_limit_range qLimit).2 (by decide)
  · exact core _ _ 200 46116860184273879 (ListProducts_page_ge qPage)
      (ListProducts_limit_range qLimit).1 (ListProducts_limit_range qLimit).2 (by decide)
  · exact core _ _ 200 46116860184273879 (ListLightFixtureTypes_page_ge qPage)
      (ListLightFixtureTypes_limit_range qLimit).1 (ListLightFixtureTypes_limit_range qLimit).2
      (by decide)

/-! ## Required fields of the product requests: C22 -/

/-- The binding of an `AddProductReq` that decoded: refused when the product
id is empty or the quantity is zero, else the struct as decoded. -/
theorem ShouldBindJSON_AddProductReq (req : AddProductReq) :
    (req.ProductID = "" ∨ req.Quantity = 0 →
        ∃ msg, ShouldBindJSON "AddProductReq" AddProductReq.missing (.ok req) = .error msg)
      ∧ (¬ (req.ProductID = "" ∨ req.Quantity = 0) →
        ShouldBindJSON "AddProductReq" AddProductReq.missing (.ok req) = .ok req) := by
  unfold ShouldBindJSON AddProductReq.missing
  by_cases hp : req.ProductID = "" <;> by_cases hq : req.Quantity = 0 <;> simp [hp, hq]

theorem AddExistingProduct_bound (db : Store) (faults : Nat → Option String) (newID roomID : String)
    (req : AddProductReq) :
    AddExistingProduct db faults newID roomID (.ok req)
      = match ShouldBindJSON "AddProductReq" AddProductReq.missing (.ok req) with
        | .error e => ⟨⟨400, .error e⟩, db, []⟩
        | .ok r =>
          match (match faults 0 with
                 | some e => Except.error e
                 | none => insertRow db "OnSiteExistingProduct"
                    [("id", .str newID), ("roomId", .str roomID), ("productId", .str r.ProductID),
                     ("quantity", .num r.Quantity),
                     ("bypassBallast", .bool (r.BypassBallast.getD false))]) with
          | .error e =>
            ⟨⟨500, .error "create failed"⟩, db,
              [⟨.exec AddExistingProduct.sql
                  [.str roomID, .str r.ProductID, .num r.Quantity,
                   .bool (r.BypassBallast.getD false)], some e⟩]⟩
          | .ok db2 =>
            ⟨⟨201, .json newID⟩, db2,
              [⟨.exec AddExistingProduct.sql
                  [.str roomID, .str r.ProductID, .num r.Quantity,
                   .bool (r.BypassBallast.getD false)], none⟩]⟩ := by
  unfold AddExistingProduct
  cases ShouldBindJSON "AddProductReq" AddProductReq.missing (.ok req) with
  | error e => rfl
  | ok r =>
    have hb : (match r.BypassBallast with | some b => b | none => false)
        = r.BypassBallast.getD false := by
      cases r.BypassBallast <;> rfl
    simp only [hb]
    rfl

theorem AddSuggestedProduct_bound (db : Store) (faults : Nat → Option String)
    (newID roomID : String) (req : AddProductReq) :
    AddSuggestedProduct db faults newID roomID (.ok req)
      = match ShouldBindJSON "AddProductReq" AddProductReq.missing (.ok req) with
        | .error e => ⟨⟨400, .error e⟩, db, []⟩
        | .ok r =>
          match (match faults 0 with
                 | some e => Except.error e
                 | none => insertRow db "OnSiteSuggestedProduct"
                    [("id", .str newID), ("roomId", .str roomID), ("productId", .str r.ProductID),
                     ("quantity", .num r.Quantity)]) with
          | .error e =>
            ⟨⟨500, .error "create failed"⟩, db,
              [⟨.exec AddSuggestedProduct.sql [.str roomID, .str r.ProductID, .num r.Quantity],
                some e⟩]⟩
          | .ok db2 =>
            ⟨⟨201, .json newID⟩, db2,
              [⟨.exec AddSuggestedProduct.sql [.str roomID, .str r.ProductID, .num r.Quantity],
                none⟩]⟩ := by
  unfold AddSuggestedProduct
  cases ShouldBindJSON "AddProductReq" AddProductReq.missing (.ok req) with
  | error e => rfl
  | ok r => rfl

/-- C22: `AddExistingProduct` and `AddSuggestedProduct`, given a body that
decodes into `AddProductReq` (an absent member decoding to its zero value),
answer 400 with an error body, leave the store as it is and make no round
trip when the quantity is 0 or the productId is empty, and only then; for
every other such request the one round trip is the INSERT with exactly the
room id of the path, the productId and the quantity of the request and, for
existing products, bypassBallast, false when absent. A body with neither
member is turned away in this way. -/
theorem addProduct_required_fields (db : Store) (faults : Nat → Option String)
    (newID roomID : String) (req : AddProductReq) :
    (((AddExistingProduct db faults newID roomID (.ok req)).resp.status = 400
          ↔ (req.ProductID = "" ∨ req.Quantity = 0))
        ∧ ((req.ProductID = "" ∨ req.Quantity = 0) →
            (∃ msg, (AddExistingProduct db faults newID roomID (.ok req)).resp
                = ⟨400, .error msg⟩)
              ∧ (AddExistingProduct db faults newID roomID (.ok req)).db = db)
        ∧ (AddExistingProduct db faults newID roomID (.ok req)).calls.map Event.call
            = if req.ProductID = "" ∨ req.Quantity = 0 then []
              else [Call.exec AddExistingProduct.sql
                [.str roomID, .str req.ProductID, .num req.Quantity,
                 .bool (match req.BypassBallast with | some b => b | none => false)]])
      ∧ (((AddSuggestedProduct db faults newID roomID (.ok req)).resp.status = 400
          ↔ (req.ProductID = "" ∨ req.Quantity = 0))
        ∧ ((req.ProductID = "" ∨ req.Quantity = 0) →
            (∃ msg, (AddSuggestedProduct db faults newID roomID (.ok req)).resp
                = ⟨400, .error msg⟩)
              ∧ (AddSuggestedProduct db faults newID roomID (.ok req)).db = db)
        ∧ (AddSuggestedProduct db faults newID roomID (.ok req)).calls.map Event.call
            = if req.ProductID = "" ∨ req.Quantity = 0 then []
              else [Call.exec AddSuggestedProduct.sql
                [.str roomID, .str req.ProductID, .num req.Quantity]])
      ∧ placeholders AddExistingProduct.sql = 4 ∧ placeholders AddSuggestedProduct.sql = 3
      ∧ (AddExistingProduct db faults newID roomID (.ok ⟨"", 0, none⟩)).resp.status = 400
      ∧ (AddSuggestedProduct db faults newID roomID (.ok ⟨"", 0, none⟩)).calls = [] := by
  have hgd : (match req.BypassBallast with | some b => b | none => false)
      = req.BypassBallast.getD false := by
    cases req.BypassBallast <;> rfl
  rw [hgd]
  refine ⟨?_, ?_, by decide, by decide, rfl, rfl⟩
  · rw [AddExistingProduct_bound]
    by_cases hm : req.ProductID = "" ∨ req.Quantity = 0
    · obtain ⟨msg, hb⟩ := (ShouldBindJSON_AddProductReq req).1 hm
      rw [hb, if_pos hm]
      exact ⟨⟨fun _ => hm, fun _ => rfl⟩, fun _ => ⟨⟨msg, rfl⟩, rfl⟩, rfl⟩
    · rw [(ShouldBindJSON_AddProductReq req).2 hm, if_neg hm]
      refine ⟨⟨fun h => ?_, fun h => absurd h hm⟩, fun h => absurd h hm, ?_⟩
      · exfalso
        revert h
        simp only []
        split <;> simp
      · simp only []
        split <;> rfl
  · rw [AddSuggestedProduct_bound]
    by_cases hm : req.ProductID = "" ∨ req.Quantity = 0
    · obtain ⟨msg, hb⟩ := (ShouldBindJSON_AddProductReq req).1 hm
      rw [hb, if_pos hm]
      exact ⟨⟨fun _ => hm, fun _ => rfl⟩, fun _ => ⟨⟨msg, rfl⟩, rfl⟩, rfl⟩
    · rw [(ShouldBindJSON_AddProductReq req).2 hm, if_neg hm]
      refine ⟨⟨fun h => ?_, fun h => absurd h hm⟩, fun h => absurd h hm, ?_⟩
      · exfalso
        revert h
        simp only []
        split <;> simp
      · simp only []
        split <;> rfl

/-! ## EnsureOnSiteVisit after a failed lookup: C23 -/

/-- The two courses of `EnsureOnSiteVisit`. When the lookup fails or finds no
usable visit, the request goes on to the insert, whose outcome alone decides
the response; otherwise the lookup is the only round trip and the visit found
is the answer. -/
theorem ensure_normal (db : Store) (faults : Nat → Option String) (newID : String) (now : Int)
    (caseID : String) :
    (noVisit db faults caseID →
      ((EnsureOnSiteVisit db faults newID now caseID).calls.map Event.call
          = [Call.exec ensureSelectSQL [.str caseID],
             Call.exec ensureInsertSQL [.str newID, .str caseID]])
        ∧ (EnsureOnSiteVisit db faults newID now caseID).resp
            = (match (match faults 1 with
                      | some e => Except.error e
                      | none => insertRow db "OnSiteVisit"
                          [("id", .str newID), ("caseId", .str caseID), ("createdAt", .time now)])
                with
              | .error _ => ⟨500, .error "create visit failed"⟩
              | .ok _ => ⟨200, .json ⟨newID, caseID, now⟩⟩)
        ∧ ((EnsureOnSiteVisit db faults newID now caseID).calls.map Event.err).get? 1
            = some (match (match faults 1 with
                      | some e => Except.error e
                      | none => insertRow db "OnSiteVisit"
                          [("id", .str newID), ("caseId", .str caseID), ("createdAt", .time now)])
                with
              | .error e => some e
              | .ok _ => none))
      ∧ (¬ noVisit db faults caseID →
          (EnsureOnSiteVisit db faults newID now caseID).calls
              = [⟨Call.exec ensureSelectSQL [.str caseID], none⟩]
            ∧ ∃ head, head.ID ≠ ""
                ∧ (EnsureOnSiteVisit db faults newID now caseID).resp = ⟨200, .json head⟩) := by
  unfold noVisit
  cases hf0 : faults 0 with
  | some e0 =>
    refine ⟨fun _ => ?_, fun h => absurd (Or.inl (Option.some_ne_none e0)) h⟩
    cases hf1 : faults 1 with
    | some e1 =>
      simp [EnsureOnSiteVisit, hf0, hf1, StatusInternalServerError]
    | none =>
      cases hi : insertRow db "OnSiteVisit"
          [("id", .str newID), ("caseId", .str caseID), ("createdAt", .time now)] <;>
        simp [EnsureOnSiteVisit, hf0, hf1, hi, StatusOK, StatusInternalServerError, scanHead_cons,
          rowHead_new]
  | none =>
    cases hs : selectWhere db "OnSiteVisit" ["id", "caseId", "createdAt"] "caseId"
        (.str caseID) with
    | error e0 =>
      refine ⟨fun _ => ?_, fun h => absurd (Or.inr (fun rows hr => Except.noConfusion hr)) h⟩
      cases hf1 : faults 1 with
      | some e1 =>
        simp [EnsureOnSiteVisit, hf0, hf1, hs, StatusInternalServerError]
      | none =>
        cases hi : insertRow db "OnSiteVisit"
            [("id", .str newID), ("caseId", .str caseID), ("createdAt", .time now)] <;>
          simp [EnsureOnSiteVisit, hf0, hf1, hs, hi, StatusOK, StatusInternalServerError,
            scanHead_cons, rowHead_new]
    | ok rows =>
      by_cases hid : (scanHead (rows.take 1) ⟨"", "", 0⟩).ID = ""
      · refine ⟨fun _ => ?_, fun h => absurd (Or.inr (fun rows2 hr => ?_)) h⟩
        · cases hf1 : faults 1 with
          | some e1 =>
            simp [EnsureOnSiteVisit, hf0, hf1, hs, hid, StatusInternalServerError]
          | none =>
            cases hi : insertRow db "OnSiteVisit"
                [("id", .str newID), ("caseId", .str caseID), ("createdAt", .time now)] <;>
              simp [EnsureOnSiteVisit, hf0, hf1, hs, hi, hid, StatusOK,
                StatusInternalServerError, scanHead_cons, rowHead_new]
        · rw [← Except.ok.inj hr]
          exact hid
      · refine ⟨fun h => ?_, fun _ => ?_⟩
        · rcases h with h | h
          · exact absurd rfl h
          · exact absurd (h rows rfl) hid
        · refine ⟨?_, scanHead (rows.take 1) ⟨"", "", 0⟩, hid, ?_⟩ <;>
            simp [EnsureOnSiteVisit, hf0, hs, hid, StatusOK]

theorem failedAt_iff (calls : List Event) (i : Nat) (x : Option String)
    (h : (calls.map Event.err).get? i = some x) : failedAt calls i ↔ x ≠ none := by
  rw [List.get?_eq_getElem?, List.getElem?_map, ← List.get?_eq_getElem?] at h
  unfold failedAt
  cases hg : calls.get? i with
  | none => rw [hg] at h; exact Option.noConfusion h
  | some ev =>
    rw [hg] at h
    have hx : ev.err = x := Option.some.inj h
    constructor
    · rintro ⟨ev2, h2, h3⟩
      rw [← hx, Option.some.inj h2]
      exact h3
    · intro hne
      exact ⟨ev, rfl, by rw [hx]; exact hne⟩

/-- C23: `EnsureOnSiteVisit` goes on to the insert, with the freshly generated
id and the case id, if and only if the lookup returned an error or yielded an
empty id (a failed lookup is treated as a visit not found), and otherwise
stops after the lookup; it answers 500 "create visit failed" if and only if
that insert was made and failed, and 200 in every other case: with the visit
found, or with the visit created under the fresh id. So a lookup that fails
for a case without a visit ends in 200 with a new visit, and one that fails
for a case that has a visit ends in 500, the unique index on the case id
refusing the insert. -/
theorem ensure_failed_lookup_inserts (db : Store) (faults : Nat → Option String)
    (newID : String) (now : Int) (caseID : String) :
    (EnsureOnSiteVisit declaredStore (failAt 0 "connection lost") "v9" 5 "case2").resp
        = ⟨200, .json ⟨"v9", "case2", 5⟩⟩
      ∧ (EnsureOnSiteVisit declaredStore (failAt 0 "connection lost") "v9" 5 "case1").resp
        = ⟨500, .error "create visit failed"⟩
      ∧ (noVisit db faults caseID ↔
        (EnsureOnSiteVisit db faults newID now caseID).calls.map Event.call
          = [Call.exec ensureSelectSQL [.str caseID],
             Call.exec ensureInsertSQL [.str newID, .str caseID]])
      ∧ (¬ noVisit db faults caseID ↔
        (EnsureOnSiteVisit db faults newID now caseID).calls.map Event.call
          = [Call.exec ensureSelectSQL [.str caseID]])
      ∧ ((EnsureOnSiteVisit db faults newID now caseID).resp
            = ⟨500, .error "create visit failed"⟩
          ↔ failedAt (EnsureOnSiteVisit db faults newID now caseID).calls 1)
      ∧ ((EnsureOnSiteVisit db faults newID now caseID).resp.status = 500
          ↔ failedAt (EnsureOnSiteVisit db faults newID now caseID).calls 1)
      ∧ (¬ failedAt (EnsureOnSiteVisit db faults newID now caseID).calls 1 →
          (EnsureOnSiteVisit db faults newID now caseID).resp.status = 200)
      ∧ (noVisit db faults caseID →
          ¬ failedAt (EnsureOnSiteVisit db faults newID now caseID).calls 1 →
          (EnsureOnSiteVisit db faults newID now caseID).resp
            = ⟨200, .json ⟨newID, caseID, now⟩⟩) := by
  refine ⟨by decide, by decide, ?_⟩
  by_cases hn : noVisit db faults caseID
  · obtain ⟨hc, hr, he⟩ := (ensure_normal db faults newID now caseID).1 hn
    have hf := failedAt_iff _ 1 _ he
    rw [hf, hr, hc]
    revert hf hr he
    generalize (match faults 1 with
      | some e => Except.error e
      | none => insertRow db "OnSiteVisit"
          [("id", .str newID), ("caseId", .str caseID), ("createdAt", .time now)]) = q2
    intro _ _ _
    cases q2 with
    | error e => simp [hn]
    | ok d => simp [hn]
  · obtain ⟨hc, head, hid, hr⟩ := (ensure_normal db faults newID now caseID).2 hn
    have hf : ¬ failedAt [(⟨Call.exec ensureSelectSQL [.str caseID], none⟩ : Event)] 1 := by
      rintro ⟨ev, h1, _⟩
      exact Option.noConfusion h1
    rw [hr, hc]
    simp [hn, hf]

/-! ## The statements of the catalog lists: C24 -/

theorem ListProducts_limit_eq (qLimit : Option String) :
    ListProducts.limit qLimit
      = (match qLimit with
        | none => 50
        | some s =>
          match parseDecimal s with
          | some v => if 1 ≤ v ∧ v ≤ 200 then v else 50
          | none => 50) := by
  cases qLimit with
  | none =>
    have h : Atoi "50" = (50, true) := by decide
    simp [ListProducts.limit, DefaultQuery, h]
  | some s =>
    simp only [ListProducts.limit, DefaultQuery, Option.getD_some]
    exact limit_of_text s 200 50 (by decide)

theorem ListLightFixtureTypes_limit_eq (qLimit : Option String) :
    ListLightFixtureTypes.limit qLimit
      = (match qLimit with
        | none => 50
        | some s =>
          match parseDecimal s with
          | some v => if 1 ≤ v ∧ v ≤ 200 then v else 50
          | none => 50) := by
  cases qLimit with
  | none =>
    have h : Atoi "50" = (50, true) := by decide
    simp [ListLightFixtureTypes.limit, DefaultQuery, h]
  | some s =>
    simp only [ListLightFixtureTypes.limit, DefaultQuery, Option.getD_some]
    exact limit_of_text s 200 50 (by decide)

set_option maxRecDepth 100000 in
/-- The four texts of `ListProducts`: their placeholders, and whether they
hold a WHERE clause. -/
theorem ListProducts_texts :
    (placeholders ("\n\t\tSELECT \"id\",\"name\",\"wattage\",\"category\",\"description\"\n\t\tFROM \"Product\"\n\t\t"
          ++ "" ++ "\n\t\tORDER BY \"name\" ASC\n\t\tLIMIT ? OFFSET ?") = 2
      ∧ ¬ ("WHERE".data <:+: ("\n\t\tSELECT \"id\",\"name\",\"wattage\",\"category\",\"description\"\n\t\tFROM \"Product\"\n\t\t"
          ++ "" ++ "\n\t\tORDER BY \"name\" ASC\n\t\tLIMIT ? OFFSET ?").data))
      ∧ (placeholders ("\n\t\tSELECT \"id\",\"name\",\"wattage\",\"category\",\"description\"\n\t\tFROM \"Product\"\n\t\t"
          ++ "WHERE \"category\" = ?" ++ "\n\t\tORDER BY \"name\" ASC\n\t\tLIMIT ? OFFSET ?") = 3
        ∧ "WHERE".data <:+: ("\n\t\tSELECT \"id\",\"name\",\"wattage\",\"category\",\"description\"\n\t\tFROM \"Product\"\n\t\t"
          ++ "WHERE \"category\" = ?" ++ "\n\t\tORDER BY \"name\" ASC\n\t\tLIMIT ? OFFSET ?").data)
      ∧ (placeholders ("\n\t\tSELECT \"id\",\"name\",\"wattage\",\"category\",\"description\"\n\t\tFROM \"Product\"\n\t\t"
          ++ "WHERE (\"name\" ILIKE ? OR \"description\" ILIKE ?)"
          ++ "\n\t\tORDER BY \"name\" ASC\n\t\tLIMIT ? OFFSET ?") = 4
        ∧ "WHERE".data <:+: ("\n\t\tSELECT \"id\",\"name\",\"wattage\",\"category\",\"description\"\n\t\tFROM \"Product\"\n\t\t"
          ++ "WHERE (\"name\" ILIKE ? OR \"description\" ILIKE ?)"
          ++ "\n\t\tORDER BY \"name\" ASC\n\t\tLIMIT ? OFFSET ?").data)
      ∧ (placeholders ("\n\t\tSELECT \"id\",\"name\",\"wattage\",\"category\",\"description\"\n\t\tFROM \"Product\"\n\t\t"
          ++ "WHERE (\"name\" ILIKE ? OR \"description\" ILIKE ?) AND \"category\" = ?"
          ++ "\n\t\tORDER BY \"name\" ASC\n\t\tLIMIT ? OFFSET ?") = 5
        ∧ "WHERE".data <:+: ("\n\t\tSELECT \"id\",\"name\",\"wattage\",\"category\",\"description\"\n\t\tFROM \"Product\"\n\t\t"
          ++ "WHERE (\"name\" ILIKE ? OR \"description\" ILIKE ?) AND \"category\" = ?"
          ++ "\n\t\tORDER BY \"name\" ASC\n\t\tLIMIT ? OFFSET ?").data) := by
  refine ⟨⟨by decide, by decide⟩, ⟨by decide, by decide⟩, ⟨by decide, by decide⟩,
    ⟨by decide, by decide⟩⟩

set_option maxRecDepth 100000 in
/-- The two texts of `ListLightFixtureTypes`: their placeholders, and whether
they hold a WHERE clause. -/
theorem ListLightFixtureTypes_texts :
    (placeholders ("\n\t\tSELECT \"id\",\"name\",\"SKU\",\"wattage\",\"imageUrl\",\"description\"\n\t\tFROM \"LightFixtureType\"\n\t\t"
          ++ "" ++ "\n\t\tORDER BY \"name\" ASC\n\t\tLIMIT ? OFFSET ?") = 2
      ∧ ¬ ("WHERE".data <:+: ("\n\t\tSELECT \"id\",\"name\",\"SKU\",\"wattage\",\"imageUrl\",\"description\"\n\t\tFROM \"LightFixtureType\"\n\t\t"
          ++ "" ++ "\n\t\tORDER BY \"name\" ASC\n\t\tLIMIT ? OFFSET ?").data))
      ∧ (placeholders ("\n\t\tSELECT \"id\",\"name\",\"SKU\",\"wattage\",\"imageUrl\",\"description\"\n\t\tFROM \"LightFixtureType\"\n\t\t"
          ++ "WHERE (\"name\" ILIKE ? OR \"description\" ILIKE ? OR \"SKU\" ILIKE ?)"
          ++ "\n\t\tORDER BY \"name\" ASC\n\t\tLIMIT ? OFFSET ?") = 5
        ∧ "WHERE".data <:+: ("\n\t\tSELECT \"id\",\"name\",\"SKU\",\"wattage\",\"imageUrl\",\"description\"\n\t\tFROM \"LightFixtureType\"\n\t\t"
          ++ "WHERE (\"name\" ILIKE ? OR \"description\" ILIKE ? OR \"SKU\" ILIKE ?)"
          ++ "\n\t\tORDER BY \"name\" ASC\n\t\tLIMIT ? OFFSET ?").data) := by
  refine ⟨⟨by decide, by decide⟩, ⟨by decide, by decide⟩⟩

/-- C24: for every query value of q and category, the statement `ListProducts`
issues is one of four fixed texts, chosen only by whether the trimmed q and
the trimmed category are empty, so neither value is part of the text; it has a
WHERE clause if and only if one of the two is non-empty; its bound arguments
are %q% twice when q is set, the category when it is set, then the limit and
the offset, as many as the text has placeholders. The same holds of
`ListLightFixtureTypes` with two texts and %q% three times. In both the
effective limit is the requested limit when it is an integer in [1,200] and
50 otherwise. -/
theorem catalog_statement_is_parameterized (faults : Nat → Option String) (result : List Row)
    (qQ qCategory : String) (qPage qLimit : Option String) :
    (∃ sql args,
        (ListProducts faults result qQ qCategory qPage qLimit).calls.map Event.call
            = [Call.exec sql args]
          ∧ sql = "\n\t\tSELECT \"id\",\"name\",\"wattage\",\"category\",\"description\"\n\t\tFROM \"Product\"\n\t\t"
              ++ (if TrimSpace qQ = "" then
                    (if TrimSpace qCategory = "" then "" else "WHERE \"category\" = ?")
                  else if TrimSpace qCategory = "" then
                    "WHERE (\"name\" ILIKE ? OR \"description\" ILIKE ?)"
                  else "WHERE (\"name\" ILIKE ? OR \"description\" ILIKE ?) AND \"category\" = ?")
              ++ "\n\t\tORDER BY \"name\" ASC\n\t\tLIMIT ? OFFSET ?"
          ∧ args = (if TrimSpace qQ = "" then []
                else [Any.str ("%" ++ TrimSpace qQ ++ "%"), Any.str ("%" ++ TrimSpace qQ ++ "%")])
              ++ (if TrimSpace qCategory = "" then [] else [Any.str (TrimSpace qCategory)])
              ++ [Any.num (ListProducts.limit qLimit),
                  Any.num (wrapInt ((ListProducts.page qPage - 1) * ListProducts.limit qLimit))]
          ∧ placeholders sql = args.length
          ∧ ("WHERE".data <:+: sql.data ↔ (TrimSpace qQ ≠ "" ∨ TrimSpace qCategory ≠ "")))
      ∧ (∃ sql args,
        (ListLightFixtureTypes faults result qQ qPage qLimit).calls.map Event.call
            = [Call.exec sql args]
          ∧ sql = "\n\t\tSELECT \"id\",\"name\",\"SKU\",\"wattage\",\"imageUrl\",\"description\"\n\t\tFROM \"LightFixtureType\"\n\t\t"
              ++ (if TrimSpace qQ = "" then ""
                  else "WHERE (\"name\" ILIKE ? OR \"description\" ILIKE ? OR \"SKU\" ILIKE ?)")
              ++ "\n\t\tORDER BY \"name\" ASC\n\t\tLIMIT ? OFFSET ?"
          ∧ args = (if TrimSpace qQ = "" then []
                else [Any.str ("%" ++ TrimSpace qQ ++ "%"), Any.str ("%" ++ TrimSpace qQ ++ "%"),
                      Any.str ("%" ++ TrimSpace qQ ++ "%")])
              ++ [Any.num (ListLightFixtureTypes.limit qLimit),
                  Any.num (wrapInt ((ListLightFixtureTypes.page qPage - 1)
                    * ListLightFixtureTypes.limit qLimit))]
          ∧ placeholders sql = args.length
          ∧ ("WHERE".data <:+: sql.data ↔ TrimSpace qQ ≠ ""))
      ∧ ListProducts.limit qLimit
          = (match qLimit with
            | none => 50
            | some s =>
              match parseDecimal s with
              | some v => if 1 ≤ v ∧ v ≤ 200 then v else 50
              | none => 50)
      ∧ ListLightFixtureTypes.limit qLimit
          = (match qLimit with
            | none => 50
            | some s =>
              match parseDecimal s with
              | some v => if 1 ≤ v ∧ v ≤ 200 then v else 50
              | none => 50) := by
  refine ⟨⟨_, _, ListProducts_calls faults result qQ qCategory qPage qLimit, rfl, rfl, ?_⟩,
    ⟨_, _, ListLightFixtureTypes_calls faults result qQ qPage qLimit, rfl, rfl, ?_⟩,
    ListProducts_limit_eq qLimit, ListLightFixtureTypes_limit_eq qLimit⟩
  · obtain ⟨⟨a0, b0⟩, ⟨a1, b1⟩, ⟨a2, b2⟩, ⟨a3, b3⟩⟩ := ListProducts_texts
    by_cases hq : TrimSpace qQ = "" <;> by_cases hc : TrimSpace qCategory = ""
    · simp only [hq, hc, if_true]
      exact ⟨a0, ⟨fun h => absurd h b0, fun h => by simp at h⟩⟩
    · simp only [hq, hc, if_true, if_false]
      exact ⟨a1, ⟨fun _ => Or.inr hc, fun _ => b1⟩⟩
    · simp only [hq, hc, if_true, if_false]
      exact ⟨a2, ⟨fun _ => Or.inl hq, fun _ => b2⟩⟩
    · simp only [hq, hc, if_false]
      exact ⟨a3, ⟨fun _ => Or.inl hq, fun _ => b3⟩⟩
  · obtain ⟨⟨a0, b0⟩, ⟨a1, b1⟩⟩ := ListLightFixtureTypes_texts
    by_cases hq : TrimSpace qQ = ""
    · simp only [hq, if_true]
      exact ⟨a0, ⟨fun h => absurd h b0, fun h => absurd rfl h⟩⟩
    · simp only [hq, if_false]
      exact ⟨a1, ⟨fun _ => hq, fun _ => b1⟩⟩

/-! ## The statements of DeleteRoom: C19 -/

/-- The trace of `DeleteRoom`: the transaction is begun; the first DELETE is
always called, each further one exactly when the one before it succeeded, in
program order; and the request ends with the commit, called exactly when all
four succeeded, or with the rollback. -/
theorem DeleteRoom_trace (db : Store) (faults : Nat → Option String) (roomID : String) :
    ((DeleteRoom db faults roomID).calls.head?).map Event.call = some Call.begin
      ∧ 1 ≤ (statementsOf (DeleteRoom db faults roomID).calls).length
      ∧ (statementsOf (DeleteRoom db faults roomID).calls).map Event.call
          = (deleteRoomStatements roomID).take
              (statementsOf (DeleteRoom db faults roomID).calls).length
      ∧ (∀ ev ∈ (statementsOf (DeleteRoom db faults roomID).calls).dropLast, ev.err = none)
      ∧ (∀ e, ⟨Call.exec "DELETE FROM \"OnSiteVisitRoom\" WHERE \"id\" = ?" [Any.str roomID], e⟩
            ∈ (DeleteRoom db faults roomID).calls →
          ((statementsOf (DeleteRoom db faults roomID).calls).take 3).map Event.call
              = (deleteRoomStatements roomID).take 3
            ∧ ∀ ev ∈ (statementsOf (DeleteRoom db faults roomID).calls).take 3, ev.err = none)
      ∧ ((statementsOf (DeleteRoom db faults roomID).calls).length < 4 →
          ∃ ev, (statementsOf (DeleteRoom db faults roomID).calls).getLast? = some ev
            ∧ ev.err ≠ none)
      ∧ ((∃ e, (DeleteRoom db faults roomID).calls.getLast? = some ⟨Call.commit, e⟩)
            ∧ (statementsOf (DeleteRoom db faults roomID).calls).length = 4
            ∧ (∀ ev ∈ statementsOf (DeleteRoom db faults roomID).calls, ev.err = none)
          ∨ (DeleteRoom db faults roomID).calls.getLast? = some ⟨Call.rollback, none⟩
            ∧ (∃ ev, (statementsOf (DeleteRoom db faults roomID).calls).getLast? = some ev
                ∧ ev.err ≠ none))
      ∧ (statementsOf (DeleteRoom db faults roomID).calls).length + 2
          = (DeleteRoom db faults roomID).calls.length := by
  rw [DeleteRoom_eq]
  cases faults 0 with
  | some e0 =>
    simp [deleteRoomStatements, statementsOf, Event.isStatement]
  | none =>
  simp only []
  cases txDelete (faults 1) db "Photo" "roomId" (.str roomID) with
  | error e =>
    simp [failedRun, deleteRoomScript, deleteRoomStatements, statementsOf, Event.isStatement]
  | ok w1 =>
    simp only []
    cases txDelete (faults 2) w1 "SuggestedLight" "roomId" (.str roomID) with
    | error e =>
      simp [failedRun, deleteRoomScript, deleteRoomStatements, statementsOf, Event.isStatement]
    | ok w2 =>
      simp only []
      cases txDelete (faults 3) w2 "ExistingLight" "roomId" (.str roomID) with
      | error e =>
        simp [failedRun, deleteRoomScript, deleteRoomStatements, statementsOf,
          Event.isStatement]
      | ok w3 =>
        simp only []
        cases txDelete (faults 4) w3 "OnSiteVisitRoom" "id" (.str roomID) with
        | error e =>
          simp [failedRun, deleteRoomScript, deleteRoomStatements, statementsOf,
            Event.isStatement]
        | ok w4 =>
          simp only []
          cases faults 5 with
          | some e =>
            simp [deleteRoomScript, deleteRoomStatements, statementsOf, Event.isStatement]
          | none =>
            simp [deleteRoomScript, deleteRoomStatements, statementsOf, Event.isStatement]

set_option maxRecDepth 100000 in
/-- None of the four statements of `DeleteRoom` names the relations that hold
the existing-product rows and the suggested-product rows of a room. -/
theorem deleteRoomStatements_tables (roomID : String) :
    ∀ c ∈ deleteRoomStatements roomID, ∀ sql args, c = Call.exec sql args →
      ¬ ("OnSiteSuggestedProduct".data <:+: sql.data)
        ∧ ¬ ("OnSiteExistingProduct".data <:+: sql.data) := by
  intro c hc sql args hsql
  simp only [deleteRoomStatements, List.mem_cons, List.mem_singleton, List.not_mem_nil,
    or_false] at hc
  rcases hc with h | h | h | h <;>
    (rw [h] at hsql
     obtain ⟨h1, _⟩ := Call.exec.inj hsql
     rw [← h1]
     exact ⟨by decide, by decide⟩)

/-- C19 (the code departs from the claim): `DeleteRoom` does run inside one
transaction, calls its first DELETE always and each further one exactly when
the one before it succeeded, the room row last, and calls nothing but the
rollback after a failed statement. But the statements of steps (2) and (3)
are not deletes of the suggested-product and existing-product rows of the
room: they name the relations `SuggestedLight` and `ExistingLight`, and no
statement of any run names `OnSiteSuggestedProduct` or
`OnSiteExistingProduct`, the relations `AddSuggestedProduct` and
`AddExistingProduct` insert into. On `legacyStore` the run for `room1` makes
all six calls without an error, and the suggested-product row and the two
existing-product rows of `room1` are still there when the room row is
deleted. -/
theorem deleteRoom_statements_miss_products :
    (∀ (db : Store) (faults : Nat → Option String) (roomID : String),
        ((DeleteRoom db faults roomID).calls.head?).map Event.call = some Call.begin
          ∧ 1 ≤ (statementsOf (DeleteRoom db faults roomID).calls).length
          ∧ (statementsOf (DeleteRoom db faults roomID).calls).map Event.call
              = (deleteRoomStatements roomID).take
                  (statementsOf (DeleteRoom db faults roomID).calls).length
          ∧ (∀ ev ∈ (statementsOf (DeleteRoom db faults roomID).calls).dropLast, ev.err = none)
          ∧ (∀ e,
              ⟨Call.exec "DELETE FROM \"OnSiteVisitRoom\" WHERE \"id\" = ?" [Any.str roomID], e⟩
                ∈ (DeleteRoom db faults roomID).calls →
              ((statementsOf (DeleteRoom db faults roomID).calls).take 3).map Event.call
                  = (deleteRoomStatements roomID).take 3
                ∧ ∀ ev ∈ (statementsOf (DeleteRoom db faults roomID).calls).take 3,
                    ev.err = none)
          ∧ ((statementsOf (DeleteRoom db faults roomID).calls).length < 4 →
              ∃ ev, (statementsOf (DeleteRoom db faults roomID).calls).getLast? = some ev
                ∧ ev.err ≠ none)
          ∧ ((∃ e, (DeleteRoom db faults roomID).calls.getLast? = some ⟨Call.commit, e⟩)
                ∧ (statementsOf (DeleteRoom db faults roomID).calls).length = 4
                ∧ (∀ ev ∈ statementsOf (DeleteRoom db faults roomID).calls, ev.err = none)
              ∨ (DeleteRoom db faults roomID).calls.getLast? = some ⟨Call.rollback, none⟩
                ∧ (∃ ev, (statementsOf (DeleteRoom db faults roomID).calls).getLast? = some ev
                    ∧ ev.err ≠ none))
          ∧ (statementsOf (DeleteRoom db faults roomID).calls).length + 2
              = (DeleteRoom db faults roomID).calls.length
          ∧ (∀ ev ∈ (DeleteRoom db faults roomID).calls, ∀ sql args,
              ev.call = Call.exec sql args →
                ¬ ("OnSiteSuggestedProduct".data <:+: sql.data)
                  ∧ ¬ ("OnSiteExistingProduct".data <:+: sql.data)))
      ∧ (DeleteRoom legacyStore (fun _ => none) "room1").calls
          = [⟨Call.begin, none⟩,
             ⟨Call.exec "DELETE FROM \"Photo\" WHERE \"roomId\" = ?" [Any.str "room1"], none⟩,
             ⟨Call.exec "DELETE FROM \"SuggestedLight\" WHERE \"roomId\" = ?" [Any.str "room1"],
               none⟩,
             ⟨Call.exec "DELETE FROM \"ExistingLight\" WHERE \"roomId\" = ?" [Any.str "room1"],
               none⟩,
             ⟨Call.exec "DELETE FROM \"OnSiteVisitRoom\" WHERE \"id\" = ?" [Any.str "room1"],
               none⟩,
             ⟨Call.commit, none⟩]
      ∧ rowsWhere (DeleteRoom legacyStore (fun _ => none) "room1").conn.store
          "OnSiteVisitRoom" "id" "room1" = []
      ∧ rowsWhere (DeleteRoom legacyStore (fun _ => none) "room1").conn.store
          "OnSiteSuggestedProduct" "roomId" "room1"
          = [[("id", .str "s1"), ("roomId", .str "room1"), ("productId", .str "t1"),
              ("quantity", .num 4)]]
      ∧ (rowsWhere (DeleteRoom legacyStore (fun _ => none) "room1").conn.store
          "OnSiteExistingProduct" "roomId" "room1").map (fun r => colValue r "id")
          = [.str "e1", .str "e2"] := by
  refine ⟨?_, by decide, by decide, by decide, by decide⟩
  intro db faults roomID
  obtain ⟨t1, t2, t3, t4, t5, t6, t7, t8⟩ := DeleteRoom_trace db faults roomID
  refine ⟨t1, t2, t3, t4, t5, t6, t7, t8, ?_⟩
  intro ev hev sql args hsql
  have hst : ev ∈ statementsOf (DeleteRoom db faults roomID).calls := by
    unfold statementsOf
    rw [List.mem_filter]
    refine ⟨hev, ?_⟩
    unfold Event.isStatement
    rw [hsql]
  have hmem : ev.call ∈ (statementsOf (DeleteRoom db faults roomID).calls).map Event.call :=
    List.mem_map_of_mem _ hst
  rw [t3] at hmem
  exact deleteRoomStatements_tables roomID ev.call (List.mem_of_mem_take hmem) sql args hsql

end NeonApi
